import Mathlib

/-! Layout model of the win-polyfill PEB / TEB headers.

The headers of the repository are declarations: their meaning is the byte layout
the Microsoft C compiler gives them on x86 and x64.  The development below
embeds

* the C declarations (`CType`, `Member`), one Lean value per `struct`, with the
  `#ifdef _WIN64` branches written as `if a = Arch.x64`;
* the layout rules of the MSVC ABI (`CType.align`, `CType.size`,
  `CType.place`): natural alignment of scalars, sequential placement in a
  `struct`, overlay in a `union`, bit-fields packed from the least significant
  bit of a storage unit of the declared type;
* the oracle of `tests/test.h` (`check_offsetof`, `check_sizeof`,
  `check_uchar_mask`, `check_ulong_mask_both`) and the tables of calls of
  `tests/peb-test.cpp` and `tests/teb-test.cpp`.
-/

namespace WinPolyfill

/-! ## Architectures -/

/-- The two address models the headers are compiled for: `_WIN64` undefined or defined. -/
inductive Arch where
  | x86
  | x64
  deriving DecidableEq, Repr

/-- Size in bytes of a pointer, `HANDLE`, `ULONG_PTR`, `SIZE_T`, `KAFFINITY`. -/
def Arch.ptr : Arch → Nat
  | .x86 => 4
  | .x64 => 8

/-- Width in bits of `size_t`. -/
def Arch.width : Arch → Nat
  | .x86 => 32
  | .x64 => 64

/-- The value of `SIZE_MAX`, the "not applicable" sentinel of the tests. -/
def SIZE_MAX (a : Arch) : Nat := 2 ^ a.width - 1

/-- The value among the two that the build for the architecture selects. -/
def Arch.pick (a : Arch) (x86 x64 : Nat) : Nat :=
  match a with
  | .x86 => x86
  | .x64 => x64

/-! ## C declarations -/

mutual
/-- A C object type, as far as layout is concerned. -/
inductive CType where
  /-- A scalar or an SDK type taken as a block: `sizeof` and `alignof`. -/
  | prim (size align : Nat)
  /-- An array `elem[count]`. -/
  | array (elem : CType) (count : Nat)
  /-- A `struct { ... }`. -/
  | struct (members : List Member)
  /-- A `union { ... }`. -/
  | union (members : List Member)
/-- A member declaration of a `struct` or `union`. -/
inductive Member where
  /-- A named member `T name;`. -/
  | field (name : String) (type : CType)
  /-- An anonymous `struct`/`union` member, whose members belong to the enclosing scope. -/
  | anon (type : CType)
  /-- A bit-field `T name : width;`. -/
  | bits (name : String) (type : CType) (width : Nat)
end

/-- Round `x` up to the next multiple of `a` (the placement rule of the ABI). -/
def alignUp (x a : Nat) : Nat := (x + a - 1) / a * a

mutual
/-- The value of `alignof(T)`: the largest alignment of a member, recursively. -/
def CType.align : CType → Nat
  | .prim _ a => a
  | .array e _ => e.align
  | .struct ms => membersAlign ms
  | .union ms => membersAlign ms
/-- Largest alignment among a list of members (1 for the empty list). -/
def membersAlign : List Member → Nat
  | [] => 1
  | m :: ms => max m.align (membersAlign ms)
/-- Alignment a member asks for: that of its declared type. -/
def Member.align : Member → Nat
  | .field _ t => t.align
  | .anon t => t.align
  | .bits _ t _ => t.align
end

/-- An open run of bit-fields: offset and size of the storage unit, bits already used. -/
structure BitRun where
  unitOff : Nat
  unitSize : Nat
  used : Nat
  deriving DecidableEq, Repr

/-- Whether a bit-field of `width` bits in a unit of `size` bytes continues the open run
(MSVC: same unit size and enough bits left), and if so at which unit and bit. -/
def BitRun.fits (r : Option BitRun) (size width : Nat) : Option BitRun :=
  match r with
  | some r => if r.unitSize = size ∧ r.used + width ≤ 8 * size then some r else none
  | none => none

mutual
/-- The value of `sizeof(T)`. -/
def CType.size : CType → Nat
  | .prim s _ => s
  | .array e n => e.size * n
  | .struct ms => alignUp (structEnd ms 0 none) (membersAlign ms)
  | .union ms => alignUp (unionMax ms) (membersAlign ms)
/-- End offset of the last member of a `struct` whose members are placed from `off` on. -/
def structEnd : List Member → Nat → Option BitRun → Nat
  | [], off, _ => off
  | .field _ t :: ms, off, _ => structEnd ms (alignUp off t.align + t.size) none
  | .anon t :: ms, off, _ => structEnd ms (alignUp off t.align + t.size) none
  | .bits _ t w :: ms, off, run =>
    match BitRun.fits run t.size w with
    | some r => structEnd ms off (some { r with used := r.used + w })
    | none =>
      structEnd ms (alignUp off t.align + t.size)
        (some { unitOff := alignUp off t.align, unitSize := t.size, used := w })
/-- Largest member size of a `union`. -/
def unionMax : List Member → Nat
  | [] => 0
  | .field _ t :: ms => max t.size (unionMax ms)
  | .anon t :: ms => max t.size (unionMax ms)
  | .bits _ t _ :: ms => max t.size (unionMax ms)
end

/-- A member with its place in the outermost block. For a bit-field, `offset` and `size`
are those of its storage unit and `bitWidth` is positive. -/
structure Placed where
  path : List String
  offset : Nat
  size : Nat
  bitOff : Nat
  bitWidth : Nat
  deriving DecidableEq, Repr

mutual
/-- All named members reachable in `T` placed at byte `base`, with `pre` the names of the
enclosing named members. Members of anonymous structs and unions keep the prefix. -/
def CType.place : CType → Nat → List String → List Placed
  | .prim _ _, _, _ => []
  | .array _ _, _, _ => []
  | .struct ms, base, pre => placeStruct ms base 0 none pre
  | .union ms, base, pre => placeUnion ms base pre
/-- Members of a `struct` at `base`, the next free byte being `base + off`. -/
def placeStruct : List Member → Nat → Nat → Option BitRun → List String → List Placed
  | [], _, _, _, _ => []
  | .field n t :: ms, base, off, _, pre =>
    { path := pre ++ [n], offset := base + alignUp off t.align, size := t.size,
      bitOff := 0, bitWidth := 0 } ::
      (t.place (base + alignUp off t.align) (pre ++ [n]) ++
        placeStruct ms base (alignUp off t.align + t.size) none pre)
  | .anon t :: ms, base, off, _, pre =>
    t.place (base + alignUp off t.align) pre ++
      placeStruct ms base (alignUp off t.align + t.size) none pre
  | .bits n t w :: ms, base, off, run, pre =>
    match BitRun.fits run t.size w with
    | some r =>
      { path := pre ++ [n], offset := base + r.unitOff, size := t.size,
        bitOff := r.used, bitWidth := w } ::
        placeStruct ms base off (some { r with used := r.used + w }) pre
    | none =>
      { path := pre ++ [n], offset := base + alignUp off t.align, size := t.size,
        bitOff := 0, bitWidth := w } ::
        placeStruct ms base (alignUp off t.align + t.size)
          (some { unitOff := alignUp off t.align, unitSize := t.size, used := w }) pre
/-- Members of a `union` at `base`: every alternative starts at `base`. -/
def placeUnion : List Member → Nat → List String → List Placed
  | [], _, _ => []
  | .field n t :: ms, base, pre =>
    { path := pre ++ [n], offset := base, size := t.size, bitOff := 0, bitWidth := 0 } ::
      (t.place base (pre ++ [n]) ++ placeUnion ms base pre)
  | .anon t :: ms, base, pre => t.place base pre ++ placeUnion ms base pre
  | .bits n t w :: ms, base, pre =>
    { path := pre ++ [n], offset := base, size := t.size, bitOff := 0, bitWidth := w } ::
      placeUnion ms base pre
end

/-- The layout of a block: every named member with its place. -/
def layout (T : CType) : List Placed := T.place 0 []

/-- First entry of a layout with the given member designator. -/
def findMember (l : List Placed) (path : List String) : Option Placed :=
  l.find? (fun p => p.path = path)

/-- The value of `offsetof(T, path)`; not defined for a bit-field or an unknown member. -/
def offsetOf (l : List Placed) (path : List String) : Option Nat :=
  match findMember l path with
  | some p => if p.bitWidth = 0 then some p.offset else none
  | none => none

/-- The value of `tail_offsetof(s, m)` of `tests/test.h`: `offsetof(s, m) + sizeof(s::m)`. -/
def tail_offsetof (l : List Placed) (path : List String) : Option Nat :=
  match findMember l path with
  | some p => if p.bitWidth = 0 then some (p.offset + p.size) else none
  | none => none

/-! ## Scalar types of the Windows headers

The integer and pointer types come from the Windows SDK; under the MSVC ABI each is
aligned to its size, 8-byte types included on x86. -/

/-- An 8-bit `unsigned char`. -/
def UCHAR : CType := .prim 1 1
/-- An 8-bit boolean, `typedef UCHAR BOOLEAN`. -/
def BOOLEAN : CType := .prim 1 1
/-- An 8-bit `char`. -/
def CHAR : CType := .prim 1 1
/-- An 8-bit `unsigned char`. -/
def BYTE : CType := .prim 1 1
/-- A 16-bit `unsigned short`. -/
def USHORT : CType := .prim 2 2
/-- A 16-bit `wchar_t`. -/
def WCHAR : CType := .prim 2 2
/-- A 32-bit `unsigned long`. -/
def ULONG : CType := .prim 4 4
/-- A 32-bit `long`. -/
def LONG : CType := .prim 4 4
/-- A 32-bit `unsigned long`. -/
def DWORD : CType := .prim 4 4
/-- A 32-bit status code, `typedef LONG NTSTATUS`. -/
def NTSTATUS : CType := .prim 4 4
/-- A 64-bit `unsigned __int64`, 8-aligned. -/
def ULONGLONG : CType := .prim 8 8
/-- A union around a 64-bit `LONGLONG QuadPart`, 8-aligned. -/
def LARGE_INTEGER : CType := .prim 8 8
/-- A union around a 64-bit `ULONGLONG QuadPart`, 8-aligned. -/
def ULARGE_INTEGER : CType := .prim 8 8
/-- Any data or function pointer. -/
def PVOID (a : Arch) : CType := .prim a.ptr a.ptr
/-- A handle, `typedef void *HANDLE`. -/
def HANDLE (a : Arch) : CType := .prim a.ptr a.ptr
/-- An unsigned integer of pointer size. -/
def ULONG_PTR (a : Arch) : CType := .prim a.ptr a.ptr
/-- A processor mask, `typedef ULONG_PTR KAFFINITY`. -/
def KAFFINITY (a : Arch) : CType := .prim a.ptr a.ptr

/-- The members compiled only under `#ifdef _WIN64`. -/
def ifdef_WIN64 (a : Arch) (ms : List Member) : List Member :=
  if a = Arch.x64 then ms else []

/-- The members compiled only under `#ifndef _WIN64`. -/
def ifndef_WIN64 (a : Arch) (ms : List Member) : List Member :=
  if a = Arch.x64 then [] else ms

/-! ## phnt_ntdef.h -/

/-- Counted string `struct _STRING` of phnt_ntdef.h. -/
def STRING (a : Arch) : CType :=
  .struct [
    .field "Length" USHORT,
    .field "MaximumLength" USHORT,
    .field "Buffer" (PVOID a)]

/-- Counted string `struct _UNICODE_STRING` of phnt_ntdef.h. -/
def UNICODE_STRING (a : Arch) : CType :=
  .struct [
    .field "Length" USHORT,
    .field "MaximumLength" USHORT,
    .field "Buffer" (PVOID a)]

/-- The pair of identifiers `struct _CLIENT_ID` of phnt_ntdef.h. -/
def CLIENT_ID (a : Arch) : CType :=
  .struct [
    .field "UniqueProcess" (HANDLE a),
    .field "UniqueThread" (HANDLE a)]

/-- The list head `LIST_ENTRY` of the Windows SDK (winnt.h), which the headers use without
declaring it: the two pointers `Flink` and `Blink`. -/
def LIST_ENTRY (a : Arch) : CType :=
  .struct [
    .field "Flink" (PVOID a),
    .field "Blink" (PVOID a)]

/-! ## win-polyfill-rtl-user-process-parameters.h -/

/-- The current directory `struct _CURDIR`: 0x0C / 0x18 bytes. -/
def CURDIR (a : Arch) : CType :=
  .struct [
    .field "DosPath" (UNICODE_STRING a),
    .field "Handle" (HANDLE a)]

/-- A current directory per drive letter, `struct _RTL_DRIVE_LETTER_CURDIR`. -/
def RTL_DRIVE_LETTER_CURDIR (a : Arch) : CType :=
  .struct [
    .field "Flags" USHORT,
    .field "Length" USHORT,
    .field "TimeStamp" ULONG,
    .field "DosPath" (STRING a)]

/-- The macro `RTL_MAX_DRIVE_LETTERS`. -/
def RTL_MAX_DRIVE_LETTERS : Nat := 32

/-- The process parameters `struct _RTL_USER_PROCESS_PARAMETERS`. -/
def RTL_USER_PROCESS_PARAMETERS (a : Arch) : CType :=
  .struct [
    .field "MaximumLength" ULONG,
    .field "Length" ULONG,
    .field "Flags" ULONG,
    .field "DebugFlags" ULONG,
    .field "ConsoleHandle" (HANDLE a),
    .field "ConsoleFlags" ULONG,
    .field "StandardInput" (HANDLE a),
    .field "StandardOutput" (HANDLE a),
    .field "StandardError" (HANDLE a),
    .field "CurrentDirectory" (CURDIR a),
    .field "DllPath" (UNICODE_STRING a),
    .field "ImagePathName" (UNICODE_STRING a),
    .field "CommandLine" (UNICODE_STRING a),
    .field "Environment" (PVOID a),
    .field "StartingX" ULONG,
    .field "StartingY" ULONG,
    .field "CountX" ULONG,
    .field "CountY" ULONG,
    .field "CountCharsX" ULONG,
    .field "CountCharsY" ULONG,
    .field "FillAttribute" ULONG,
    .field "WindowFlags" ULONG,
    .field "ShowWindowFlags" ULONG,
    .field "WindowTitle" (UNICODE_STRING a),
    .field "DesktopInfo" (UNICODE_STRING a),
    .field "ShellInfo" (UNICODE_STRING a),
    .field "RuntimeData" (UNICODE_STRING a),
    .field "CurrentDirectores" (.array (RTL_DRIVE_LETTER_CURDIR a) RTL_MAX_DRIVE_LETTERS),
    .field "EnvironmentSize" (ULONG_PTR a),
    .field "EnvironmentVersion" (ULONG_PTR a),
    .field "PackageDependencyData" (PVOID a),
    .field "ProcessGroupId" ULONG,
    .field "LoaderThreads" ULONG,
    .field "RedirectionDllName" (UNICODE_STRING a),
    .field "HeapPartitionName" (UNICODE_STRING a),
    .field "DefaultThreadpoolCpuSetMasks" (PVOID a),
    .field "DefaultThreadpoolCpuSetMaskCount" ULONG,
    .field "DefaultThreadpoolThreadMaximum" ULONG,
    .field "HeapMemoryTypeMask" ULONG]

/-! ## win-polyfill-peb.h -/

/-- The eight views of the byte at offset 0x03 of the PEB, each an anonymous `struct` of
`UCHAR` bit-fields, inside `union { UCHAR BitField; ... }`. -/
def PEB_BitField : CType :=
  .union [
    .field "BitField" UCHAR,
    .anon (.struct [
      .bits "ImageUsedLargePages" UCHAR 1,
      .bits "SpareBits_0x03_00" UCHAR 7]),
    .anon (.struct [
      .bits "SpareBits_0x03_01" UCHAR 1,
      .bits "IsProtectedProcess" UCHAR 1,
      .bits "SpareBits_0x03_02" UCHAR 6]),
    .anon (.struct [
      .bits "SpareBits_0x03_03" UCHAR 2,
      .bits "IsLegacyProcess" UCHAR 1,
      .bits "SpareBits_0x03_04" UCHAR 5]),
    .anon (.struct [
      .bits "SpareBits_0x03_05" UCHAR 2,
      .bits "IsImageDynamicallyRelocated_6_3" UCHAR 1,
      .bits "IsImageDynamicallyRelocated_6_0" UCHAR 1,
      .bits "SpareBits_0x03_06" UCHAR 4]),
    .anon (.struct [
      .bits "SpareBits_0x03_07" UCHAR 3,
      .bits "SkipPatchingUser32Forwarders_6_3" UCHAR 1,
      .bits "SkipPatchingUser32Forwarders_6_0_SPx" UCHAR 1,
      .bits "SpareBits_0x03_08" UCHAR 3]),
    .anon (.struct [
      .bits "SpareBits_0x03_09" UCHAR 4,
      .bits "IsPackagedProcess_6_3" UCHAR 1,
      .bits "IsPackagedProcess_6_2" UCHAR 1,
      .bits "SpareBits_0x03_10" UCHAR 2]),
    .anon (.struct [
      .bits "SpareBits_0x03_11" UCHAR 5,
      .bits "IsAppContainer_6_3" UCHAR 1,
      .bits "IsAppContainer_6_2" UCHAR 1,
      .bits "SpareBits_0x03_12" UCHAR 1]),
    .anon (.struct [
      .bits "SpareBits_0x03_13" UCHAR 6,
      .bits "IsProtectedProcessLight" UCHAR 1,
      .bits "IsLongPathAwareProcess" UCHAR 1])]

/-- The union at 0x28 / 0x50 of the PEB: sixteen unaccounted bytes in 3.10, four slots from
3.50 on. -/
def PEB_slot_0x28 (a : Arch) : CType :=
  .union (
    ifndef_WIN64 a [
      .field "nt_3_10_p2" (.struct [.field "Unaccounted" (.array BYTE 0x10)])] ++
    [.anon (.struct ([
      .anon (.union [
        .field "EnvironmentUpdateCount" ULONG,
        .field "CrossProcessFlags" ULONG,
        .anon (.struct [
          .bits "ProcessInJob" ULONG 1,
          .bits "ProcessInitializing" ULONG 1,
          .bits "ProcessUsingVEH" ULONG 1,
          .bits "ProcessUsingVCH" ULONG 1,
          .bits "ProcessUsingFTH" ULONG 1,
          .bits "ProcessPreviouslyThrottled" ULONG 1,
          .bits "ProcessCurrentlyThrottled" ULONG 1,
          .bits "ProcessImagesHotPatched" ULONG 1,
          .bits "ReservedBits0" ULONG 24])])] ++
      ifdef_WIN64 a [.field "Padding1" (.array UCHAR 4)] ++
      [.anon (.union (
        ifndef_WIN64 a [
          .field "nt_3_50_p1" (.struct [.field "Unaccounted" (.array BYTE 4)])] ++
        [.field "KernelCallbackTable" (PVOID a),
         .field "UserSharedInfoPtr" (PVOID a)])),
       .anon (.union (
        ifndef_WIN64 a [.field "EventLogSection" (HANDLE a)] ++
        [.field "SystemReserved0" ULONG])),
       .anon (.union (
        ifndef_WIN64 a [
          .field "EventLog" (PVOID a),
          .field "SystemReserved1" ULONG,
          .anon (.struct [
            .bits "ExecuteOptions" ULONG 2,
            .bits "SpareBits_0x34" ULONG 30])] ++
        [.field "SpareUlong" ULONG,
         .field "AtlThunkSListPtr32" ULONG]))]))])

/-- The process environment block `struct _PEB`. -/
def PEB (a : Arch) : CType :=
  .struct ([
    .field "InheritedAddressSpace" BOOLEAN,
    .field "ReadImageFileExecOptions" BOOLEAN,
    .field "BeingDebugged" BOOLEAN,
    .anon (.union [
      .field "SpareBool" BOOLEAN,
      .anon PEB_BitField])] ++
    ifdef_WIN64 a [.field "Padding0" (.array UCHAR 4)] ++
    [.field "Mutant" (HANDLE a),
     .field "ImageBaseAddress" (PVOID a),
     .field "Ldr" (PVOID a),
     .field "ProcessParameters" (PVOID a),
     .field "SubSystemData" (PVOID a),
     .field "ProcessHeap" (PVOID a),
     .anon (.union (
       ifndef_WIN64 a [.field "nt_3_10_p1" (.struct [.field "FastPebLock" (PVOID a)])] ++
       [.field "FastPebLock" (PVOID a)])),
     .anon (.union (
       ifndef_WIN64 a [
         .field "FastPebLockRoutine" (PVOID a),
         .field "SparePtr1" (PVOID a)] ++
       [.field "AtlThunkSListPtr" (PVOID a)])),
     .anon (.union (
       ifndef_WIN64 a [.field "FastPebUnlockRoutine" (PVOID a)] ++
       [.field "SparePtr2" (PVOID a),
        .field "IFEOKey" (PVOID a)])),
     .anon (PEB_slot_0x28 a),
     .anon (.union [
       .field "FreeList" (PVOID a),
       .field "SparePebPtr0" ULONG,
       .field "ApiSetMap" (PVOID a)]),
     .field "TlsExpansionCounter" ULONG] ++
    ifdef_WIN64 a [.field "Padding2" (.array UCHAR 4)] ++
    [.field "TlsBitmap" (PVOID a),
     .field "TlsBitmapBits" (.array ULONG 2),
     .field "ReadOnlySharedMemoryBase" (PVOID a),
     .anon (.union [
       .field "ReadOnlySharedMemoryHeap" (PVOID a),
       .field "HotpatchInformation" (PVOID a),
       .field "SparePvoid0" (PVOID a),
       .field "SharedData" (PVOID a)]),
     .field "ReadOnlyStaticServerData" (PVOID a),
     .field "AnsiCodePageData" (PVOID a),
     .field "OemCodePageData" (PVOID a),
     .anon (.union (
       ifndef_WIN64 a [
         .field "nt_3_10" (.struct [
           .field "UnicodeCaseTableData" (PVOID a),
           .field "CriticalSectionTimeout" LARGE_INTEGER])] ++
       [.anon (.struct [
         .field "UnicodeCaseTableData" (PVOID a),
         .field "NumberOfProcessors" ULONG,
         .field "NtGlobalFlag" ULONG,
         .field "CriticalSectionTimeout" LARGE_INTEGER])])),
     .field "HeapSegmentReserve" (ULONG_PTR a),
     .field "HeapSegmentCommit" (ULONG_PTR a),
     .field "HeapDeCommitTotalFreeThreshold" (ULONG_PTR a),
     .field "HeapDeCommitFreeBlockThreshold" (ULONG_PTR a),
     .field "NumberOfHeaps" ULONG,
     .field "MaximumNumberOfHeaps" ULONG,
     .field "ProcessHeaps" (PVOID a),
     .field "GdiSharedHandleTable" (PVOID a),
     .field "ProcessStarterHelper" (PVOID a),
     .field "GdiDCAttributeList" ULONG] ++
    ifdef_WIN64 a [.field "Padding3" (.array UCHAR 4)] ++
    [.anon (.union (
       ifndef_WIN64 a [.field "nt_4_0_p1" (.struct [.field "LoaderLock" (PVOID a)])] ++
       [.field "LoaderLock" (PVOID a)])),
     .field "OSMajorVersion" ULONG,
     .field "OSMinorVersion" ULONG,
     .field "OSBuildNumber" USHORT,
     .field "OSCSDVersion" USHORT,
     .field "OSPlatformId" ULONG,
     .field "ImageSubsystem" ULONG,
     .field "ImageSubsystemMajorVersion" ULONG,
     .field "ImageSubsystemMinorVersion" ULONG] ++
    ifdef_WIN64 a [.field "Padding4" (.array UCHAR 4)] ++
    [.anon (.union [
       .field "ImageProcessAffinityMask" (KAFFINITY a),
       .field "ActiveProcessAffinityMask" (KAFFINITY a)])] ++
    ifndef_WIN64 a [.field "GdiHandleBuffer" (.array ULONG 0x22)] ++
    ifdef_WIN64 a [.field "GdiHandleBuffer" (.array ULONG 0x3C)] ++
    [.field "PostProcessInitRoutine" (PVOID a),
     .field "TlsExpansionBitmap" (PVOID a),
     .field "TlsExpansionBitmapBits" (.array ULONG 0x20),
     .field "SessionId" ULONG] ++
    ifdef_WIN64 a [.field "Padding5" (.array UCHAR 4)] ++
    [.anon (.union (
       ifndef_WIN64 a [
         .field "nt_5_0" (.struct [
           .field "AppCompatInfo" (PVOID a),
           .field "CSDVersion" (UNICODE_STRING a)])] ++
       [.anon (.struct [
         .field "AppCompatFlags" ULARGE_INTEGER,
         .field "AppCompatFlagsUser" ULARGE_INTEGER,
         .field "pShimData" (PVOID a),
         .field "AppCompatInfo" (PVOID a),
         .field "CSDVersion" (UNICODE_STRING a)])])),
     .field "ActivationContextData" (PVOID a),
     .field "ProcessAssemblyStorageMap" (PVOID a),
     .field "SystemDefaultActivationContextData" (PVOID a),
     .field "SystemAssemblyStorageMap" (PVOID a),
     .field "MinimumStackCommit" (ULONG_PTR a),
     .anon (.union [
       .anon (.struct [
         .field "FlsCallback" (PVOID a),
         .field "FlsListHead" (LIST_ENTRY a),
         .field "FlsBitmap" (PVOID a),
         .field "FlsBitmapBits" (.array ULONG 4),
         .field "FlsHighIndex" ULONG]),
       .anon (.struct [
         .field "SparePointers" (.array (PVOID a) 4),
         .field "SpareUlongs" (.array ULONG 5)])]),
     .field "WerRegistrationData" (PVOID a),
     .field "WerShipAssertPtr" (PVOID a),
     .anon (.union [
       .field "pContextData" (PVOID a),
       .field "pUnused" (PVOID a)]),
     .field "pImageHeaderHash" (PVOID a),
     .anon (.union [
       .field "TracingFlags" ULONG,
       .anon (.struct [
         .bits "HeapTracingEnabled" ULONG 1,
         .bits "CritSecTracingEnabled" ULONG 1,
         .bits "LibLoaderTracingEnabled" ULONG 1,
         .bits "SpareTracingBits" ULONG 29])]),
     .field "CsrServerReadOnlySharedMemoryBase" ULONGLONG,
     .field "TppWorkerpListLock" ULONG,
     .field "TppWorkerpList" (LIST_ENTRY a),
     .field "WaitOnAddressHashTable" (.array (PVOID a) 0x80),
     .field "TelemetryCoverageHeader" (PVOID a),
     .field "CloudFileFlags" ULONG,
     .field "CloudFileDiagFlags" ULONG,
     .field "PlaceholderCompatibiltyMode" CHAR,
     .field "PlaceholderCompatibilityModeReserved" (.array CHAR 7),
     .field "LeapSecondData" (PVOID a),
     .anon (.union [
       .field "LeapSecondFlags" ULONG,
       .anon (.struct [
         .bits "SixtySecondEnabled" ULONG 1,
         .bits "Reserved" ULONG 31])]),
     .field "NtGlobalFlag2" ULONG,
     .field "ExtendedFeatureDisableMask" ULONGLONG])

/-! ## win-polyfill-teb.h -/

/-- Types and constants that `win-polyfill-teb.h` takes from the Windows SDK and from
`ntpebteb.h`, whose declarations are not among the sources. -/
structure Sdk where
  NT_TIB : CType
  GDI_TEB_BATCH : CType
  ACTIVATION_CONTEXT_STACK : CType
  GUID : CType
  GROUP_AFFINITY : CType
  PROCESSOR_NUMBER : CType
  WIN32_CLIENT_INFO_LENGTH : Nat
  STATIC_UNICODE_BUFFER_LENGTH : Nat
  TLS_MINIMUM_AVAILABLE : Nat

/-- Modelled from the spec: the declarations of `NT_TIB`, `GDI_TEB_BATCH`,
`ACTIVATION_CONTEXT_STACK`, `GUID`, `GROUP_AFFINITY`, `PROCESSOR_NUMBER` and of the three
array lengths are missing; they are taken as blocks with their Windows sizes (`NT_TIB`
0x1C / 0x38, `GDI_TEB_BATCH` 0x4E0 / 0x4E8, `ACTIVATION_CONTEXT_STACK` 0x18 / 0x28, `GUID`
16 with 4-byte alignment, `GROUP_AFFINITY` 12 / 16), structures of pointers being
pointer-aligned; `PROCESSOR_NUMBER` has the three members the commentary of the TEB header
names: a 16-bit `Group`, an 8-bit `Number` and `Reserved` as the fourth byte. -/
def windowsSdk (a : Arch) : Sdk where
  NT_TIB := .prim (7 * a.ptr) a.ptr
  GDI_TEB_BATCH := match a with
    | .x86 => .prim 0x4E0 4
    | .x64 => .prim 0x4E8 8
  ACTIVATION_CONTEXT_STACK := match a with
    | .x86 => .prim 0x18 4
    | .x64 => .prim 0x28 8
  GUID := .prim 16 4
  GROUP_AFFINITY := match a with
    | .x86 => .prim 12 4
    | .x64 => .prim 16 8
  PROCESSOR_NUMBER := .struct [
    .field "Group" USHORT,
    .field "Number" UCHAR,
    .field "Reserved" UCHAR]
  WIN32_CLIENT_INFO_LENGTH := 62
  STATIC_UNICODE_BUFFER_LENGTH := 261
  TLS_MINIMUM_AVAILABLE := 64

/-- The union at 0x3C / 0x70 of the TEB. -/
def TEB_slot_0x3C (a : Arch) : CType :=
  .union (
    ifndef_WIN64 a [
      .field "nt_3_10_p1" (.struct [.field "SpareBytes" (.array UCHAR 0x88)]),
      .field "nt_3_50_p1" (.struct [
        .field "Win32ProcessInfo" (PVOID a),
        .field "Win32ThreadInfo" (PVOID a),
        .field "CsrQlpcStack" (PVOID a),
        .field "SpareBytes" (.array UCHAR 0x7C)])] ++
    [.anon (.struct [
      .field "CsrClientThread" (PVOID a),
      .field "Win32ThreadInfo" (PVOID a),
      .anon (.union (
        ifndef_WIN64 a [
          .field "nt_4_0_p1" (.struct [.field "Win32ClientInfo" (.array ULONG 0x1F)])] ++
        [.anon (.struct [
          .field "User32Reserved" (.array ULONG 26),
          .field "UserReserved" (.array ULONG 5)])])),
      .field "WOW32Reserved" (PVOID a)])])

/-- The union at 0xCC / 0x0110 of the TEB: the system reservation. -/
def TEB_slot_0xCC (a : Arch) (sdk : Sdk) : CType :=
  .union [
    .field "nt_3_10_p2" (.struct [.field "SystemReserved1" (.array (PVOID a) 0x36)]),
    .anon (.struct (
      [.field "ReservedForDebuggerInstrumentation" (.array (PVOID a) 0x10)] ++
      ifdef_WIN64 a [
        .field "SystemReserved1" (.array (PVOID a) 25),
        .field "HeapFlsData" (PVOID a),
        .field "RngState" (.array (ULONG_PTR a) 4)] ++
      ifndef_WIN64 a [.field "SystemReserved1" (.array (PVOID a) 26)] ++
      [.field "PlaceholderCompatibilityMode" CHAR,
       .field "PlaceholderHydrationAlwaysExplicit" BOOLEAN,
       .field "PlaceholderReserved" (.array CHAR 10),
       .field "ProxiedProcessId" DWORD,
       .field "ActivationStack" sdk.ACTIVATION_CONTEXT_STACK,
       .field "WorkingOnBehalfOfTicket" (.array UCHAR 8)]))]

/-- The alternative `nt_3_10` (3.10 only) of the TEB union at 0x01A8. -/
def TEB_nt_3_10 (a : Arch) : CType :=
  .struct [
    .field "Spare2" (PVOID a),
    .field "Win32ThreadInfo" (PVOID a),
    .field "Win32ProcessInfo" (PVOID a),
    .field "UnaccountedBytes_0x01B4" (.array BYTE 0x28),
    .field "DbgSsReserved" (.array (HANDLE a) 2),
    .field "SystemReserved2" (.array (PVOID a) 0x0143),
    .field "CsrQlpcStack" (PVOID a),
    .field "GdiClientPID" ULONG,
    .field "GdiClientTID" ULONG,
    .field "GdiThreadLocalInfo" (PVOID a),
    .field "User32Reserved0" (PVOID a),
    .field "User32Reserved1" (PVOID a),
    .field "UserReserved" (.array (PVOID a) 0x013B)]

/-- The alternative `nt_3_50_p2` (3.50 to 3.51) of the TEB union at 0x01A8. -/
def TEB_nt_3_50_p2 (a : Arch) : CType :=
  .struct [
    .field "Spare2" (PVOID a),
    .field "CsrQlpcTeb" (.array (PVOID a) 5),
    .field "Win32ClientInfo" (.array (PVOID a) 5),
    .field "SystemReserved2" (.array (PVOID a) 0x0142),
    .field "gdiRgn" ULONG,
    .field "gdiPen" ULONG,
    .field "gdiBrush" ULONG,
    .field "RealClientId" (CLIENT_ID a),
    .field "GdiCachedProcessHandle" (PVOID a),
    .field "GdiClientPID" ULONG,
    .field "GdiClientTID" ULONG,
    .field "GdiThreadLocalInfo" (PVOID a),
    .field "User32Reserved0" (PVOID a),
    .field "User32Reserved1" (PVOID a),
    .field "UserReserved" (.array (PVOID a) 3),
    .field "glDispatchTable" (.array (PVOID a) 0x0133)]

/-- The alternative `nt_4_0_p2` (4.0 only) of the TEB union at 0x01A8. -/
def TEB_nt_4_0_p2 (a : Arch) (sdk : Sdk) : CType :=
  .struct [
    .field "ExceptionCode" NTSTATUS,
    .field "SpareBytes1" (.array UCHAR 0x28),
    .field "SystemReserved2" (.array (PVOID a) 0x0A),
    .field "GdiTebBatch" sdk.GDI_TEB_BATCH,
    .field "gdiRgn" ULONG,
    .field "gdiPen" ULONG,
    .field "gdiBrush" ULONG,
    .field "RealClientId" (CLIENT_ID a),
    .field "GdiCachedProcessHandle" (PVOID a),
    .field "GdiClientPID" ULONG,
    .field "GdiClientTID" ULONG,
    .field "GdiThreadLocalInfo" (PVOID a),
    .field "UserReserved" (.array (PVOID a) 5),
    .field "glDispatchTable" (.array (PVOID a) 0x0118),
    .field "glReserved1" (.array ULONG 0x1A),
    .field "glReserved2" (PVOID a)]

/-- The 5.0-and-higher alternative of the TEB union at 0x01A8 / 0x02C8. -/
def TEB_nt_5_0_p2 (a : Arch) (sdk : Sdk) : CType :=
  .struct [
    .anon (.union (
      ifndef_WIN64 a [
        .anon (.struct [.field "SpareBytes1" (.array UCHAR (48 - a.ptr))])] ++
      [.anon (.struct (
        [.field "ActivationContextStackPointer" (PVOID a),
         .field "InstrumentationCallbackSp" (ULONG_PTR a),
         .field "InstrumentationCallbackPreviousPc" (ULONG_PTR a),
         .field "InstrumentationCallbackPreviousSp" (ULONG_PTR a)] ++
        ifdef_WIN64 a [.field "TxFsContext" ULONG] ++
        [.field "InstrumentationCallbackDisabled" BOOLEAN] ++
        ifdef_WIN64 a [
          .field "UnalignedLoadStoreExceptions" BOOLEAN,
          .field "Padding1" (.array UCHAR 2)] ++
        ifndef_WIN64 a [
          .field "SpareBytes" (.array UCHAR 0x17),
          .field "TxFsContext" ULONG]))])),
    .field "GdiTebBatch" sdk.GDI_TEB_BATCH,
    .field "RealClientId" (CLIENT_ID a),
    .field "GdiCachedProcessHandle" (PVOID a),
    .field "GdiClientPID" ULONG,
    .field "GdiClientTID" ULONG,
    .field "GdiThreadLocalInfo" (PVOID a),
    .field "Win32ClientInfo" (.array (ULONG_PTR a) sdk.WIN32_CLIENT_INFO_LENGTH),
    .field "glDispatchTable" (.array (PVOID a) 0xE9),
    .field "glReserved1" (.array (ULONG_PTR a) 0x1D),
    .field "glReserved2" (PVOID a)]

/-- The union at 0x01A8 / 0x02C8 of the TEB. -/
def TEB_slot_0x01A8 (a : Arch) (sdk : Sdk) : CType :=
  .union (
    ifndef_WIN64 a [.field "nt_3_10" (TEB_nt_3_10 a)] ++
    [.anon (.struct [
      .anon (.union (
        ifndef_WIN64 a [
          .field "nt_3_50_p2" (TEB_nt_3_50_p2 a),
          .field "nt_4_0_p2" (TEB_nt_4_0_p2 a sdk)] ++
        [.anon (TEB_nt_5_0_p2 a sdk)])),
      .field "glSectionInfo" (PVOID a),
      .field "glSection" (PVOID a),
      .field "glTable" (PVOID a),
      .field "glCurrentRC" (PVOID a),
      .field "glContext" (PVOID a)])])

/-- The sixteen one-bit fields overlaid on `SameTebFlags`. -/
def TEB_SameTebFlags : CType :=
  .union [
    .field "SameTebFlags" USHORT,
    .anon (.struct [
      .bits "SafeThunkCall" USHORT 1,
      .bits "InDebugPrint" USHORT 1,
      .bits "HasFiberData" USHORT 1,
      .bits "SkipThreadAttach" USHORT 1,
      .bits "WerInShipAssertCode" USHORT 1,
      .bits "RanProcessInit" USHORT 1,
      .bits "ClonedThread" USHORT 1,
      .bits "SuppressDebugMsg" USHORT 1,
      .bits "DisableUserStackWalk" USHORT 1,
      .bits "RtlExceptionAttached" USHORT 1,
      .bits "InitialThread" USHORT 1,
      .bits "SessionAware" USHORT 1,
      .bits "LoadOwner" USHORT 1,
      .bits "LoaderWorker" USHORT 1,
      .bits "SkipLoaderInit" USHORT 1,
      .bits "SkipFileAPIBrokering" USHORT 1])]

/-- The union at 0x0F2C / 0x16B8 of the TEB: instrumentation. -/
def TEB_slot_0x0F2C (a : Arch) (sdk : Sdk) : CType :=
  .union (
    ifndef_WIN64 a [
      .field "nt_4_0_p3" (.struct [.field "Instrumentation" (.array (PVOID a) 0x10)])] ++
    [.field "nt_5_2_sp1_p1" (.struct [
       .field "Instrumentation" (.array (PVOID a) 0x0E),
       .field "SubProcessTag" (PVOID a),
       .field "EtwTraceData" (PVOID a)]),
     .anon (.struct (
       ifdef_WIN64 a [.field "Instrumentation" (.array (PVOID a) 0x0B)] ++
       ifndef_WIN64 a [.field "Instrumentation" (.array (PVOID a) 0x09)] ++
       [.field "ActivityId" sdk.GUID,
        .field "SubProcessTag" (PVOID a),
        .anon (.union [
          .field "EtwLocalData" (PVOID a),
          .field "PerflibData" (PVOID a)]),
        .field "EtwTraceData" (PVOID a)]))])

/-- The members of the TEB from `LastStatusValue` to `WaitingOnLoaderLock` and its padding. -/
def TEB_stable (a : Arch) (sdk : Sdk) : List Member :=
  [.field "LastStatusValue" ULONG] ++
  ifdef_WIN64 a [.field "Padding2" (.array UCHAR 4)] ++
  [.field "StaticUnicodeString" (UNICODE_STRING a),
   .field "StaticUnicodeBuffer" (.array WCHAR sdk.STATIC_UNICODE_BUFFER_LENGTH)] ++
  ifdef_WIN64 a [.field "Padding3" (.array UCHAR 6)] ++
  [.field "DeallocationStack" (PVOID a),
   .field "TlsSlots" (.array (PVOID a) sdk.TLS_MINIMUM_AVAILABLE),
   .field "TlsLinks" (LIST_ENTRY a),
   .field "Vdm" (PVOID a),
   .field "ReservedForNtRpc" (PVOID a),
   .field "DbgSsReserved" (.array (PVOID a) 2),
   .anon (.union [
     .field "HardErrorsAreDisabled" ULONG,
     .field "HardErrorMode" ULONG])] ++
  ifdef_WIN64 a [.field "Padding4" (.array UCHAR 4)] ++
  [.anon (TEB_slot_0x0F2C a sdk),
   .field "WinSockData" (PVOID a),
   .field "GdiBatchCount" ULONG,
   .anon (.union [
     .field "Spare2" ULONG,
     .field "CurrentIdealProcessor" sdk.PROCESSOR_NUMBER,
     .field "IdealProcessorValue" ULONG,
     .anon (.struct [
       .field "InDbgPrint" BOOLEAN,
       .field "FreeStackOnTermination" BOOLEAN,
       .field "HasFiberData_5_1" BOOLEAN,
       .field "IdealProcessor" UCHAR])]),
   .anon (.union [
     .field "Spare3" ULONG,
     .field "GuaranteedStackBytes" ULONG]),
   .anon (.union [
     .field "Spare4" ULONG,
     .field "ReservedForPerf" (PVOID a)]),
   .field "ReservedForOle" (PVOID a),
   .field "WaitingOnLoaderLock" ULONG] ++
  ifdef_WIN64 a [.field "Padding6" (.array UCHAR 4)]

/-- The members of the TEB appended for Windows 2000 and Windows XP. -/
def TEB_appended_5_0 (a : Arch) : List Member :=
  [.anon (.union (
     ifndef_WIN64 a [
       .field "Wx86Thread" (.struct [
         .field "CallBx86Eip" (PVOID a),
         .field "DeallocationCpu" (PVOID a),
         .field "UseKnownWx86Dll" UCHAR,
         .field "OleStubInvoked" CHAR])] ++
     [.anon (.struct [
       .anon (.union [
         .field "SparePointer1" (ULONG_PTR a),
         .field "SavedPriorityState" (PVOID a)]),
       .anon (.union [
         .field "SoftPatchPtr1" (ULONG_PTR a),
         .field "ReservedForCodeCoverage" (ULONG_PTR a)]),
       .anon (.union [
         .field "SoftPatchPtr2" (ULONG_PTR a),
         .field "ThreadPoolData" (PVOID a)])])])),
   .field "TlsExpansionSlots" (PVOID a)] ++
  ifdef_WIN64 a [
    .anon (.union [
      .field "DeallocationBStore" (PVOID a),
      .field "ChpeV2CpuAreaInfo" (PVOID a)]),
    .anon (.union [
      .field "BStoreLimit" (PVOID a),
      .field "Unused" (PVOID a)])] ++
  [.anon (.union [
     .field "ImpersonationLocale" ULONG,
     .field "MuiGeneration" ULONG]),
   .field "IsImpersonating" ULONG,
   .field "NlsCache" (PVOID a),
   .field "pShimData" (PVOID a),
   .anon (.union [
     .field "HeapVirtualAffinity_5_1" ULONG,
     .anon (.struct [
       .field "HeapVirtualAffinity" USHORT,
       .field "LowFragHeapDataSlot" USHORT]),
     .field "HeapData" ULONG])] ++
  ifdef_WIN64 a [.field "Padding7" (.array UCHAR 4)] ++
  [.field "CurrentTransactionHandle" (HANDLE a),
   .field "ActiveFrame" (PVOID a),
   .anon (.union (
     ifndef_WIN64 a [
       .field "nt_5_1_sp2" (.struct [
         .field "SafeThunkCall" BOOLEAN,
         .field "BooleanSpare" (.array BOOLEAN 3)])] ++
     [.anon (.struct [
       .field "FlsData" (PVOID a),
       .anon (.union [
         .field "nt_5_2_sp1_p2" (.struct [
           .field "SafeThunkCall" BOOLEAN,
           .field "BooleanSpare" (.array BOOLEAN 3)]),
         .field "PreferredLanguages" (PVOID a)])])]))]

/-- The members of the TEB appended for Windows Vista and later. -/
def TEB_appended_6_0 (a : Arch) (sdk : Sdk) : List Member :=
  [.field "UserPrefLanguages" (PVOID a),
   .field "MergedPrefLanguages" (PVOID a),
   .field "MuiImpersonation" ULONG,
   .anon (.union [
     .field "CrossTebFlags" USHORT,
     .bits "SpareCrossTebBits" USHORT 16]),
   .anon TEB_SameTebFlags,
   .field "TxnScopeEnterCallback" (PVOID a),
   .field "TxnScopeExitCallback" (PVOID a),
   .field "TxnScopeContext" (PVOID a),
   .field "LockCount" ULONG,
   .anon (.union [
     .field "ProcessRundown" ULONG,
     .field "SpareUlong0" ULONG,
     .field "WowTebOffset" LONG]),
   .anon (.union [
     .anon (.struct [
       .field "LastSwitchTime" ULONGLONG,
       .field "TotalSwitchOutTime" ULONGLONG,
       .field "WaitReasonBitMap" LARGE_INTEGER,
       .field "PaddingVista" (PVOID a)]),
     .anon (.struct [
       .field "ResourceRetValue" (PVOID a),
       .field "ReservedForWdf" (PVOID a),
       .field "ReservedForCrt" ULONGLONG,
       .field "EffectiveContainerId" sdk.GUID])]),
   .field "LastSleepCounter" ULONGLONG,
   .field "SpinCallCount" ULONG,
   .field "ExtendedFeatureDisableMask" ULONGLONG,
   .field "SchedulerSharedDataSlot" (PVOID a),
   .field "HeapWalkContext" (PVOID a),
   .field "PrimaryGroupAffinity" sdk.GROUP_AFFINITY,
   .field "Rcu" (.array ULONG 2)]

/-- The thread environment block `struct _TEB`. -/
def TEB (a : Arch) (sdk : Sdk) : CType :=
  .struct ([
    .field "NtTib" sdk.NT_TIB,
    .field "EnvironmentPointer" (PVOID a),
    .field "ClientId" (CLIENT_ID a),
    .anon (.union (
      ifndef_WIN64 a [.field "UnknownPointerCsrQlpcTeb" (PVOID a)] ++
      [.field "ActiveRpcHandle" (PVOID a)])),
    .field "ThreadLocalStoragePointer" (PVOID a),
    .field "ProcessEnvironmentBlock" (PVOID a),
    .field "LastErrorValue" ULONG,
    .anon (.union (
      ifndef_WIN64 a [.field "UnknowByte" BYTE] ++
      [.field "CountOfOwnedCriticalSections" ULONG])),
    .anon (TEB_slot_0x3C a),
    .field "CurrentLocale" ULONG,
    .field "FpSoftwareStatusRegister" ULONG,
    .anon (TEB_slot_0xCC a sdk),
    .anon (.union (
      ifndef_WIN64 a [.field "nt_3_10_p3" (.struct [.field "Spare1" (PVOID a)])] ++
      [.field "ExceptionCode" LONG]))] ++
    ifdef_WIN64 a [.field "Padding0" (.array UCHAR 4)] ++
    [.anon (TEB_slot_0x01A8 a sdk)] ++
    TEB_stable a sdk ++
    TEB_appended_5_0 a ++
    TEB_appended_6_0 a sdk)

/-! ## tests/test.h: the oracle -/

/-- The macro `ALIGN_POT(x, pot_align)`: `((x) + (pot_align) - 1) & ~((pot_align) - 1)` in
`size_t` arithmetic. -/
def ALIGN_POT (a : Arch) (x pot_align : Nat) : Nat :=
  ((x + pot_align + (2 ^ a.width - 1)) % 2 ^ a.width) &&&
    (2 ^ a.width - 1 - (pot_align + (2 ^ a.width - 1)) % 2 ^ a.width)

/-- The function `check_offsetof`: `true` when no assertion fails. Only the expected value
of the architecture compiled for is looked at, and `SIZE_MAX` switches the check off. -/
def check_offsetof (a : Arch) (offset expected_offset_x86 expected_offset_x64 : Nat) : Bool :=
  match a with
  | .x86 => if expected_offset_x86 ≠ SIZE_MAX a then offset == expected_offset_x86 else true
  | .x64 => if expected_offset_x64 ≠ SIZE_MAX a then offset == expected_offset_x64 else true

/-- The function `check_sizeof`: the size is first rounded up with `ALIGN_POT`. -/
def check_sizeof (a : Arch) (size expected_sizeof_x86 expected_sizeof_x64 alignment : Nat) :
    Bool :=
  match a with
  | .x86 =>
    if expected_sizeof_x86 ≠ SIZE_MAX a then
      ALIGN_POT a size alignment == expected_sizeof_x86 else true
  | .x64 =>
    if expected_sizeof_x64 ≠ SIZE_MAX a then
      ALIGN_POT a size alignment == expected_sizeof_x64 else true

/-- The bytes of an object: the value of the byte at each offset. -/
abbrev Mem := Nat → Nat

/-- A zero-initialised object, as `PEB peb{}`. -/
def Mem.zero : Mem := fun _ => 0

/-- The little-endian value of the `n` bytes from `off` on. -/
def Mem.readLE (m : Mem) (off : Nat) : Nat → Nat
  | 0 => 0
  | n + 1 => m off + 256 * Mem.readLE m (off + 1) n

/-- Store `v`, truncated to `n` bytes, little-endian at `off`. -/
def Mem.writeLE (m : Mem) (off n v : Nat) : Mem :=
  fun x => if off ≤ x ∧ x < off + n then v / 256 ^ (x - off) % 256 else m x

/-- The assignment `obj.member = v`: a plain member is overwritten, a bit-field replaces
`bitWidth` bits from `bitOff` on in its storage unit and leaves the other bits. -/
def assign (l : List Placed) (m : Mem) (path : List String) (v : Nat) : Option Mem :=
  match findMember l path with
  | none => none
  | some p =>
    if p.bitWidth = 0 then some (m.writeLE p.offset p.size v)
    else
      some (m.writeLE p.offset p.size
        ((m.readLE p.offset p.size &&&
            (2 ^ (8 * p.size) - 1 - (2 ^ p.bitWidth - 1) * 2 ^ p.bitOff)) |||
          (v % 2 ^ p.bitWidth) * 2 ^ p.bitOff))

/-- The function `check_uchar_mask`: the byte at `uchar_offset` has every bit of `mask`. -/
def check_uchar_mask (ptr : Mem) (uchar_offset mask : Nat) : Bool :=
  (ptr uchar_offset &&& mask) == mask

/-- The function `check_ulong_mask`: the `ULONG` at `ulong_offset` has every bit of `mask`. -/
def check_ulong_mask (ptr : Mem) (ulong_offset mask : Nat) : Bool :=
  (ptr.readLE ulong_offset 4 &&& mask) == mask

/-- The function `check_ulong_mask_both`: `check_ulong_mask` at the offset of the
architecture compiled for, unless that offset is `SIZE_MAX`. -/
def check_ulong_mask_both (a : Arch) (ptr : Mem) (ulong_offset_x86 ulong_offset_x64 mask : Nat) :
    Bool :=
  match a with
  | .x86 =>
    if ulong_offset_x86 ≠ SIZE_MAX a then check_ulong_mask ptr ulong_offset_x86 mask else true
  | .x64 =>
    if ulong_offset_x64 ≠ SIZE_MAX a then check_ulong_mask ptr ulong_offset_x64 mask else true

/-- Where a call of the tests stands with respect to `#ifdef _WIN64`. -/
inductive Guard where
  | always
  | ifdef_WIN64
  | ifndef_WIN64
  deriving DecidableEq, Repr

/-- Whether a call under the guard is part of the build for the architecture. -/
def Guard.compiled : Guard → Arch → Bool
  | .always, _ => true
  | .ifdef_WIN64, a => a == Arch.x64
  | .ifndef_WIN64, a => a != Arch.x64

/-- An expected value as written in a call: a literal or `SIZE_MAX`. -/
inductive Expected where
  | value (n : Nat)
  | SIZE_MAX
  deriving DecidableEq, Repr

/-- The number an expected value stands for in a build. -/
def Expected.eval (a : Arch) : Expected → Nat
  | .value n => n
  | .SIZE_MAX => WinPolyfill.SIZE_MAX a

/-- The first argument of a call: `offsetof(S, m)`, `tail_offsetof(S, m) + k` or
`sizeof(S)`. -/
inductive Measured where
  | offsetof (path : List String)
  | tail_offsetof (path : List String) (plus : Nat)
  | sizeof
  deriving DecidableEq, Repr

/-- The value of the first argument of a call for the block `T`; `none` when the member
does not exist in the build (the call would not compile). -/
def Measured.eval (T : CType) : Measured → Option Nat
  | .offsetof p => offsetOf (layout T) p
  | .tail_offsetof p k => (WinPolyfill.tail_offsetof (layout T) p).map (· + k)
  | .sizeof => some T.size

/-- The end offset (offset + size) of the member a `check_sizeof` call names, without the
`+ k` of the call; the size of the block for `sizeof(S)`. -/
def Measured.memberEnd (T : CType) : Measured → Option Nat
  | .offsetof p => WinPolyfill.tail_offsetof (layout T) p
  | .tail_offsetof p _ => WinPolyfill.tail_offsetof (layout T) p
  | .sizeof => some T.size

/-- One call `check_offsetof(arg, x86, x64)` or `check_sizeof(arg, x86, x64, alignof(S))`. -/
structure Call where
  guard : Guard
  arg : Measured
  x86 : Expected
  x64 : Expected
  deriving DecidableEq, Repr

/-- The expected value a call carries for the architecture. -/
def Call.expected (c : Call) : Arch → Nat
  | .x86 => c.x86.eval .x86
  | .x64 => c.x64.eval .x64

/-- Outcome of a `check_offsetof` call of the tests on block `T`: `false` also when the
argument does not compile. -/
def Call.runOffsetof (c : Call) (a : Arch) (T : CType) : Bool :=
  match c.arg.eval T with
  | some v => check_offsetof a v (c.x86.eval a) (c.x64.eval a)
  | none => false

/-- Outcome of a `check_sizeof` call of the tests on block `T`, whose last argument is
`alignof(T)`. -/
def Call.runSizeof (c : Call) (a : Arch) (T : CType) : Bool :=
  match c.arg.eval T with
  | some v => check_sizeof a v (c.x86.eval a) (c.x64.eval a) T.align
  | none => false

/-- One block `{ PEB peb{}; peb.member = value; check_uchar_mask(&peb, uchar_offset, mask); }`. -/
structure UcharMaskCall where
  guard : Guard
  member : List String
  value : Nat
  uchar_offset : Nat
  mask : Nat
  deriving DecidableEq, Repr

/-- The object the block checks: zero-initialised, then the one assignment. -/
def UcharMaskCall.object (c : UcharMaskCall) (T : CType) : Option Mem :=
  assign (layout T) Mem.zero c.member c.value

/-- Outcome of the block: `false` also when the member does not exist. -/
def UcharMaskCall.run (c : UcharMaskCall) (T : CType) : Bool :=
  match c.object T with
  | some m => check_uchar_mask m c.uchar_offset c.mask
  | none => false

/-- One block `{ PEB peb{}; peb.member = value; check_ulong_mask_both(&peb, x86, x64, mask); }`. -/
structure UlongMaskCall where
  guard : Guard
  member : List String
  value : Nat
  ulong_offset_x86 : Expected
  ulong_offset_x64 : Expected
  mask : Nat
  deriving DecidableEq, Repr

/-- The object the block checks: zero-initialised, then the one assignment. -/
def UlongMaskCall.object (c : UlongMaskCall) (T : CType) : Option Mem :=
  assign (layout T) Mem.zero c.member c.value

/-- The offset the block reads at in a build. -/
def UlongMaskCall.offset (c : UlongMaskCall) : Arch → Nat
  | .x86 => c.ulong_offset_x86.eval .x86
  | .x64 => c.ulong_offset_x64.eval .x64

/-- Outcome of the block: `false` also when the member does not exist. -/
def UlongMaskCall.run (c : UlongMaskCall) (a : Arch) (T : CType) : Bool :=
  match c.object T with
  | some m =>
    check_ulong_mask_both a m (c.ulong_offset_x86.eval a) (c.ulong_offset_x64.eval a) c.mask
  | none => false

/-! ## tests/peb-test.cpp -/

/-- The `check_offsetof` calls of `test_peb`, in source order. -/
def test_peb_offsetof : List Call :=
  [
  ⟨.always, .offsetof ["InheritedAddressSpace"], .value 0x0, .value 0x0⟩,
  ⟨.always, .offsetof ["ReadImageFileExecOptions"], .value 0x1, .value 0x1⟩,
  ⟨.always, .offsetof ["BeingDebugged"], .value 0x2, .value 0x2⟩,
  ⟨.always, .offsetof ["SpareBool"], .value 0x3, .value 0x3⟩,
  ⟨.always, .offsetof ["BitField"], .value 0x3, .value 0x3⟩,
  ⟨.ifdef_WIN64, .offsetof ["Padding0"], .SIZE_MAX, .value 0x4⟩,
  ⟨.always, .offsetof ["Mutant"], .value 0x4, .value 0x8⟩,
  ⟨.always, .offsetof ["ImageBaseAddress"], .value 0x8, .value 0x10⟩,
  ⟨.always, .offsetof ["Ldr"], .value 0xC, .value 0x18⟩,
  ⟨.always, .offsetof ["ProcessParameters"], .value 0x10, .value 0x20⟩,
  ⟨.always, .offsetof ["SubSystemData"], .value 0x14, .value 0x28⟩,
  ⟨.always, .offsetof ["ProcessHeap"], .value 0x18, .value 0x30⟩,
  ⟨.ifndef_WIN64, .offsetof ["nt_3_10_p1", "FastPebLock"], .value 0x1C, .SIZE_MAX⟩,
  ⟨.always, .offsetof ["FastPebLock"], .value 0x1C, .value 0x38⟩,
  ⟨.ifndef_WIN64, .offsetof ["FastPebLockRoutine"], .value 0x20, .SIZE_MAX⟩,
  ⟨.ifndef_WIN64, .offsetof ["SparePtr1"], .value 0x20, .SIZE_MAX⟩,
  ⟨.always, .offsetof ["AtlThunkSListPtr"], .value 0x20, .value 0x40⟩,
  ⟨.ifndef_WIN64, .offsetof ["FastPebUnlockRoutine"], .value 0x24, .value 0x48⟩,
  ⟨.always, .offsetof ["SparePtr2"], .value 0x24, .value 0x48⟩,
  ⟨.always, .offsetof ["IFEOKey"], .value 0x24, .value 0x48⟩,
  ⟨.ifndef_WIN64, .offsetof ["nt_3_10_p2", "Unaccounted"], .value 0x28, .SIZE_MAX⟩,
  ⟨.always, .offsetof ["EnvironmentUpdateCount"], .value 0x28, .value 0x50⟩,
  ⟨.always, .offsetof ["CrossProcessFlags"], .value 0x28, .value 0x50⟩,
  ⟨.ifdef_WIN64, .offsetof ["Padding1"], .SIZE_MAX, .value 0x54⟩,
  ⟨.ifndef_WIN64, .offsetof ["nt_3_50_p1", "Unaccounted"], .value 0x2C, .SIZE_MAX⟩,
  ⟨.always, .offsetof ["KernelCallbackTable"], .value 0x2C, .value 0x58⟩,
  ⟨.always, .offsetof ["UserSharedInfoPtr"], .value 0x2C, .value 0x58⟩,
  ⟨.ifndef_WIN64, .offsetof ["EventLogSection"], .value 0x30, .SIZE_MAX⟩,
  ⟨.always, .offsetof ["SystemReserved0"], .value 0x30, .value 0x60⟩,
  ⟨.ifndef_WIN64, .offsetof ["EventLog"], .value 0x34, .SIZE_MAX⟩,
  ⟨.ifndef_WIN64, .offsetof ["SystemReserved1"], .value 0x34, .SIZE_MAX⟩,
  ⟨.always, .offsetof ["SpareUlong"], .value 0x34, .value 0x64⟩,
  ⟨.always, .offsetof ["AtlThunkSListPtr32"], .value 0x34, .value 0x64⟩,
  ⟨.always, .offsetof ["FreeList"], .value 0x38, .value 0x68⟩,
  ⟨.always, .offsetof ["SparePebPtr0"], .value 0x38, .value 0x68⟩,
  ⟨.always, .offsetof ["ApiSetMap"], .value 0x38, .value 0x68⟩,
  ⟨.always, .offsetof ["TlsExpansionCounter"], .value 0x3C, .value 0x70⟩,
  ⟨.ifdef_WIN64, .offsetof ["Padding2"], .SIZE_MAX, .value 0x74⟩,
  ⟨.always, .offsetof ["TlsBitmap"], .value 0x40, .value 0x78⟩,
  ⟨.always, .offsetof ["TlsBitmapBits"], .value 0x44, .value 0x80⟩] ++
  [
  ⟨.always, .offsetof ["ReadOnlySharedMemoryBase"], .value 0x4C, .value 0x88⟩,
  ⟨.always, .offsetof ["ReadOnlySharedMemoryHeap"], .value 0x50, .value 0x90⟩,
  ⟨.always, .offsetof ["HotpatchInformation"], .value 0x50, .value 0x90⟩,
  ⟨.always, .offsetof ["SparePvoid0"], .value 0x50, .value 0x90⟩,
  ⟨.always, .offsetof ["SharedData"], .value 0x50, .value 0x90⟩,
  ⟨.always, .offsetof ["ReadOnlyStaticServerData"], .value 0x54, .value 0x98⟩,
  ⟨.always, .offsetof ["AnsiCodePageData"], .value 0x58, .value 0xA0⟩,
  ⟨.always, .offsetof ["OemCodePageData"], .value 0x5C, .value 0xA8⟩,
  ⟨.ifndef_WIN64, .offsetof ["nt_3_10", "UnicodeCaseTableData"], .value 0x60, .value 0xB0⟩,
  ⟨.ifndef_WIN64, .offsetof ["nt_3_10", "CriticalSectionTimeout"], .value 0x68, .SIZE_MAX⟩,
  ⟨.always, .offsetof ["UnicodeCaseTableData"], .value 0x60, .value 0xB0⟩,
  ⟨.always, .offsetof ["NumberOfProcessors"], .value 0x64, .value 0xB8⟩,
  ⟨.always, .offsetof ["NtGlobalFlag"], .value 0x68, .value 0xBC⟩,
  ⟨.always, .offsetof ["CriticalSectionTimeout"], .value 0x70, .value 0xC0⟩,
  ⟨.always, .offsetof ["HeapSegmentReserve"], .value 0x78, .value 0xC8⟩,
  ⟨.always, .offsetof ["HeapSegmentCommit"], .value 0x7C, .value 0xD0⟩,
  ⟨.always, .offsetof ["HeapDeCommitTotalFreeThreshold"], .value 0x80, .value 0xD8⟩,
  ⟨.always, .offsetof ["HeapDeCommitFreeBlockThreshold"], .value 0x84, .value 0xE0⟩,
  ⟨.always, .offsetof ["NumberOfHeaps"], .value 0x88, .value 0xE8⟩,
  ⟨.always, .offsetof ["MaximumNumberOfHeaps"], .value 0x8C, .value 0xEC⟩,
  ⟨.always, .offsetof ["ProcessHeaps"], .value 0x90, .value 0xF0⟩,
  ⟨.always, .offsetof ["GdiSharedHandleTable"], .value 0x94, .value 0xF8⟩,
  ⟨.always, .offsetof ["ProcessStarterHelper"], .value 0x98, .value 0x100⟩,
  ⟨.always, .offsetof ["GdiDCAttributeList"], .value 0x9C, .value 0x108⟩,
  ⟨.ifdef_WIN64, .offsetof ["Padding3"], .SIZE_MAX, .value 0x10C⟩,
  ⟨.ifndef_WIN64, .offsetof ["nt_4_0_p1", "LoaderLock"], .value 0xA0, .value 0x110⟩,
  ⟨.always, .offsetof ["LoaderLock"], .value 0xA0, .value 0x110⟩,
  ⟨.always, .offsetof ["OSMajorVersion"], .value 0xA4, .value 0x118⟩,
  ⟨.always, .offsetof ["OSMinorVersion"], .value 0xA8, .value 0x11C⟩,
  ⟨.always, .offsetof ["OSBuildNumber"], .value 0xAC, .value 0x120⟩,
  ⟨.always, .offsetof ["OSCSDVersion"], .value 0xAE, .value 0x122⟩,
  ⟨.always, .offsetof ["OSPlatformId"], .value 0xB0, .value 0x124⟩,
  ⟨.always, .offsetof ["ImageSubsystem"], .value 0xB4, .value 0x128⟩,
  ⟨.always, .offsetof ["ImageSubsystemMajorVersion"], .value 0xB8, .value 0x12C⟩,
  ⟨.always, .offsetof ["ImageSubsystemMinorVersion"], .value 0xBC, .value 0x130⟩,
  ⟨.ifdef_WIN64, .offsetof ["Padding4"], .SIZE_MAX, .value 0x134⟩,
  ⟨.always, .offsetof ["ImageProcessAffinityMask"], .value 0xC0, .value 0x138⟩,
  ⟨.always, .offsetof ["ActiveProcessAffinityMask"], .value 0xC0, .value 0x138⟩,
  ⟨.always, .offsetof ["GdiHandleBuffer"], .value 0xC4, .value 0x140⟩,
  ⟨.always, .offsetof ["PostProcessInitRoutine"], .value 0x14C, .value 0x230⟩] ++
  [
  ⟨.always, .offsetof ["TlsExpansionBitmap"], .value 0x150, .value 0x238⟩,
  ⟨.always, .offsetof ["TlsExpansionBitmapBits"], .value 0x154, .value 0x240⟩,
  ⟨.always, .offsetof ["SessionId"], .value 0x1D4, .value 0x2C0⟩,
  ⟨.ifdef_WIN64, .offsetof ["Padding5"], .SIZE_MAX, .value 0x2C4⟩,
  ⟨.ifndef_WIN64, .offsetof ["nt_5_0", "AppCompatInfo"], .value 0x1D8, .SIZE_MAX⟩,
  ⟨.ifndef_WIN64, .offsetof ["nt_5_0", "CSDVersion"], .value 0x1DC, .SIZE_MAX⟩,
  ⟨.always, .offsetof ["AppCompatFlags"], .value 0x1D8, .value 0x2C8⟩,
  ⟨.always, .offsetof ["AppCompatFlagsUser"], .value 0x1E0, .value 0x2D0⟩,
  ⟨.always, .offsetof ["pShimData"], .value 0x1E8, .value 0x2D8⟩,
  ⟨.always, .offsetof ["AppCompatInfo"], .value 0x1EC, .value 0x2E0⟩,
  ⟨.always, .offsetof ["CSDVersion"], .value 0x1F0, .value 0x2E8⟩,
  ⟨.always, .offsetof ["ActivationContextData"], .value 0x1F8, .value 0x2F8⟩,
  ⟨.always, .offsetof ["ProcessAssemblyStorageMap"], .value 0x1FC, .value 0x300⟩,
  ⟨.always, .offsetof ["SystemDefaultActivationContextData"], .value 0x200, .value 0x308⟩,
  ⟨.always, .offsetof ["SystemAssemblyStorageMap"], .value 0x204, .value 0x310⟩,
  ⟨.always, .offsetof ["MinimumStackCommit"], .value 0x208, .value 0x318⟩,
  ⟨.always, .offsetof ["FlsCallback"], .value 0x20C, .value 0x320⟩,
  ⟨.always, .offsetof ["FlsListHead"], .value 0x210, .value 0x328⟩,
  ⟨.always, .offsetof ["FlsBitmap"], .value 0x218, .value 0x338⟩,
  ⟨.always, .offsetof ["FlsBitmapBits"], .value 0x21C, .value 0x340⟩,
  ⟨.always, .offsetof ["FlsHighIndex"], .value 0x22C, .value 0x350⟩,
  ⟨.always, .offsetof ["SparePointers"], .value 0x20C, .value 0x320⟩,
  ⟨.always, .offsetof ["SpareUlongs"], .value 0x21C, .value 0x340⟩,
  ⟨.always, .offsetof ["WerRegistrationData"], .value 0x230, .value 0x358⟩,
  ⟨.always, .offsetof ["WerShipAssertPtr"], .value 0x234, .value 0x360⟩,
  ⟨.always, .offsetof ["pContextData"], .value 0x238, .value 0x368⟩,
  ⟨.always, .offsetof ["pUnused"], .value 0x238, .value 0x368⟩,
  ⟨.always, .offsetof ["pImageHeaderHash"], .value 0x23C, .value 0x370⟩,
  ⟨.always, .offsetof ["TracingFlags"], .value 0x240, .value 0x378⟩,
  ⟨.always, .offsetof ["CsrServerReadOnlySharedMemoryBase"], .value 0x248, .value 0x380⟩,
  ⟨.always, .offsetof ["TppWorkerpListLock"], .value 0x250, .value 0x388⟩,
  ⟨.always, .offsetof ["TppWorkerpList"], .value 0x254, .value 0x390⟩,
  ⟨.always, .offsetof ["WaitOnAddressHashTable"], .value 0x25C, .value 0x3A0⟩,
  ⟨.always, .offsetof ["TelemetryCoverageHeader"], .value 0x45C, .value 0x7A0⟩,
  ⟨.always, .offsetof ["CloudFileFlags"], .value 0x460, .value 0x7A8⟩,
  ⟨.always, .offsetof ["CloudFileDiagFlags"], .value 0x464, .value 0x7AC⟩,
  ⟨.always, .offsetof ["PlaceholderCompatibiltyMode"], .value 0x468, .value 0x7B0⟩,
  ⟨.always, .offsetof ["PlaceholderCompatibilityModeReserved"], .value 0x469, .value 0x7B1⟩,
  ⟨.always, .offsetof ["LeapSecondData"], .value 0x470, .value 0x7B8⟩,
  ⟨.always, .offsetof ["LeapSecondFlags"], .value 0x474, .value 0x7C0⟩] ++
  [
  ⟨.always, .offsetof ["NtGlobalFlag2"], .value 0x478, .value 0x7C4⟩,
  ⟨.always, .offsetof ["ExtendedFeatureDisableMask"], .value 0x480, .value 0x7C8⟩]

/-- The `check_sizeof` calls of `test_peb`, in source order. -/
def test_peb_sizeof : List Call :=
  [
  ⟨.ifndef_WIN64, .tail_offsetof ["nt_3_10", "CriticalSectionTimeout"] 0, .value 0x70, .SIZE_MAX⟩,
  ⟨.always, .tail_offsetof ["ProcessHeaps"] 0, .value 0x98, .SIZE_MAX⟩,
  ⟨.always, .tail_offsetof ["GdiHandleBuffer"] 4, .value 0x150, .SIZE_MAX⟩,
  ⟨.ifndef_WIN64, .tail_offsetof ["nt_5_0", "CSDVersion"] 4, .value 0x1E8, .SIZE_MAX⟩,
  ⟨.ifndef_WIN64, .tail_offsetof ["MinimumStackCommit"] 4, .value 0x210, .SIZE_MAX⟩,
  ⟨.always, .tail_offsetof ["FlsHighIndex"] 0, .value 0x230, .value 0x358⟩,
  ⟨.always, .tail_offsetof ["SpareUlongs"] 0, .value 0x230, .value 0x358⟩,
  ⟨.always, .tail_offsetof ["WerShipAssertPtr"] 0, .value 0x238, .value 0x368⟩,
  ⟨.always, .tail_offsetof ["TracingFlags"] 4, .value 0x248, .value 0x380⟩,
  ⟨.always, .tail_offsetof ["CsrServerReadOnlySharedMemoryBase"] 0, .value 0x250, .value 0x388⟩,
  ⟨.always, .tail_offsetof ["NtGlobalFlag2"] 0, .value 0x480, .value 0x7C8⟩,
  ⟨.always, .sizeof, .value 0x488, .value 0x7D0⟩]

/-- The thirteen blocks of `check_peb_BitField`, in source order. -/
def check_peb_BitField : List UcharMaskCall := [
  ⟨.always, ["ImageUsedLargePages"], 1, 0x03, 0x01⟩,
  ⟨.always, ["IsProtectedProcess"], 1, 0x03, 0x02⟩,
  ⟨.always, ["IsLegacyProcess"], 1, 0x03, 0x04⟩,
  ⟨.always, ["IsImageDynamicallyRelocated_6_3"], 1, 0x03, 0x04⟩,
  ⟨.always, ["IsImageDynamicallyRelocated_6_0"], 1, 0x03, 0x08⟩,
  ⟨.always, ["SkipPatchingUser32Forwarders_6_3"], 1, 0x03, 0x08⟩,
  ⟨.always, ["SkipPatchingUser32Forwarders_6_0_SPx"], 1, 0x03, 0x10⟩,
  ⟨.always, ["IsPackagedProcess_6_3"], 1, 0x03, 0x10⟩,
  ⟨.always, ["IsPackagedProcess_6_2"], 1, 0x03, 0x20⟩,
  ⟨.always, ["IsAppContainer_6_3"], 1, 0x03, 0x20⟩,
  ⟨.always, ["IsAppContainer_6_2"], 1, 0x03, 0x40⟩,
  ⟨.always, ["IsProtectedProcessLight"], 1, 0x03, 0x40⟩,
  ⟨.always, ["IsLongPathAwareProcess"], 1, 0x03, 0x80⟩]

/-- The eight blocks of `check_peb_CrossProcessFlags`, in source order. -/
def check_peb_CrossProcessFlags : List UlongMaskCall := [
  ⟨.always, ["ProcessInJob"], 1, .value 0x28, .value 0x50, 0x00000001⟩,
  ⟨.always, ["ProcessInitializing"], 1, .value 0x28, .value 0x50, 0x00000002⟩,
  ⟨.always, ["ProcessUsingVEH"], 1, .value 0x28, .value 0x50, 0x00000004⟩,
  ⟨.always, ["ProcessUsingVCH"], 1, .value 0x28, .value 0x50, 0x00000008⟩,
  ⟨.always, ["ProcessUsingFTH"], 1, .value 0x28, .value 0x50, 0x00000010⟩,
  ⟨.always, ["ProcessPreviouslyThrottled"], 1, .value 0x28, .value 0x50, 0x00000020⟩,
  ⟨.always, ["ProcessCurrentlyThrottled"], 1, .value 0x28, .value 0x50, 0x00000040⟩,
  ⟨.always, ["ProcessImagesHotPatched"], 1, .value 0x28, .value 0x50, 0x00000080⟩]

/-- The `check_uchar_mask` block of `test_peb` itself. -/
def test_peb_uchar_mask : List UcharMaskCall := [
  ⟨.always, ["InheritedAddressSpace"], 1, 0x00, 0x01⟩]

/-- The `check_ulong_mask_both` blocks of `test_peb` itself, in source order. -/
def test_peb_ulong_mask : List UlongMaskCall := [
  ⟨.ifndef_WIN64, ["ExecuteOptions"], 3, .value 0x34, .value 0x64, 0x00000003⟩,
  ⟨.always, ["HeapTracingEnabled"], 1, .value 0x240, .value 0x378, 0x00000001⟩,
  ⟨.always, ["CritSecTracingEnabled"], 1, .value 0x240, .value 0x378, 0x00000002⟩,
  ⟨.always, ["LibLoaderTracingEnabled"], 1, .value 0x240, .value 0x378, 0x00000004⟩,
  ⟨.always, ["SixtySecondEnabled"], 1, .value 0x474, .value 0x7C0, 0x00000001⟩]

/-- The `check_offsetof` calls of `test_RTL_USER_PROCESS_PARAMETERS`, in source order. -/
def test_RTL_USER_PROCESS_PARAMETERS_offsetof : List Call :=
  [
  ⟨.always, .offsetof ["MaximumLength"], .value 0x0, .value 0x0⟩,
  ⟨.always, .offsetof ["Length"], .value 0x4, .value 0x4⟩,
  ⟨.always, .offsetof ["Flags"], .value 0x8, .value 0x8⟩,
  ⟨.always, .offsetof ["DebugFlags"], .value 0xC, .value 0xC⟩,
  ⟨.always, .offsetof ["ConsoleHandle"], .value 0x10, .value 0x10⟩,
  ⟨.always, .offsetof ["ConsoleFlags"], .value 0x14, .value 0x18⟩,
  ⟨.always, .offsetof ["StandardInput"], .value 0x18, .value 0x20⟩,
  ⟨.always, .offsetof ["StandardOutput"], .value 0x1C, .value 0x28⟩,
  ⟨.always, .offsetof ["StandardError"], .value 0x20, .value 0x30⟩,
  ⟨.always, .offsetof ["CurrentDirectory"], .value 0x24, .value 0x38⟩,
  ⟨.always, .offsetof ["DllPath"], .value 0x30, .value 0x50⟩,
  ⟨.always, .offsetof ["ImagePathName"], .value 0x38, .value 0x60⟩,
  ⟨.always, .offsetof ["CommandLine"], .value 0x40, .value 0x70⟩,
  ⟨.always, .offsetof ["Environment"], .value 0x48, .value 0x80⟩,
  ⟨.always, .offsetof ["StartingX"], .value 0x4C, .value 0x88⟩,
  ⟨.always, .offsetof ["StartingY"], .value 0x50, .value 0x8C⟩,
  ⟨.always, .offsetof ["CountX"], .value 0x54, .value 0x90⟩,
  ⟨.always, .offsetof ["CountY"], .value 0x58, .value 0x94⟩,
  ⟨.always, .offsetof ["CountCharsX"], .value 0x5C, .value 0x98⟩,
  ⟨.always, .offsetof ["CountCharsY"], .value 0x60, .value 0x9C⟩,
  ⟨.always, .offsetof ["FillAttribute"], .value 0x64, .value 0xA0⟩,
  ⟨.always, .offsetof ["WindowFlags"], .value 0x68, .value 0xA4⟩,
  ⟨.always, .offsetof ["ShowWindowFlags"], .value 0x6C, .value 0xA8⟩,
  ⟨.always, .offsetof ["WindowTitle"], .value 0x70, .value 0xB0⟩,
  ⟨.always, .offsetof ["DesktopInfo"], .value 0x78, .value 0xC0⟩,
  ⟨.always, .offsetof ["ShellInfo"], .value 0x80, .value 0xD0⟩,
  ⟨.always, .offsetof ["RuntimeData"], .value 0x88, .value 0xE0⟩,
  ⟨.always, .offsetof ["CurrentDirectores"], .value 0x90, .value 0xF0⟩,
  ⟨.always, .offsetof ["EnvironmentSize"], .value 0x290, .value 0x3F0⟩,
  ⟨.always, .offsetof ["EnvironmentVersion"], .value 0x294, .value 0x3F8⟩,
  ⟨.always, .offsetof ["PackageDependencyData"], .value 0x298, .value 0x400⟩,
  ⟨.always, .offsetof ["ProcessGroupId"], .value 0x29C, .value 0x408⟩,
  ⟨.always, .offsetof ["LoaderThreads"], .value 0x2A0, .value 0x40C⟩,
  ⟨.always, .offsetof ["RedirectionDllName"], .value 0x2A4, .value 0x410⟩,
  ⟨.always, .offsetof ["HeapPartitionName"], .value 0x2AC, .value 0x420⟩,
  ⟨.always, .offsetof ["DefaultThreadpoolCpuSetMasks"], .value 0x2B4, .value 0x430⟩,
  ⟨.always, .offsetof ["DefaultThreadpoolCpuSetMaskCount"], .value 0x2B8, .value 0x438⟩,
  ⟨.always, .offsetof ["DefaultThreadpoolThreadMaximum"], .value 0x2BC, .value 0x43C⟩,
  ⟨.always, .offsetof ["HeapMemoryTypeMask"], .value 0x2C0, .value 0x440⟩]

/-- The `check_sizeof` call of `test_RTL_USER_PROCESS_PARAMETERS`. -/
def test_RTL_USER_PROCESS_PARAMETERS_sizeof : List Call :=
  [
  ⟨.always, .sizeof, .value 0x2C4, .value 0x448⟩]

/-! ## tests/teb-test.cpp -/

/-- The `check_offsetof` calls of `test_teb`, in source order. -/
def test_teb_offsetof : List Call :=
  [
  ⟨.always, .offsetof ["nt_3_10_p2", "SystemReserved1"], .value 0xCC, .value 0x110⟩,
  ⟨.always, .offsetof ["ReservedForDebuggerInstrumentation"], .value 0xCC, .value 0x110⟩,
  ⟨.always, .offsetof ["SystemReserved1"], .value 0x10C, .value 0x190⟩,
  ⟨.always, .offsetof ["PlaceholderCompatibilityMode"], .value 0x174, .value 0x280⟩,
  ⟨.always, .offsetof ["PlaceholderHydrationAlwaysExplicit"], .value 0x175, .value 0x281⟩,
  ⟨.always, .offsetof ["PlaceholderReserved"], .value 0x176, .value 0x282⟩,
  ⟨.always, .offsetof ["ProxiedProcessId"], .value 0x180, .value 0x28C⟩,
  ⟨.always, .offsetof ["ActivationStack"], .value 0x184, .value 0x290⟩,
  ⟨.always, .offsetof ["WorkingOnBehalfOfTicket"], .value 0x19C, .value 0x2B8⟩,
  ⟨.always, .tail_offsetof ["WorkingOnBehalfOfTicket"] 0, .value 0x1A4, .value 0x2C0⟩,
  ⟨.ifndef_WIN64, .offsetof ["nt_3_10_p3", "Spare1"], .value 0x1A4, .SIZE_MAX⟩,
  ⟨.always, .offsetof ["ExceptionCode"], .value 0x1A4, .value 0x2C0⟩,
  ⟨.ifdef_WIN64, .offsetof ["Padding0"], .SIZE_MAX, .value 0x2C4⟩,
  ⟨.ifndef_WIN64, .offsetof ["nt_3_10", "Spare2"], .value 0x1A8, .SIZE_MAX⟩,
  ⟨.ifndef_WIN64, .offsetof ["nt_3_10", "Win32ThreadInfo"], .value 0x1AC, .SIZE_MAX⟩,
  ⟨.ifndef_WIN64, .offsetof ["nt_3_10", "GdiClientPID"], .value 0x6F4, .SIZE_MAX⟩,
  ⟨.ifndef_WIN64, .offsetof ["nt_3_10", "User32Reserved0"], .value 0x700, .SIZE_MAX⟩,
  ⟨.ifndef_WIN64, .offsetof ["nt_3_10", "User32Reserved1"], .value 0x704, .SIZE_MAX⟩,
  ⟨.ifndef_WIN64, .offsetof ["nt_3_10", "UserReserved"], .value 0x708, .SIZE_MAX⟩,
  ⟨.ifndef_WIN64, .tail_offsetof ["nt_3_10", "UserReserved"] 0, .value 0xBF4, .SIZE_MAX⟩,
  ⟨.ifndef_WIN64, .offsetof ["nt_3_50_p2", "Spare2"], .value 0x1A8, .SIZE_MAX⟩,
  ⟨.ifndef_WIN64, .offsetof ["nt_3_50_p2", "CsrQlpcTeb"], .value 0x1AC, .SIZE_MAX⟩,
  ⟨.ifndef_WIN64, .offsetof ["nt_3_50_p2", "Win32ClientInfo"], .value 0x1C0, .SIZE_MAX⟩,
  ⟨.ifndef_WIN64, .offsetof ["nt_3_50_p2", "SystemReserved2"], .value 0x1D4, .SIZE_MAX⟩,
  ⟨.ifndef_WIN64, .offsetof ["nt_3_50_p2", "gdiRgn"], .value 0x6DC, .SIZE_MAX⟩,
  ⟨.ifndef_WIN64, .offsetof ["nt_3_50_p2", "User32Reserved0"], .value 0x700, .SIZE_MAX⟩,
  ⟨.ifndef_WIN64, .offsetof ["nt_3_50_p2", "User32Reserved1"], .value 0x704, .SIZE_MAX⟩,
  ⟨.ifndef_WIN64, .offsetof ["nt_3_50_p2", "UserReserved"], .value 0x708, .SIZE_MAX⟩,
  ⟨.ifndef_WIN64, .offsetof ["nt_3_50_p2", "glDispatchTable"], .value 0x714, .SIZE_MAX⟩,
  ⟨.ifndef_WIN64, .tail_offsetof ["nt_3_50_p2", "glDispatchTable"] 0, .value 0xBE0, .SIZE_MAX⟩,
  ⟨.ifndef_WIN64, .offsetof ["nt_4_0_p2", "ExceptionCode"], .value 0x1A8, .SIZE_MAX⟩,
  ⟨.ifndef_WIN64, .offsetof ["nt_4_0_p2", "SpareBytes1"], .value 0x1AC, .SIZE_MAX⟩,
  ⟨.ifndef_WIN64, .offsetof ["nt_4_0_p2", "glReserved2"], .value 0xBDC, .SIZE_MAX⟩,
  ⟨.ifndef_WIN64, .tail_offsetof ["nt_4_0_p2", "GdiTebBatch"] 0, .value 0x6DC, .SIZE_MAX⟩,
  ⟨.ifndef_WIN64, .tail_offsetof ["nt_4_0_p2", "glReserved2"] 0, .value 0xBE0, .SIZE_MAX⟩,
  ⟨.ifndef_WIN64, .offsetof ["SpareBytes1"], .value 0x1A8, .SIZE_MAX⟩,
  ⟨.always, .offsetof ["ActivationContextStackPointer"], .value 0x1A8, .value 0x2C8⟩,
  ⟨.always, .offsetof ["InstrumentationCallbackSp"], .value 0x1AC, .value 0x2D0⟩,
  ⟨.always, .offsetof ["InstrumentationCallbackPreviousPc"], .value 0x1B0, .value 0x2D8⟩,
  ⟨.always, .offsetof ["TxFsContext"], .value 0x1D0, .value 0x2E8⟩] ++
  [
  ⟨.always, .offsetof ["InstrumentationCallbackDisabled"], .value 0x1B8, .value 0x2EC⟩,
  ⟨.ifdef_WIN64, .offsetof ["UnalignedLoadStoreExceptions"], .SIZE_MAX, .value 0x2ED⟩,
  ⟨.ifdef_WIN64, .offsetof ["Padding1"], .SIZE_MAX, .value 0x2EE⟩,
  ⟨.ifndef_WIN64, .offsetof ["SpareBytes"], .value 0x1B9, .SIZE_MAX⟩,
  ⟨.always, .offsetof ["ReservedForNtRpc"], .value 0xF1C, .value 0x1698⟩,
  ⟨.always, .tail_offsetof ["ReservedForNtRpc"] 0, .value 0xF20, .SIZE_MAX⟩,
  ⟨.always, .offsetof ["GdiTebBatch"], .value 0x1D4, .value 0x2F0⟩,
  ⟨.always, .offsetof ["RealClientId"], .value 0x6B4, .value 0x7D8⟩,
  ⟨.always, .offsetof ["GdiCachedProcessHandle"], .value 0x6BC, .value 0x7E8⟩,
  ⟨.always, .offsetof ["GdiClientPID"], .value 0x6C0, .value 0x7F0⟩,
  ⟨.always, .offsetof ["GdiClientTID"], .value 0x6C4, .value 0x7F4⟩,
  ⟨.always, .offsetof ["GdiThreadLocalInfo"], .value 0x6C8, .value 0x7F8⟩,
  ⟨.always, .offsetof ["Win32ClientInfo"], .value 0x6CC, .value 0x800⟩,
  ⟨.always, .offsetof ["glDispatchTable"], .value 0x7C4, .value 0x9F0⟩,
  ⟨.always, .offsetof ["glReserved1"], .value 0xB68, .value 0x1138⟩,
  ⟨.always, .offsetof ["glReserved2"], .value 0xBDC, .value 0x1220⟩,
  ⟨.always, .tail_offsetof ["glReserved2"] 0, .value 0xBE0, .value 0x1228⟩,
  ⟨.always, .offsetof ["glSectionInfo"], .value 0xBE0, .value 0x1228⟩,
  ⟨.always, .offsetof ["glSection"], .value 0xBE4, .value 0x1230⟩,
  ⟨.always, .offsetof ["glTable"], .value 0xBE8, .value 0x1238⟩,
  ⟨.always, .offsetof ["glCurrentRC"], .value 0xBEC, .value 0x1240⟩,
  ⟨.always, .offsetof ["glContext"], .value 0xBF0, .value 0x1248⟩,
  ⟨.always, .tail_offsetof ["glContext"] 0, .value 0xBF4, .value 0x1250⟩,
  ⟨.always, .offsetof ["LastStatusValue"], .value 0xBF4, .value 0x1250⟩,
  ⟨.ifdef_WIN64, .offsetof ["Padding2"], .SIZE_MAX, .value 0x1254⟩,
  ⟨.always, .offsetof ["StaticUnicodeString"], .value 0xBF8, .value 0x1258⟩,
  ⟨.always, .offsetof ["WaitingOnLoaderLock"], .value 0xF84, .value 0x1760⟩,
  ⟨.always, .offsetof ["TlsExpansionSlots"], .value 0xF94, .value 0x1780⟩,
  ⟨.always, .offsetof ["FlsData"], .value 0xFB4, .value 0x17C8⟩,
  ⟨.ifndef_WIN64, .offsetof ["nt_5_1_sp2", "SafeThunkCall"], .value 0xFB4, .SIZE_MAX⟩,
  ⟨.always, .offsetof ["nt_5_2_sp1_p2", "SafeThunkCall"], .value 0xFB8, .value 0x17D0⟩,
  ⟨.always, .offsetof ["PreferredLanguages"], .value 0xFB8, .value 0x17D0⟩,
  ⟨.always, .offsetof ["UserPrefLanguages"], .value 0xFBC, .value 0x17D8⟩,
  ⟨.always, .offsetof ["LockCount"], .value 0xFD8, .value 0x1808⟩,
  ⟨.always, .offsetof ["ProcessRundown"], .value 0xFDC, .value 0x180C⟩,
  ⟨.always, .offsetof ["SpareUlong0"], .value 0xFDC, .value 0x180C⟩,
  ⟨.always, .offsetof ["WowTebOffset"], .value 0xFDC, .value 0x180C⟩,
  ⟨.always, .offsetof ["LastSwitchTime"], .value 0xFE0, .value 0x1810⟩,
  ⟨.always, .offsetof ["TotalSwitchOutTime"], .value 0xFE8, .value 0x1818⟩,
  ⟨.always, .offsetof ["WaitReasonBitMap"], .value 0xFF0, .value 0x1820⟩] ++
  [
  ⟨.always, .tail_offsetof ["WaitReasonBitMap"] 0, .value 0xFF8, .value 0x1828⟩,
  ⟨.always, .offsetof ["PaddingVista"], .value 0xFF8, .value 0x1828⟩,
  ⟨.always, .tail_offsetof ["PaddingVista"] 0, .value 0xFFC, .value 0x1830⟩,
  ⟨.always, .offsetof ["ResourceRetValue"], .value 0xFE0, .value 0x1810⟩,
  ⟨.always, .offsetof ["ReservedForCrt"], .value 0xFE8, .value 0x1820⟩,
  ⟨.always, .tail_offsetof ["EffectiveContainerId"] 0, .value 0x1000, .value 0x1838⟩,
  ⟨.always, .offsetof ["LastSleepCounter"], .value 0x1000, .value 0x1838⟩,
  ⟨.always, .offsetof ["PaddingVista"], .value 0xFF8, .value 0x1828⟩,
  ⟨.always, .offsetof ["ReservedForCrt"], .value 0xFE8, .value 0x1820⟩]

/-- The `check_sizeof` call of `test_teb`. -/
def test_teb_sizeof : List Call :=
  [
  ⟨.always, .sizeof, .value 0x1038, .value 0x1878⟩]

/-- Whether the first argument of a call names a member of one of the legacy alternatives,
the named structs `nt_*`. -/
def Measured.legacy : Measured → Bool
  | .offsetof (n :: _) => n.toList.take 3 == "nt_".toList
  | .tail_offsetof (n :: _) _ => n.toList.take 3 == "nt_".toList
  | _ => false

/-! ## The size tables of the header comments -/

/-- A row of a size table: the versions, the two sizes (a blank cell is `none`) and the
member the header and the tests give as the last one of these versions. -/
structure SizeRow where
  version : String
  x86 : Option Nat
  x64 : Option Nat
  last : List String
  deriving DecidableEq, Repr

/-- The size a row lists for an architecture. -/
def SizeRow.size (r : SizeRow) : Arch → Option Nat
  | .x86 => r.x86
  | .x64 => r.x64

/-- The end offset of the closing member of a row, rounded up with `ALIGN_POT` to the
alignment of the block. -/
def SizeRow.computed (r : SizeRow) (a : Arch) (T : CType) : Option Nat :=
  (tail_offsetof (layout T) r.last).map (fun e => ALIGN_POT a e T.align)

/-- The table of known sizes of the PEB in `win-polyfill-peb.h`. -/
def PEB_size_table : List SizeRow := [
  ⟨"3.10", some 0x70, none, ["nt_3_10", "CriticalSectionTimeout"]⟩,
  ⟨"3.50", some 0x70, none, ["nt_3_10", "CriticalSectionTimeout"]⟩,
  ⟨"3.51", some 0x98, none, ["ProcessHeaps"]⟩,
  ⟨"4.0", some 0x0150, none, ["GdiHandleBuffer"]⟩,
  ⟨"5.0", some 0x01E8, none, ["nt_5_0", "CSDVersion"]⟩,
  ⟨"5.1 to 5.1 SP1", some 0x0210, none, ["MinimumStackCommit"]⟩,
  ⟨"5.1 SP2 to 5.1 Final", some 0x0210, none, ["MinimumStackCommit"]⟩,
  ⟨"5.2", some 0x0230, some 0x0358, ["FlsHighIndex"]⟩,
  ⟨"5.2 SP1 to 5.2 Final", some 0x0230, some 0x0358, ["FlsHighIndex"]⟩,
  ⟨"6.0", some 0x0238, some 0x0368, ["WerShipAssertPtr"]⟩,
  ⟨"6.1", some 0x0248, some 0x0380, ["TracingFlags"]⟩,
  ⟨"6.2 to 10.0", some 0x0250, some 0x0388, ["CsrServerReadOnlySharedMemoryBase"]⟩,
  ⟨"10.0 1511 to 1703", some 0x0460, some 0x07A0, ["WaitOnAddressHashTable"]⟩,
  ⟨"10.0 1709", some 0x0468, some 0x07B0, ["CloudFileFlags"]⟩,
  ⟨"10.0 1803", some 0x0470, some 0x07B8, ["PlaceholderCompatibilityModeReserved"]⟩,
  ⟨"10.0 1809 to 2004", some 0x0480, some 0x07C8, ["NtGlobalFlag2"]⟩]

/-- The table of known sizes of `RTL_USER_PROCESS_PARAMETERS` in
`win-polyfill-rtl-user-process-parameters.h`. -/
def RTL_USER_PROCESS_PARAMETERS_size_table : List SizeRow := [
  ⟨"3.10 to 5.2", some 0x0290, some 0x03F0, ["CurrentDirectores"]⟩,
  ⟨"6.0", some 0x0294, some 0x03F8, ["EnvironmentSize"]⟩,
  ⟨"6.1", some 0x0298, some 0x0400, ["EnvironmentVersion"]⟩,
  ⟨"6.2 to 6.3", some 0x02A0, some 0x0410, ["ProcessGroupId"]⟩,
  ⟨"10.0 to 1803", some 0x02A4, some 0x0410, ["LoaderThreads"]⟩,
  ⟨"1809", some 0x02AC, some 0x0420, ["RedirectionDllName"]⟩,
  ⟨"1903", some 0x02BC, some 0x0440, ["DefaultThreadpoolCpuSetMaskCount"]⟩,
  ⟨"2004", some 0x02C0, some 0x0440, ["DefaultThreadpoolThreadMaximum"]⟩]

/-- The end offset of the closing member of a row, rounded up with `ALIGN_POT` to the size
of a pointer. -/
def SizeRow.roundedToPointer (r : SizeRow) (a : Arch) (T : CType) : Option Nat :=
  (tail_offsetof (layout T) r.last).map (fun e => ALIGN_POT a e a.ptr)

/-- The table of known sizes of the TEB in `win-polyfill-teb.h`, each row with the member
that closes the version: the one the header marks `(last member in ...)`, or else the last
member of the section appended for the version. -/
def TEB_size_table : List SizeRow := [
  ⟨"3.10", some 0x0F20, none, ["ReservedForNtRpc"]⟩,
  ⟨"3.50 to 3.51", some 0x0F28, none, ["DbgSsReserved"]⟩,
  ⟨"4.0", some 0x0F88, none, ["WaitingOnLoaderLock"]⟩,
  ⟨"5.0", some 0x0FA4, none, ["NlsCache"]⟩,
  ⟨"early 5.1 (before SP2)", some 0x0FB4, none, ["ActiveFrame"]⟩,
  ⟨"late 5.1 (SP2 and higher)", some 0x0FB8, none, ["nt_5_1_sp2"]⟩,
  ⟨"early 5.2 (before SP1)", some 0x0FB8, none, ["FlsData"]⟩,
  ⟨"late 5.2 (SP1 and higher)", some 0x0FBC, some 0x17D8, ["nt_5_2_sp1_p2"]⟩,
  ⟨"6.0", some 0x0FF8, some 0x1828, ["WaitReasonBitMap"]⟩,
  ⟨"6.1", some 0x0FE4, some 0x1818, ["ResourceRetValue"]⟩,
  ⟨"6.2 to 6.3", some 0x0FE8, some 0x1820, ["ReservedForWdf"]⟩,
  ⟨"10.0 to 2004", some 0x1000, some 0x1838, ["EffectiveContainerId"]⟩]

/-! ## The documented flags of the PEB -/

/-- A one-bit flag of a `ULONG` of the PEB as the header documents it: the bit-field, the
plain `ULONG` member of the same union with its two offsets, and the mask. -/
structure FlagDoc where
  flag : String
  word : String
  x86 : Nat
  x64 : Nat
  mask : Nat
  deriving DecidableEq, Repr

/-- The offset of the `ULONG` of a documented flag. -/
def FlagDoc.offset (d : FlagDoc) : Arch → Nat
  | .x86 => d.x86
  | .x64 => d.x64

/-- The flags of `CrossProcessFlags`, `TracingFlags` and `LeapSecondFlags` with the offsets
and masks of the comments of `win-polyfill-peb.h`. -/
def PEB_ulong_flags : List FlagDoc := [
  ⟨"ProcessInJob", "CrossProcessFlags", 0x28, 0x50, 0x00000001⟩,
  ⟨"ProcessInitializing", "CrossProcessFlags", 0x28, 0x50, 0x00000002⟩,
  ⟨"ProcessUsingVEH", "CrossProcessFlags", 0x28, 0x50, 0x00000004⟩,
  ⟨"ProcessUsingVCH", "CrossProcessFlags", 0x28, 0x50, 0x00000008⟩,
  ⟨"ProcessUsingFTH", "CrossProcessFlags", 0x28, 0x50, 0x00000010⟩,
  ⟨"ProcessPreviouslyThrottled", "CrossProcessFlags", 0x28, 0x50, 0x00000020⟩,
  ⟨"ProcessCurrentlyThrottled", "CrossProcessFlags", 0x28, 0x50, 0x00000040⟩,
  ⟨"ProcessImagesHotPatched", "CrossProcessFlags", 0x28, 0x50, 0x00000080⟩,
  ⟨"HeapTracingEnabled", "TracingFlags", 0x0240, 0x0378, 0x00000001⟩,
  ⟨"CritSecTracingEnabled", "TracingFlags", 0x0240, 0x0378, 0x00000002⟩,
  ⟨"LibLoaderTracingEnabled", "TracingFlags", 0x0240, 0x0378, 0x00000004⟩,
  ⟨"SixtySecondEnabled", "LeapSecondFlags", 0x0474, 0x07C0, 0x00000001⟩]

/-! ## win-polyfill-ldr-data-table-entry.h -/

/-- An enumeration type (`enum _LDR_DLL_LOAD_REASON`, `enum _LDR_HOT_PATCH_STATE`): an `int`
under the MSVC ABI, 4 bytes; the enumerators are not among the sources. -/
def ENUM : CType := .prim 4 4

/-- The tree node `struct _RTL_BALANCED_NODE` of phnt_ntdef.h. -/
def RTL_BALANCED_NODE (a : Arch) : CType :=
  .struct [
    .anon (.union [
      .field "Children" (.array (PVOID a) 2),
      .anon (.struct [
        .field "Left" (PVOID a),
        .field "Right" (PVOID a)])]),
    .anon (.union [
      .bits "Red" UCHAR 1,
      .bits "Balance" UCHAR 2,
      .field "ParentValue" (ULONG_PTR a)])]

/-- The bit-fields overlaid on `Flags` of `LDR_DATA_TABLE_ENTRY`. -/
def LDR_DATA_TABLE_ENTRY_Flags : CType :=
  .union [
    .field "Flags" ULONG,
    .field "FlagGroup" (.array UCHAR 4),
    .anon (.struct [
      .bits "PackagedBinary" ULONG 1,
      .bits "MarkedForRemoval" ULONG 1,
      .bits "ImageDll" ULONG 1,
      .bits "LoadNotificationsSent" ULONG 1,
      .bits "TelemetryEntryProcessed" ULONG 1,
      .bits "ProcessStaticImport" ULONG 1,
      .bits "InLegacyLists" ULONG 1,
      .bits "InIndexes" ULONG 1,
      .bits "ShimDll" ULONG 1,
      .bits "InExceptionTable" ULONG 1,
      .bits "ReservedFlags1" ULONG 2,
      .bits "LoadInProgress" ULONG 1,
      .bits "LoadConfigProcessed" ULONG 1,
      .bits "EntryProcessed" ULONG 1,
      .bits "ProtectDelayLoad" ULONG 1,
      .bits "ReservedFlags3" ULONG 2,
      .bits "DontCallForThreads" ULONG 1,
      .bits "ProcessAttachCalled" ULONG 1,
      .bits "ProcessAttachFailed" ULONG 1,
      .bits "CorDeferredValidate" ULONG 1,
      .bits "CorImage" ULONG 1,
      .bits "DontRelocate" ULONG 1,
      .bits "CorILOnly" ULONG 1,
      .bits "ChpeImage" ULONG 1,
      .bits "ChpeEmulatorImage" ULONG 1,
      .bits "ReservedFlags5" ULONG 1,
      .bits "Redirected" ULONG 1,
      .bits "ReservedFlags6" ULONG 2,
      .bits "CompatDatabaseProcessed" ULONG 1])]

/-- The loader entry `struct _LDR_DATA_TABLE_ENTRY`. -/
def LDR_DATA_TABLE_ENTRY (a : Arch) : CType :=
  .struct [
    .field "InLoadOrderLinks" (LIST_ENTRY a),
    .field "InMemoryOrderLinks" (LIST_ENTRY a),
    .anon (.union [
      .field "InInitializationOrderLinks" (LIST_ENTRY a),
      .field "InProgressLinks" (LIST_ENTRY a)]),
    .field "DllBase" (PVOID a),
    .field "EntryPoint" (PVOID a),
    .field "SizeOfImage" ULONG,
    .field "FullDllName" (UNICODE_STRING a),
    .field "BaseDllName" (UNICODE_STRING a),
    .anon LDR_DATA_TABLE_ENTRY_Flags,
    .anon (.union [
      .field "LoadCount" USHORT,
      .field "ObsoleteLoadCount" USHORT]),
    .field "TlsIndex" USHORT,
    .field "HashLinks" (LIST_ENTRY a),
    .field "TimeDateStamp" ULONG,
    .field "EntryPointActivationContext" (PVOID a),
    .anon (.union [
      .field "PatchInformation" (PVOID a),
      .field "Spare" (PVOID a),
      .field "Lock" (PVOID a)]),
    .anon (.union [
      .field "nt_6_0" (.struct [
        .field "ForwarderLinks" (LIST_ENTRY a),
        .field "ServiceTagLinks" (LIST_ENTRY a),
        .field "StaticLinks" (LIST_ENTRY a),
        .field "ContextInformation" (PVOID a),
        .field "OriginalBase" (ULONG_PTR a),
        .field "LoadTime" LARGE_INTEGER]),
      .anon (.struct [
        .field "DdagNode" (PVOID a),
        .field "NodeModuleLink" (LIST_ENTRY a),
        .field "LoadContext" (PVOID a),
        .field "ParentDllBase" (PVOID a),
        .field "SwitchBackContext" (PVOID a),
        .field "BaseAddressIndexNode" (RTL_BALANCED_NODE a),
        .field "MappingInfoIndexNode" (RTL_BALANCED_NODE a),
        .field "OriginalBase" ULONGLONG,
        .field "LoadTime" LARGE_INTEGER])]),
    .field "BaseNameHashValue" ULONG,
    .field "LoadReason" ENUM,
    .field "ImplicitPathOptions" ULONG,
    .field "ReferenceCount" ULONG,
    .field "DependentLoadFlags" ULONG,
    .field "SigningLevel" UCHAR,
    .field "CheckSum" ULONG,
    .field "ActivePatchImageBase" (PVOID a),
    .field "HotPatchState" ENUM]

/-- The `check_offsetof` calls of `test_peb_LDR_DATA_TABLE_ENTRY`, in source order. -/
def test_peb_LDR_DATA_TABLE_ENTRY : List Call := [
  ⟨.always, .offsetof ["InLoadOrderLinks"], .value 0x0, .value 0x0⟩,
  ⟨.always, .offsetof ["TlsIndex"], .value 0x3A, .value 0x6E⟩,
  ⟨.always, .offsetof ["nt_6_0", "ForwarderLinks"], .value 0x50, .value 0x98⟩,
  ⟨.always, .offsetof ["nt_6_0", "LoadTime"], .value 0x70, .value 0xD8⟩,
  ⟨.always, .offsetof ["DdagNode"], .value 0x50, .value 0x98⟩,
  ⟨.always, .offsetof ["LoadTime"], .value 0x88, .value 0x100⟩,
  ⟨.always, .offsetof ["SigningLevel"], .value 0xA4, .value 0x11C⟩]

/-! ## The offsets of the per-member comments -/

/-- An offset comment `// x86 x64 (versions)` of a header with the member it stands before:
`none` where the comment says `none`. A comment before an anonymous union is the comment of
each of its plain alternatives. -/
structure DocOffset where
  guard : Guard
  member : List String
  x86 : Option Nat
  x64 : Option Nat
  deriving DecidableEq, Repr

/-- The offset a comment documents for an architecture. -/
def DocOffset.offset (d : DocOffset) : Arch → Option Nat
  | .x86 => d.x86
  | .x64 => d.x64

/-- The offset comments of `win-polyfill-ldr-data-table-entry.h`, in source order. -/
def LDR_DATA_TABLE_ENTRY_doc : List DocOffset :=
  [
  ⟨.always, ["InLoadOrderLinks"], some 0x0, some 0x0⟩,
  ⟨.always, ["InMemoryOrderLinks"], some 0x8, some 0x10⟩,
  ⟨.always, ["InInitializationOrderLinks"], some 0x10, some 0x20⟩,
  ⟨.always, ["InProgressLinks"], some 0x10, some 0x20⟩,
  ⟨.always, ["DllBase"], some 0x18, some 0x30⟩,
  ⟨.always, ["EntryPoint"], some 0x1C, some 0x38⟩,
  ⟨.always, ["SizeOfImage"], some 0x20, some 0x40⟩,
  ⟨.always, ["FullDllName"], some 0x24, some 0x48⟩,
  ⟨.always, ["BaseDllName"], some 0x2C, some 0x58⟩,
  ⟨.always, ["Flags"], some 0x34, some 0x68⟩,
  ⟨.always, ["FlagGroup"], some 0x34, some 0x68⟩,
  ⟨.always, ["LoadCount"], some 0x38, some 0x6C⟩,
  ⟨.always, ["ObsoleteLoadCount"], some 0x38, some 0x6C⟩,
  ⟨.always, ["TlsIndex"], some 0x3A, some 0x6E⟩,
  ⟨.always, ["HashLinks"], some 0x3C, some 0x70⟩,
  ⟨.always, ["TimeDateStamp"], some 0x44, some 0x80⟩,
  ⟨.always, ["EntryPointActivationContext"], some 0x48, some 0x88⟩,
  ⟨.always, ["PatchInformation"], some 0x4C, some 0x90⟩,
  ⟨.always, ["Spare"], some 0x4C, some 0x90⟩,
  ⟨.always, ["Lock"], some 0x4C, some 0x90⟩,
  ⟨.always, ["nt_6_0", "ForwarderLinks"], some 0x50, some 0x98⟩,
  ⟨.always, ["nt_6_0", "ServiceTagLinks"], some 0x58, some 0xA8⟩,
  ⟨.always, ["nt_6_0", "StaticLinks"], some 0x60, some 0xB8⟩,
  ⟨.always, ["nt_6_0", "ContextInformation"], some 0x68, some 0xC8⟩,
  ⟨.always, ["nt_6_0", "OriginalBase"], some 0x6C, some 0xD0⟩,
  ⟨.always, ["nt_6_0", "LoadTime"], some 0x70, some 0xD8⟩,
  ⟨.always, ["DdagNode"], some 0x50, some 0x98⟩,
  ⟨.always, ["MappingInfoIndexNode"], some 0x74, some 0xE0⟩,
  ⟨.always, ["OriginalBase"], some 0x80, some 0xF8⟩,
  ⟨.always, ["LoadTime"], some 0x88, some 0x100⟩,
  ⟨.always, ["BaseNameHashValue"], some 0x90, some 0x108⟩,
  ⟨.always, ["LoadReason"], some 0x94, some 0x10C⟩,
  ⟨.always, ["ImplicitPathOptions"], some 0x98, some 0x110⟩,
  ⟨.always, ["ReferenceCount"], some 0x9C, some 0x114⟩,
  ⟨.always, ["DependentLoadFlags"], some 0xA0, some 0x118⟩,
  ⟨.always, ["SigningLevel"], some 0xA4, some 0x11C⟩,
  ⟨.always, ["CheckSum"], some 0xA8, some 0x120⟩,
  ⟨.always, ["ActivePatchImageBase"], some 0xAC, some 0x128⟩,
  ⟨.always, ["HotPatchState"], some 0xB0, some 0x130⟩]

/-- The offset comments of `win-polyfill-teb.h` on members that no call of `test_teb`
names, in source order. -/
def TEB_doc_unchecked : List DocOffset :=
  [
  ⟨.always, ["NtTib"], some 0x0, some 0x0⟩,
  ⟨.always, ["EnvironmentPointer"], some 0x1C, some 0x38⟩,
  ⟨.always, ["ClientId"], some 0x20, some 0x40⟩,
  ⟨.ifndef_WIN64, ["UnknownPointerCsrQlpcTeb"], some 0x28, some 0x50⟩,
  ⟨.always, ["ActiveRpcHandle"], some 0x28, some 0x50⟩,
  ⟨.always, ["ThreadLocalStoragePointer"], some 0x2C, some 0x58⟩,
  ⟨.always, ["ProcessEnvironmentBlock"], some 0x30, some 0x60⟩,
  ⟨.always, ["LastErrorValue"], some 0x34, some 0x68⟩,
  ⟨.ifndef_WIN64, ["UnknowByte"], some 0x38, none⟩,
  ⟨.always, ["CountOfOwnedCriticalSections"], some 0x38, some 0x6C⟩,
  ⟨.ifndef_WIN64, ["nt_3_10_p1"], some 0x3C, none⟩,
  ⟨.ifndef_WIN64, ["nt_3_50_p1"], some 0x3C, none⟩,
  ⟨.ifndef_WIN64, ["nt_3_50_p1", "Win32ProcessInfo"], some 0x3C, none⟩,
  ⟨.ifndef_WIN64, ["nt_3_50_p1", "Win32ThreadInfo"], some 0x40, none⟩,
  ⟨.ifndef_WIN64, ["nt_3_50_p1", "CsrQlpcStack"], some 0x44, none⟩,
  ⟨.ifndef_WIN64, ["nt_3_50_p1", "SpareBytes"], some 0x48, none⟩,
  ⟨.always, ["CsrClientThread"], some 0x3C, some 0x70⟩,
  ⟨.always, ["Win32ThreadInfo"], some 0x40, some 0x78⟩,
  ⟨.ifndef_WIN64, ["nt_4_0_p1"], some 0x44, none⟩,
  ⟨.ifndef_WIN64, ["nt_4_0_p1", "Win32ClientInfo"], some 0x44, none⟩,
  ⟨.always, ["User32Reserved"], some 0x44, some 0x80⟩,
  ⟨.always, ["UserReserved"], some 0xAC, some 0xE8⟩,
  ⟨.always, ["WOW32Reserved"], some 0xC0, some 0x100⟩,
  ⟨.always, ["CurrentLocale"], some 0xC4, some 0x108⟩,
  ⟨.always, ["FpSoftwareStatusRegister"], some 0xC8, some 0x10C⟩,
  ⟨.always, ["nt_3_10_p2"], some 0xCC, some 0x110⟩,
  ⟨.ifndef_WIN64, ["nt_3_10_p3"], some 0x1A4, none⟩,
  ⟨.ifndef_WIN64, ["nt_3_10"], some 0x1A8, none⟩,
  ⟨.ifndef_WIN64, ["nt_3_10", "Win32ProcessInfo"], some 0x1B0, none⟩,
  ⟨.ifndef_WIN64, ["nt_3_10", "UnaccountedBytes_0x01B4"], some 0x1B4, none⟩,
  ⟨.ifndef_WIN64, ["nt_3_10", "DbgSsReserved"], some 0x1DC, none⟩,
  ⟨.ifndef_WIN64, ["nt_3_10", "SystemReserved2"], some 0x1E4, none⟩,
  ⟨.ifndef_WIN64, ["nt_3_10", "CsrQlpcStack"], some 0x6F0, none⟩,
  ⟨.ifndef_WIN64, ["nt_3_10", "GdiClientTID"], some 0x6F8, none⟩,
  ⟨.ifndef_WIN64, ["nt_3_10", "GdiThreadLocalInfo"], some 0x6FC, none⟩,
  ⟨.ifndef_WIN64, ["nt_3_50_p2"], some 0x1A8, none⟩,
  ⟨.ifndef_WIN64, ["nt_3_50_p2", "gdiPen"], some 0x6E0, none⟩,
  ⟨.ifndef_WIN64, ["nt_3_50_p2", "gdiBrush"], some 0x6E4, none⟩,
  ⟨.ifndef_WIN64, ["nt_3_50_p2", "RealClientId"], some 0x6E8, none⟩,
  ⟨.ifndef_WIN64, ["nt_3_50_p2", "GdiCachedProcessHandle"], some 0x6F0, none⟩] ++
  [
  ⟨.ifndef_WIN64, ["nt_3_50_p2", "GdiClientPID"], some 0x6F4, none⟩,
  ⟨.ifndef_WIN64, ["nt_3_50_p2", "GdiClientTID"], some 0x6F8, none⟩,
  ⟨.ifndef_WIN64, ["nt_3_50_p2", "GdiThreadLocalInfo"], some 0x6FC, none⟩,
  ⟨.ifndef_WIN64, ["nt_4_0_p2"], some 0x1A8, none⟩,
  ⟨.ifndef_WIN64, ["nt_4_0_p2", "SystemReserved2"], some 0x1D4, none⟩,
  ⟨.ifndef_WIN64, ["nt_4_0_p2", "gdiRgn"], some 0x6DC, none⟩,
  ⟨.ifndef_WIN64, ["nt_4_0_p2", "gdiPen"], some 0x6E0, none⟩,
  ⟨.ifndef_WIN64, ["nt_4_0_p2", "gdiBrush"], some 0x6E4, none⟩,
  ⟨.ifndef_WIN64, ["nt_4_0_p2", "RealClientId"], some 0x6E8, none⟩,
  ⟨.ifndef_WIN64, ["nt_4_0_p2", "GdiCachedProcessHandle"], some 0x6F0, none⟩,
  ⟨.ifndef_WIN64, ["nt_4_0_p2", "GdiClientPID"], some 0x6F4, none⟩,
  ⟨.ifndef_WIN64, ["nt_4_0_p2", "GdiClientTID"], some 0x6F8, none⟩,
  ⟨.ifndef_WIN64, ["nt_4_0_p2", "GdiThreadLocalInfo"], some 0x6FC, none⟩,
  ⟨.ifndef_WIN64, ["nt_4_0_p2", "UserReserved"], some 0x700, none⟩,
  ⟨.ifndef_WIN64, ["nt_4_0_p2", "glDispatchTable"], some 0x714, none⟩,
  ⟨.ifndef_WIN64, ["nt_4_0_p2", "glReserved1"], some 0xB74, none⟩,
  ⟨.always, ["InstrumentationCallbackPreviousSp"], some 0x1B4, some 0x2E0⟩,
  ⟨.always, ["StaticUnicodeBuffer"], some 0xC00, some 0x1268⟩,
  ⟨.ifdef_WIN64, ["Padding3"], none, some 0x1472⟩,
  ⟨.always, ["DeallocationStack"], some 0xE0C, some 0x1478⟩,
  ⟨.always, ["TlsSlots"], some 0xE10, some 0x1480⟩,
  ⟨.always, ["TlsLinks"], some 0xF10, some 0x1680⟩,
  ⟨.always, ["Vdm"], some 0xF18, some 0x1690⟩,
  ⟨.always, ["DbgSsReserved"], some 0xF20, some 0x16A0⟩,
  ⟨.always, ["HardErrorsAreDisabled"], some 0xF28, some 0x16B0⟩,
  ⟨.always, ["HardErrorMode"], some 0xF28, some 0x16B0⟩,
  ⟨.ifdef_WIN64, ["Padding4"], none, some 0x16B4⟩,
  ⟨.ifndef_WIN64, ["nt_4_0_p3"], some 0xF2C, some 0x16B8⟩,
  ⟨.always, ["nt_5_2_sp1_p1"], some 0xF2C, some 0x16B8⟩,
  ⟨.always, ["nt_5_2_sp1_p1", "Instrumentation"], some 0xF2C, some 0x16B8⟩,
  ⟨.always, ["nt_5_2_sp1_p1", "SubProcessTag"], some 0xF64, some 0x1728⟩,
  ⟨.always, ["nt_5_2_sp1_p1", "EtwTraceData"], some 0xF68, some 0x1730⟩,
  ⟨.ifdef_WIN64, ["Instrumentation"], some 0xF2C, some 0x16B8⟩,
  ⟨.ifndef_WIN64, ["Instrumentation"], some 0xF2C, some 0x16B8⟩,
  ⟨.always, ["ActivityId"], some 0xF50, some 0x1710⟩,
  ⟨.always, ["SubProcessTag"], some 0xF60, some 0x1720⟩,
  ⟨.always, ["EtwLocalData"], some 0xF64, some 0x1728⟩,
  ⟨.always, ["PerflibData"], some 0xF64, some 0x1728⟩,
  ⟨.always, ["EtwTraceData"], some 0xF68, some 0x1730⟩,
  ⟨.always, ["WinSockData"], some 0xF6C, some 0x1738⟩] ++
  [
  ⟨.always, ["GdiBatchCount"], some 0xF70, some 0x1740⟩,
  ⟨.always, ["Spare2"], some 0xF74, some 0x1744⟩,
  ⟨.always, ["CurrentIdealProcessor"], some 0xF74, some 0x1744⟩,
  ⟨.always, ["IdealProcessorValue"], some 0xF74, some 0x1744⟩,
  ⟨.always, ["Spare3"], some 0xF78, some 0x1748⟩,
  ⟨.always, ["GuaranteedStackBytes"], some 0xF78, some 0x1748⟩,
  ⟨.always, ["Spare4"], some 0xF7C, some 0x1750⟩,
  ⟨.always, ["ReservedForPerf"], some 0xF7C, some 0x1750⟩,
  ⟨.always, ["ReservedForOle"], some 0xF80, some 0x1758⟩,
  ⟨.ifdef_WIN64, ["Padding6"], none, some 0x1764⟩,
  ⟨.ifndef_WIN64, ["Wx86Thread"], some 0xF88, none⟩,
  ⟨.always, ["SparePointer1"], some 0xF88, some 0x1768⟩,
  ⟨.always, ["SavedPriorityState"], some 0xF88, some 0x1768⟩,
  ⟨.always, ["SoftPatchPtr1"], some 0xF8C, some 0x1770⟩,
  ⟨.always, ["ReservedForCodeCoverage"], some 0xF8C, some 0x1770⟩,
  ⟨.always, ["SoftPatchPtr2"], some 0xF90, some 0x1778⟩,
  ⟨.always, ["ThreadPoolData"], some 0xF90, some 0x1778⟩,
  ⟨.ifdef_WIN64, ["DeallocationBStore"], none, some 0x1788⟩,
  ⟨.ifdef_WIN64, ["ChpeV2CpuAreaInfo"], none, some 0x1788⟩,
  ⟨.ifdef_WIN64, ["BStoreLimit"], none, some 0x1790⟩,
  ⟨.ifdef_WIN64, ["Unused"], none, some 0x1790⟩,
  ⟨.always, ["ImpersonationLocale"], some 0xF98, some 0x1798⟩,
  ⟨.always, ["MuiGeneration"], some 0xF98, some 0x1798⟩,
  ⟨.always, ["IsImpersonating"], some 0xF9C, some 0x179C⟩,
  ⟨.always, ["NlsCache"], some 0xFA0, some 0x17A0⟩,
  ⟨.always, ["pShimData"], some 0xFA4, some 0x17A8⟩,
  ⟨.always, ["HeapVirtualAffinity_5_1"], some 0xFA8, some 0x17B0⟩,
  ⟨.always, ["HeapVirtualAffinity"], some 0xFA8, some 0x17B0⟩,
  ⟨.always, ["LowFragHeapDataSlot"], some 0xFAA, some 0x17B2⟩,
  ⟨.always, ["HeapData"], some 0xFA8, some 0x17B0⟩,
  ⟨.ifdef_WIN64, ["Padding7"], none, some 0x17B4⟩,
  ⟨.always, ["CurrentTransactionHandle"], some 0xFAC, some 0x17B8⟩,
  ⟨.always, ["ActiveFrame"], some 0xFB0, some 0x17C0⟩,
  ⟨.ifndef_WIN64, ["nt_5_1_sp2"], some 0xFB4, none⟩,
  ⟨.always, ["nt_5_2_sp1_p2"], some 0xFB8, some 0x17D0⟩,
  ⟨.always, ["ReservedForWdf"], some 0xFE4, some 0x1818⟩]

/-! ## Selecting one alternative of each union -/

mutual
/-- The declarations obtained from `T` by replacing every union of the structure (the unions
reached without passing through a named member) by a single one of its alternatives, in all
combinations. -/
def CType.selections : CType → List CType
  | .prim s al => [.prim s al]
  | .array e n => [.array e n]
  | .struct ms => (membersSelections ms).map .struct
  | .union ms => alternatives ms
/-- All combinations of selections for the members of a `struct`. -/
def membersSelections : List Member → List (List Member)
  | [] => [[]]
  | m :: ms => (Member.selections m).flatMap fun m' => (membersSelections ms).map fun r => m' :: r
/-- The single alternatives of a `union`, each kept as a union of one member. -/
def alternatives : List Member → List CType
  | [] => []
  | m :: ms => (Member.selections m).map (fun m' => .union [m']) ++ alternatives ms
/-- The selections of a member: an anonymous struct or union is entered, a named member and
a bit-field are kept as they are. -/
def Member.selections : Member → List Member
  | .field n t => [.field n t]
  | .anon t => t.selections.map .anon
  | .bits n t w => [.bits n t w]
end


mutual
/-- The declarations obtained from `T` by replacing exactly one union of the structure by a
single one of its alternatives, everything else left as declared. -/
def CType.replacements : CType → List CType
  | .prim _ _ => []
  | .array _ _ => []
  | .struct ms => (membersReplacements ms).map .struct
  | .union ms => singles ms ++ (membersReplacements ms).map .union
/-- The member lists in which exactly one member has one union replaced. -/
def membersReplacements : List Member → List (List Member)
  | [] => []
  | m :: ms =>
    (Member.replacements m).map (fun m' => m' :: ms) ++
      (membersReplacements ms).map (fun r => m :: r)
/-- A `union` reduced to each one of its alternatives in turn. -/
def singles : List Member → List CType
  | [] => []
  | m :: ms => .union [m] :: singles ms
/-- The replacements inside a member: only an anonymous struct or union is entered. -/
def Member.replacements : Member → List Member
  | .field _ _ => []
  | .anon t => t.replacements.map .anon
  | .bits _ _ _ => []
end

/-! ## Bytes outside every declared member -/

/-- Whether byte `b` of the block lies inside a member of the layout. -/
def covered (l : List Placed) (b : Nat) : Bool :=
  l.any fun p => decide (p.offset ≤ b) && decide (b < p.offset + p.size)

/-- The bytes of `[0, sizeof(T))` that lie inside no declared member of any alternative:
the padding the compiler inserts on its own. -/
def implicitPadding (T : CType) : List Nat :=
  (List.range T.size).filter fun b => !covered (layout T) b


/-- The end of the run of covered bytes from `cur` on: up to `fuel` times, go on to the end
of the first member that contains the byte reached. -/
def reach (l : List Placed) : Nat → Nat → Nat
  | 0, cur => cur
  | fuel + 1, cur =>
    match l.find? (fun p => decide (p.offset ≤ cur) && decide (cur < p.offset + p.size)) with
    | some p => reach l fuel (p.offset + p.size)
    | none => cur

/-! ## The unions of a block -/

/-- A union of a block: where it starts, its size and, for each alternative, the name of
the alternative (that of its first member when the alternative is an anonymous struct), its
size and the end offset of its last member. -/
structure Slot where
  offset : Nat
  size : Nat
  alternatives : List (String × Nat × Nat)
  deriving DecidableEq, Repr

/-- The name a member is known by: its own, or that of the first member inside it. -/
def Member.label : Member → String
  | .field n _ => n
  | .bits n _ _ => n
  | .anon t =>
    match (t.place 0 []).head? with
    | some p => p.path.headD ""
    | none => ""

/-- The type of a member. -/
def Member.type : Member → CType
  | .field _ t => t
  | .bits _ t _ => t
  | .anon t => t

/-- The end offset of the last member of a type placed at `base`: for a struct where its
last member ends, without the padding that follows. -/
def CType.lastEnd (base : Nat) : CType → Nat
  | .struct ms => base + structEnd ms 0 none
  | t => base + t.size

mutual
/-- The unions reachable in `T` placed at `base` without passing through a named member. -/
def CType.slots : CType → Nat → List Slot
  | .prim _ _, _ => []
  | .array _ _, _ => []
  | .struct ms, base => slotsStruct ms base 0 none
  | .union ms, base =>
    { offset := base, size := (CType.union ms).size,
      alternatives := ms.map fun m => (m.label, m.type.size, m.type.lastEnd base) } ::
      slotsUnion ms base
/-- The unions inside the anonymous members of a `struct`. -/
def slotsStruct : List Member → Nat → Nat → Option BitRun → List Slot
  | [], _, _, _ => []
  | .field _ t :: ms, base, off, _ => slotsStruct ms base (alignUp off t.align + t.size) none
  | .anon t :: ms, base, off, _ =>
    t.slots (base + alignUp off t.align) ++
      slotsStruct ms base (alignUp off t.align + t.size) none
  | .bits _ t w :: ms, base, off, run =>
    match BitRun.fits run t.size w with
    | some r => slotsStruct ms base off (some { r with used := r.used + w })
    | none =>
      slotsStruct ms base (alignUp off t.align + t.size)
        (some { unitOff := alignUp off t.align, unitSize := t.size, used := w })
/-- The unions inside the anonymous alternatives of a `union`. -/
def slotsUnion : List Member → Nat → List Slot
  | [], _ => []
  | .field _ _ :: ms, base => slotsUnion ms base
  | .anon t :: ms, base => t.slots base ++ slotsUnion ms base
  | .bits _ _ _ :: ms, base => slotsUnion ms base
end

/-- Whether all alternatives of a union have the same size. -/
def Slot.uniform (s : Slot) : Bool :=
  s.alternatives.all fun x => x.2.1 == s.size

/-- Whether an offset comment of the list, part of the build for the architecture, gives
the offset right after the union: the union is followed by a member documented there. -/
def Slot.followedBy (s : Slot) (docs : List DocOffset) (a : Arch) : Bool :=
  docs.any fun d => d.guard.compiled a && (d.offset a == some (s.offset + s.size))

/-- The offset comments of `win-polyfill-peb.h` that document a member as present in all
versions, ending in `(all)` or in `(3.10 and higher)`, each with the member that it stands
before (no name where that is a `union`), in source order. -/
def PEB_documented_all : List DocOffset := [
  ⟨.always, ["InheritedAddressSpace"], some 0x00, some 0x00⟩,
  ⟨.always, ["Mutant"], some 0x04, some 0x08⟩,
  ⟨.always, ["ImageBaseAddress"], some 0x08, some 0x10⟩,
  ⟨.always, ["Ldr"], some 0x0C, some 0x18⟩,
  ⟨.always, ["ProcessParameters"], some 0x10, some 0x20⟩,
  ⟨.always, ["SubSystemData"], some 0x14, some 0x28⟩,
  ⟨.always, ["ProcessHeap"], some 0x18, some 0x30⟩,
  ⟨.always, [], some 0x28, some 0x50⟩,
  ⟨.always, ["TlsExpansionCounter"], some 0x3C, some 0x70⟩,
  ⟨.always, ["TlsBitmap"], some 0x40, some 0x78⟩,
  ⟨.always, ["TlsBitmapBits"], some 0x44, some 0x80⟩,
  ⟨.always, ["ReadOnlySharedMemoryBase"], some 0x4C, some 0x88⟩,
  ⟨.always, ["ReadOnlyStaticServerData"], some 0x54, some 0x98⟩,
  ⟨.always, ["AnsiCodePageData"], some 0x58, some 0xA0⟩,
  ⟨.always, ["OemCodePageData"], some 0x5C, some 0xA8⟩,
  ⟨.always, [], some 0x60, some 0xB0⟩,
  ⟨.always, ["UnicodeCaseTableData"], some 0x60, some 0xB0⟩,
  ⟨.ifdef_WIN64, ["GdiHandleBuffer"], some 0xC4, some 0x0140⟩]

/-- The offset comments of `win-polyfill-teb.h` that document a member as present in all
versions, ending in `(all)` or in `(3.10 and higher)`, each with the member that it stands
before (no name where that is a `union`), in source order. -/
def TEB_documented_all : List DocOffset := [
  ⟨.always, ["NtTib"], some 0x00, some 0x00⟩,
  ⟨.always, ["EnvironmentPointer"], some 0x1C, some 0x38⟩,
  ⟨.always, ["ClientId"], some 0x20, some 0x40⟩,
  ⟨.always, ["ThreadLocalStoragePointer"], some 0x2C, some 0x58⟩,
  ⟨.always, ["ProcessEnvironmentBlock"], some 0x30, some 0x60⟩,
  ⟨.always, ["LastErrorValue"], some 0x34, some 0x68⟩,
  ⟨.always, [], some 0x3C, some 0x70⟩,
  ⟨.always, ["CurrentLocale"], some 0xC4, some 0x0108⟩,
  ⟨.always, ["FpSoftwareStatusRegister"], some 0xC8, some 0x010C⟩,
  ⟨.always, [], some 0xCC, some 0x0110⟩,
  ⟨.always, [], some 0x01A4, some 0x02C0⟩,
  ⟨.always, [], some 0x01A8, some 0x02C0⟩,
  ⟨.always, ["LastStatusValue"], some 0x0BF4, some 0x1250⟩,
  ⟨.always, ["StaticUnicodeString"], some 0x0BF8, some 0x1258⟩,
  ⟨.always, ["StaticUnicodeBuffer"], some 0x0C00, some 0x1268⟩,
  ⟨.always, ["DeallocationStack"], some 0x0E0C, some 0x1478⟩,
  ⟨.always, ["TlsSlots"], some 0x0E10, some 0x1480⟩,
  ⟨.always, ["TlsLinks"], some 0x0F10, some 0x1680⟩,
  ⟨.always, ["Vdm"], some 0x0F18, some 0x1690⟩,
  ⟨.always, ["ReservedForNtRpc"], some 0x0F1C, some 0x1698⟩]

/-- The offset comments of `win-polyfill-ldr-data-table-entry.h` that document a member as present in all
versions, ending in `(all)` or in `(3.10 and higher)`, each with the member that it stands
before (no name where that is a `union`), in source order. -/
def LDR_DATA_TABLE_ENTRY_documented_all : List DocOffset := [
  ⟨.always, ["InLoadOrderLinks"], some 0x00, some 0x00⟩,
  ⟨.always, ["InMemoryOrderLinks"], some 0x08, some 0x10⟩,
  ⟨.always, [], some 0x10, some 0x20⟩,
  ⟨.always, ["InInitializationOrderLinks"], some 0x10, some 0x20⟩,
  ⟨.always, ["DllBase"], some 0x18, some 0x30⟩,
  ⟨.always, ["EntryPoint"], some 0x1C, some 0x38⟩,
  ⟨.always, ["SizeOfImage"], some 0x20, some 0x40⟩,
  ⟨.always, ["FullDllName"], some 0x24, some 0x48⟩,
  ⟨.always, ["BaseDllName"], some 0x2C, some 0x58⟩,
  ⟨.always, [], some 0x34, some 0x68⟩,
  ⟨.always, [], some 0x38, some 0x6C⟩,
  ⟨.always, ["TlsIndex"], some 0x3A, some 0x6E⟩,
  ⟨.always, ["HashLinks"], some 0x3C, some 0x70⟩]

/-! ## Alignment from the leaves -/

mutual
/-- The natural alignments of the leaf members of a type: of its scalars, reached through
arrays, nested structs and unions. -/
def CType.leafAligns : CType → List Nat
  | .prim _ a => [a]
  | .array e _ => e.leafAligns
  | .struct ms => membersLeafAligns ms
  | .union ms => membersLeafAligns ms
/-- The alignments of the leaves of a list of members. -/
def membersLeafAligns : List Member → List Nat
  | [] => []
  | m :: ms => m.leafAligns ++ membersLeafAligns ms
/-- The alignments of the leaves of a member. -/
def Member.leafAligns : Member → List Nat
  | .field _ t => t.leafAligns
  | .anon t => t.leafAligns
  | .bits _ t _ => t.leafAligns
end

/-- The largest of a list of alignments, 1 for the empty list. -/
def maxAlign (l : List Nat) : Nat := l.foldr max 1

/-! ## Bit masks -/

/-- The mask of a bit-field within its storage unit: `bitWidth` ones from bit `bitOff` on
(bit-fields are allocated from the least significant bit). -/
def Placed.mask (p : Placed) : Nat := (2 ^ p.bitWidth - 1) * 2 ^ p.bitOff

/-- The mask of the bit-field of that name; not defined for a plain or unknown member. -/
def flagMask (l : List Placed) (name : String) : Option Nat :=
  match findMember l [name] with
  | some p => if p.bitWidth = 0 then none else some p.mask
  | none => none

/-- A flag of the PEB `BitField` byte with the comment on it: the mask and the versions,
as far as the lineages 6.0 to 6.2 and 6.3 and higher go. -/
structure BitDoc where
  flag : String
  mask : Nat
  nt_6_0_to_6_2 : Bool
  nt_6_3_and_higher : Bool
  deriving DecidableEq, Repr

/-- The named flags of the PEB `BitField` byte with their comments, in source order:
`(late 5.2 and higher)` and `(6.0 and higher)` are in both lineages, `(6.0 to 6.2)`,
`(late 6.0 to 6.2)` and `(6.2)` in the first, `(6.3 and higher)` and
`(10.0 1607 and higher)` in the second. -/
def PEB_BitField_doc : List BitDoc := [
  ⟨"ImageUsedLargePages", 0x01, true, true⟩,
  ⟨"IsProtectedProcess", 0x02, true, true⟩,
  ⟨"IsLegacyProcess", 0x04, true, false⟩,
  ⟨"IsImageDynamicallyRelocated_6_3", 0x04, false, true⟩,
  ⟨"IsImageDynamicallyRelocated_6_0", 0x08, true, false⟩,
  ⟨"SkipPatchingUser32Forwarders_6_3", 0x08, false, true⟩,
  ⟨"SkipPatchingUser32Forwarders_6_0_SPx", 0x10, true, false⟩,
  ⟨"IsPackagedProcess_6_3", 0x10, false, true⟩,
  ⟨"IsPackagedProcess_6_2", 0x20, true, false⟩,
  ⟨"IsAppContainer_6_3", 0x20, false, true⟩,
  ⟨"IsAppContainer_6_2", 0x40, true, false⟩,
  ⟨"IsProtectedProcessLight", 0x40, false, true⟩,
  ⟨"IsLongPathAwareProcess", 0x80, false, true⟩]

/-- The flags of `LDR_DATA_TABLE_ENTRY` whose comment gives a mask, in source order. -/
def LDR_DATA_TABLE_ENTRY_Flags_doc : List (String × Nat) := [
  ("PackagedBinary", 0x00000001),
  ("MarkedForRemoval", 0x00000002),
  ("ImageDll", 0x00000004),
  ("LoadNotificationsSent", 0x00000008),
  ("LoadInProgress", 0x00001000),
  ("LoadConfigProcessed", 0x00002000),
  ("EntryProcessed", 0x00004000),
  ("DontCallForThreads", 0x00040000),
  ("ProcessAttachCalled", 0x00080000),
  ("CorDeferredValidate", 0x00200000),
  ("CorImage", 0x00400000),
  ("CorILOnly", 0x01000000),
  ("Redirected", 0x10000000)]

/-- The comment `// 0x01DC 0x02E8 (5.1 and higher)` before `CSDVersion` in the alternative of
the PEB for 5.1 and higher. -/
def PEB_CSDVersion_doc : DocOffset := ⟨.always, ["CSDVersion"], some 0x01DC, some 0x02E8⟩

/-! ## Groups of bit-fields -/

/-- A group of bit-fields: the bit-fields of one type that follow one another in a struct,
or one bit-field that is an alternative of a union. `unitSize` is the size in bytes of the
declared type, `widths` are the declared widths. -/
structure BitGroup where
  first : String
  unitSize : Nat
  widths : List Nat
  deriving DecidableEq, Repr

/-- Whether the widths of the group sum to the bits of its storage unit. -/
def BitGroup.fills (g : BitGroup) : Bool := g.widths.sum == 8 * g.unitSize

/-- The open group, if any, as a list. -/
def BitGroup.close : Option BitGroup → List BitGroup
  | some g => [g]
  | none => []

mutual
/-- The groups of bit-fields declared in `T`, in nested structs, unions and the types of
named members as well, in source order. -/
def CType.bitGroups : CType → List BitGroup
  | .prim _ _ => []
  | .array e _ => e.bitGroups
  | .struct ms => structGroups ms none
  | .union ms => unionGroups ms
/-- The groups in the members of a `struct`, `cur` being the group still open. -/
def structGroups : List Member → Option BitGroup → List BitGroup
  | [], cur => BitGroup.close cur
  | .field _ t :: ms, cur => BitGroup.close cur ++ (t.bitGroups ++ structGroups ms none)
  | .anon t :: ms, cur => BitGroup.close cur ++ (t.bitGroups ++ structGroups ms none)
  | .bits n t w :: ms, cur =>
    match cur with
    | some g =>
      if g.unitSize = t.size then structGroups ms (some { g with widths := g.widths ++ [w] })
      else g :: structGroups ms (some { first := n, unitSize := t.size, widths := [w] })
    | none => structGroups ms (some { first := n, unitSize := t.size, widths := [w] })
/-- The groups in the alternatives of a `union`: a bit-field is a group of its own. -/
def unionGroups : List Member → List BitGroup
  | [] => []
  | .field _ t :: ms => t.bitGroups ++ unionGroups ms
  | .anon t :: ms => t.bitGroups ++ unionGroups ms
  | .bits n t w :: ms => { first := n, unitSize := t.size, widths := [w] } :: unionGroups ms
end

/-- The sizes of the unions of `T` that have an alternative of the given name, each with
whether all its alternatives have that size. -/
def unionSizesOf (T : CType) (name : String) : List (Nat × Bool) :=
  ((T.slots 0).filter fun s => s.alternatives.any fun x => x.1 == name).map
    fun s => (s.size, s.uniform)

/-! ## phnt_ntdef.h: the status macros -/

/-- The cast `(ULONG)(Status)`: the value modulo `2 ^ 32`. -/
def toULONG (Status : Int) : Nat := (Status % 2 ^ 32).toNat

/-- The cast `(NTSTATUS)(Status)`, `NTSTATUS` being `LONG`: the 32-bit two's complement
value. -/
def toNTSTATUS (Status : Int) : Int :=
  if Status % 2 ^ 32 < 2 ^ 31 then Status % 2 ^ 32 else Status % 2 ^ 32 - 2 ^ 32

/-- The macro `NT_SUCCESS(Status)`: `((NTSTATUS)(Status)) >= 0`. -/
def NT_SUCCESS (Status : Int) : Bool := decide (toNTSTATUS Status ≥ 0)

/-- The macro `NT_INFORMATION(Status)`: `(((ULONG)(Status)) >> 30) == 1`. -/
def NT_INFORMATION (Status : Int) : Bool := toULONG Status >>> 30 == 1

/-- The macro `NT_WARNING(Status)`: `(((ULONG)(Status)) >> 30) == 2`. -/
def NT_WARNING (Status : Int) : Bool := toULONG Status >>> 30 == 2

/-- The macro `NT_ERROR(Status)`: `(((ULONG)(Status)) >> 30) == 3`. -/
def NT_ERROR (Status : Int) : Bool := toULONG Status >>> 30 == 3

/-! ## Unnamed members -/

/-- An unnamed union or struct of a block as the layout places it: whether it is a union,
the name of the first member declared inside it, and its offset. -/
structure Unnamed where
  isUnion : Bool
  first : String
  offset : Nat
  deriving DecidableEq, Repr

/-- Whether a type is a `union`. -/
def CType.isUnion : CType → Bool
  | .union _ => true
  | _ => false

mutual
/-- The unnamed unions and structs reachable in `T` placed at `base` without passing through
a named member, in source order, an outer one before those nested in it. -/
def CType.unnamed : CType → Nat → List Unnamed
  | .prim _ _, _ => []
  | .array _ _, _ => []
  | .struct ms, base => unnamedStruct ms base 0 none
  | .union ms, base => unnamedUnion ms base
/-- The unnamed members among the members of a `struct`, placed as `placeStruct` does. -/
def unnamedStruct : List Member → Nat → Nat → Option BitRun → List Unnamed
  | [], _, _, _ => []
  | .field _ t :: ms, base, off, _ => unnamedStruct ms base (alignUp off t.align + t.size) none
  | .anon t :: ms, base, off, _ =>
    { isUnion := t.isUnion, first := (Member.anon t).label,
      offset := base + alignUp off t.align } ::
      (t.unnamed (base + alignUp off t.align) ++
        unnamedStruct ms base (alignUp off t.align + t.size) none)
  | .bits _ t w :: ms, base, off, run =>
    match BitRun.fits run t.size w with
    | some r => unnamedStruct ms base off (some { r with used := r.used + w })
    | none =>
      unnamedStruct ms base (alignUp off t.align + t.size)
        (some { unitOff := alignUp off t.align, unitSize := t.size, used := w })
/-- The unnamed members among the alternatives of a `union`: each starts at `base`. -/
def unnamedUnion : List Member → Nat → List Unnamed
  | [], _ => []
  | .field _ _ :: ms, base => unnamedUnion ms base
  | .anon t :: ms, base =>
    { isUnion := t.isUnion, first := (Member.anon t).label, offset := base } ::
      (t.unnamed base ++ unnamedUnion ms base)
  | .bits _ _ _ :: ms, base => unnamedUnion ms base
end

/-- An unnamed union or struct of a header with the offset comment `// x86 x64 (versions)`
before it, if it has one: the guard it stands under, whether it is a union, the name of the
first member declared inside it in the 32-bit and in the 64-bit build (empty where it is not
part of the build), and the two offsets of the comment. -/
structure UnnamedDoc where
  guard : Guard
  isUnion : Bool
  first_x86 : String
  first_x64 : String
  x86 : Option Nat
  x64 : Option Nat
  deriving DecidableEq, Repr

/-- The name of the first member inside, in the build for the architecture. -/
def UnnamedDoc.first (d : UnnamedDoc) : Arch → String
  | .x86 => d.first_x86
  | .x64 => d.first_x64

/-- The offset the comment documents for an architecture. -/
def UnnamedDoc.offset (d : UnnamedDoc) : Arch → Option Nat
  | .x86 => d.x86
  | .x64 => d.x64

/-- The unnamed members of a table that are part of the build for the architecture, each
paired with the unnamed member of the layout in the same position. -/
def pairUnnamed (docs : List UnnamedDoc) (a : Arch) (T : CType) :
    List (UnnamedDoc × Unnamed) :=
  (docs.filter fun d => d.guard.compiled a).zip (T.unnamed 0)

/-- The unnamed unions and structs of `win-polyfill-teb.h` that are reached without passing
through a named member, in source order, each with the offset comment before it, if any. -/
def TEB_unnamed_doc : List UnnamedDoc :=
  [
  ⟨.always, true, "UnknownPointerCsrQlpcTeb", "ActiveRpcHandle", none, none⟩,
  ⟨.always, true, "UnknowByte", "CountOfOwnedCriticalSections", none, none⟩,
  ⟨.always, true, "nt_3_10_p1", "CsrClientThread", some 0x3C, some 0x70⟩,
  ⟨.always, false, "CsrClientThread", "CsrClientThread", some 0x3C, some 0x70⟩,
  ⟨.always, true, "nt_4_0_p1", "User32Reserved", some 0x44, some 0x80⟩,
  ⟨.always, false, "User32Reserved", "User32Reserved", some 0x44, some 0x80⟩,
  ⟨.always, true, "nt_3_10_p2", "nt_3_10_p2", some 0xCC, some 0x0110⟩,
  ⟨.always, false, "ReservedForDebuggerInstrumentation", "ReservedForDebuggerInstrumentation", some 0xCC, some 0x0110⟩,
  ⟨.always, true, "nt_3_10_p3", "ExceptionCode", some 0x01A4, some 0x02C0⟩,
  ⟨.always, true, "nt_3_10", "ActivationContextStackPointer", some 0x01A8, some 0x02C0⟩,
  ⟨.always, false, "nt_3_50_p2", "ActivationContextStackPointer", some 0x01A8, some 0x02C0⟩,
  ⟨.always, true, "nt_3_50_p2", "ActivationContextStackPointer", some 0x01A8, some 0x02C0⟩,
  ⟨.always, false, "SpareBytes1", "ActivationContextStackPointer", some 0x01A8, some 0x02C8⟩,
  ⟨.always, true, "SpareBytes1", "ActivationContextStackPointer", some 0x01A8, some 0x02C8⟩,
  ⟨.ifndef_WIN64, false, "SpareBytes1", "", some 0x01A8, none⟩,
  ⟨.always, false, "ActivationContextStackPointer", "ActivationContextStackPointer", some 0x01A8, some 0x02C8⟩,
  ⟨.always, true, "HardErrorsAreDisabled", "HardErrorsAreDisabled", some 0x0F28, some 0x16B0⟩,
  ⟨.always, true, "nt_4_0_p3", "nt_5_2_sp1_p1", some 0x0F2C, some 0x16B8⟩,
  ⟨.always, false, "Instrumentation", "Instrumentation", some 0x0F2C, some 0x16B8⟩,
  ⟨.always, true, "EtwLocalData", "EtwLocalData", some 0x0F64, some 0x1728⟩,
  ⟨.always, true, "Spare2", "Spare2", some 0x0F74, some 0x1744⟩,
  ⟨.always, false, "InDbgPrint", "InDbgPrint", none, none⟩,
  ⟨.always, true, "Spare3", "Spare3", some 0x0F78, some 0x1748⟩,
  ⟨.always, true, "Spare4", "Spare4", some 0x0F7C, some 0x1750⟩,
  ⟨.always, true, "Wx86Thread", "SparePointer1", some 0x0F88, some 0x1768⟩,
  ⟨.always, false, "SparePointer1", "SparePointer1", some 0x0F88, some 0x1768⟩,
  ⟨.always, true, "SparePointer1", "SparePointer1", some 0x0F88, some 0x1768⟩,
  ⟨.always, true, "SoftPatchPtr1", "SoftPatchPtr1", some 0x0F8C, some 0x1770⟩,
  ⟨.always, true, "SoftPatchPtr2", "SoftPatchPtr2", some 0x0F90, some 0x1778⟩,
  ⟨.ifdef_WIN64, true, "", "DeallocationBStore", none, some 0x1788⟩,
  ⟨.ifdef_WIN64, true, "", "BStoreLimit", none, some 0x1790⟩,
  ⟨.always, true, "ImpersonationLocale", "ImpersonationLocale", some 0x0F98, some 0x1798⟩,
  ⟨.always, true, "HeapVirtualAffinity_5_1", "HeapVirtualAffinity_5_1", some 0x0FA8, some 0x17B0⟩,
  ⟨.always, false, "HeapVirtualAffinity", "HeapVirtualAffinity", none, none⟩,
  ⟨.always, true, "nt_5_1_sp2", "FlsData", some 0x0FB4, some 0x17C8⟩,
  ⟨.always, false, "FlsData", "FlsData", some 0x0FB4, some 0x17C8⟩,
  ⟨.always, true, "nt_5_2_sp1_p2", "nt_5_2_sp1_p2", none, none⟩,
  ⟨.always, true, "CrossTebFlags", "CrossTebFlags", none, none⟩,
  ⟨.always, true, "SameTebFlags", "SameTebFlags", none, none⟩,
  ⟨.always, false, "SafeThunkCall", "SafeThunkCall", none, none⟩] ++
  [
  ⟨.always, true, "ProcessRundown", "ProcessRundown", some 0x0FDC, some 0x180C⟩,
  ⟨.always, true, "LastSwitchTime", "LastSwitchTime", some 0x0FE0, some 0x1810⟩,
  ⟨.always, false, "LastSwitchTime", "LastSwitchTime", some 0x0FE0, some 0x1810⟩,
  ⟨.always, false, "ResourceRetValue", "ResourceRetValue", some 0x0FE0, some 0x1810⟩]

/-! # Theorems -/

/-! ## The placement rule -/

/-- Rounding up yields a multiple of the alignment. -/
theorem alignUp_dvd (x a : Nat) : a ∣ alignUp x a :=
  Dvd.intro_left _ rfl

/-- Rounding up never moves a member backwards. -/
theorem le_alignUp (x a : Nat) (ha : 0 < a) : x ≤ alignUp x a := by
  unfold alignUp
  have h := Nat.div_add_mod (x + a - 1) a
  have hm := Nat.mod_lt (x + a - 1) ha
  have hc : a * ((x + a - 1) / a) = (x + a - 1) / a * a := Nat.mul_comm _ _
  omega

/-- Rounding up moves a member by less than the alignment. -/
theorem alignUp_lt (x a : Nat) (ha : 0 < a) : alignUp x a < x + a := by
  unfold alignUp
  have h := Nat.div_add_mod (x + a - 1) a
  have hc : a * ((x + a - 1) / a) = (x + a - 1) / a * a := Nat.mul_comm _ _
  omega

/-- An offset that is already aligned stays where it is. -/
theorem alignUp_of_dvd (x a : Nat) (ha : 0 < a) (h : a ∣ x) : alignUp x a = x := by
  obtain ⟨k, rfl⟩ := h
  unfold alignUp
  have h1 : a * k + a - 1 = (a - 1) + a * k := by omega
  rw [h1, Nat.add_mul_div_left _ _ ha, Nat.div_eq_of_lt (by omega), Nat.zero_add,
    Nat.mul_comm]

/-! ## The rounding macro -/

/-- Clearing the low `k` bits of a `w`-bit value with the mask `~(2 ^ k - 1)` rounds it down
to a multiple of `2 ^ k`. -/
theorem and_not_low_bits (w k y : Nat) (hy : y < 2 ^ w) (hk : 2 ^ k - 1 < 2 ^ w) :
    y &&& (2 ^ w - 1 - (2 ^ k - 1)) = y / 2 ^ k * 2 ^ k := by
  have hp : 0 < 2 ^ k := Nat.two_pow_pos k
  have hM : 2 ^ w - 1 - (2 ^ k - 1) = 2 ^ w - ((2 ^ k - 1) + 1) := by omega
  apply Nat.eq_of_testBit_eq
  intro i
  rw [Nat.testBit_and, hM, Nat.testBit_two_pow_sub_succ hk, Nat.testBit_two_pow_sub_one,
    ← Nat.shiftRight_eq_div_pow, ← Nat.shiftLeft_eq, Nat.testBit_shiftLeft,
    Nat.testBit_shiftRight]
  by_cases hik : k ≤ i
  · have e : k + (i - k) = i := by omega
    by_cases hiw : i < w
    · simp [hik, hiw, e, Nat.not_lt.mpr hik]
    · have hlt : y < 2 ^ i :=
        Nat.lt_of_lt_of_le hy (Nat.pow_le_pow_right (by decide) (Nat.not_lt.mp hiw))
      simp [hik, hiw, e, Nat.testBit_lt_two_pow hlt]
  · have : i < k := Nat.not_le.mp hik
    simp [hik, this]

/-- For a power-of-two alignment and a size that does not wrap, `ALIGN_POT` is `alignUp`. -/
theorem ALIGN_POT_eq_alignUp (a : Arch) (k x : Nat) (h : x + 2 ^ k - 1 < 2 ^ a.width) :
    ALIGN_POT a x (2 ^ k) = alignUp x (2 ^ k) := by
  have hp : 0 < 2 ^ k := Nat.two_pow_pos k
  have hk : 2 ^ k - 1 < 2 ^ a.width := by omega
  have h1 : (x + 2 ^ k + (2 ^ a.width - 1)) % 2 ^ a.width = x + 2 ^ k - 1 := by
    have e : x + 2 ^ k + (2 ^ a.width - 1) = (x + 2 ^ k - 1) + 2 ^ a.width := by omega
    rw [e, Nat.add_mod_right, Nat.mod_eq_of_lt h]
  have h2 : (2 ^ k + (2 ^ a.width - 1)) % 2 ^ a.width = 2 ^ k - 1 := by
    have e : 2 ^ k + (2 ^ a.width - 1) = (2 ^ k - 1) + 2 ^ a.width := by omega
    rw [e, Nat.add_mod_right, Nat.mod_eq_of_lt hk]
  unfold ALIGN_POT alignUp
  rw [h1, h2]
  exact and_not_low_bits a.width k (x + 2 ^ k - 1) h hk

/-- A value keeps a mask under `&` exactly when it has every bit of the mask. -/
theorem and_eq_mask_iff (b m : Nat) :
    b &&& m = m ↔ ∀ i, m.testBit i = true → b.testBit i = true := by
  constructor
  · intro h i hm
    rw [← h, Nat.testBit_and] at hm
    simp only [Bool.and_eq_true] at hm
    exact hm.1
  · intro h
    apply Nat.eq_of_testBit_eq
    intro i
    rw [Nat.testBit_and]
    cases hm : m.testBit i
    · simp
    · simp [h i hm]

/-- Two values are equal exactly when each has every bit of the other. -/
theorem eq_mask_iff (b m : Nat) :
    b = m ↔ b &&& m = m ∧ ∀ i, b.testBit i = true → m.testBit i = true := by
  constructor
  · rintro rfl
    exact ⟨Nat.and_self _, fun _ h => h⟩
  · rintro ⟨h1, h2⟩
    have h3 := (and_eq_mask_iff b m).mp h1
    apply Nat.eq_of_testBit_eq
    intro i
    cases hb : b.testBit i
    · cases hm : m.testBit i
      · rfl
      · rw [h3 i hm] at hb
        exact absurd hb (by decide)
    · exact (h2 i hb).symm

/-! ## The process environment block -/

/-- C1: in the 32-bit layout of the PEB, every `check_offsetof` call of `test_peb` whose
32-bit expected value is not `SIZE_MAX` has as first argument exactly that value, and the
legacy and modern members the claim lists have the listed offsets. -/
theorem peb_offsets_x86 :
    (∀ c ∈ test_peb_offsetof, c.expected .x86 ≠ SIZE_MAX .x86 →
      c.guard.compiled .x86 = true ∧ c.arg.eval (PEB .x86) = some (c.expected .x86)) ∧
    (∀ p ∈ [(["nt_3_10_p1", "FastPebLock"], 0x1C), (["nt_3_10_p2", "Unaccounted"], 0x28),
        (["nt_3_50_p1", "Unaccounted"], 0x2C), (["EventLogSection"], 0x30),
        (["EventLog"], 0x34), (["nt_3_10", "CriticalSectionTimeout"], 0x68),
        (["nt_4_0_p1", "LoaderLock"], 0xA0), (["nt_5_0", "AppCompatInfo"], 0x1D8),
        (["nt_5_0", "CSDVersion"], 0x1DC), (["Mutant"], 0x04), (["Ldr"], 0x0C),
        (["ProcessParameters"], 0x10), (["CrossProcessFlags"], 0x28), (["ApiSetMap"], 0x38),
        (["CriticalSectionTimeout"], 0x70), (["GdiHandleBuffer"], 0xC4),
        (["PostProcessInitRoutine"], 0x14C), (["SessionId"], 0x1D4), (["CSDVersion"], 0x1F0),
        (["FlsHighIndex"], 0x22C), (["TracingFlags"], 0x240),
        (["WaitOnAddressHashTable"], 0x25C), (["LeapSecondData"], 0x470),
        (["NtGlobalFlag2"], 0x478), (["ExtendedFeatureDisableMask"], 0x480)],
      offsetOf (layout (PEB .x86)) p.1 = some p.2) := by
  decide!

/-- Witness of C1 at the call
`check_offsetof(offsetof(PEB, nt_3_10.CriticalSectionTimeout), 0x68, SIZE_MAX)`. -/
theorem peb_offsets_x86_witness :
    offsetOf (layout (PEB .x86)) ["nt_3_10", "CriticalSectionTimeout"] = some 0x68 :=
  (peb_offsets_x86.1
    ⟨.ifndef_WIN64, .offsetof ["nt_3_10", "CriticalSectionTimeout"], .value 0x68, .SIZE_MAX⟩
    (by decide) (by decide)).2

/-- C2: in the 64-bit layout of the PEB, every `check_offsetof` call of `test_peb` that is
compiled under `_WIN64` and whose 64-bit expected value is not `SIZE_MAX` has as first
argument exactly that value; the six padding members and the other members the claim lists
have the listed offsets; and the calls that are not compiled under `_WIN64` name members
the 64-bit layout does not have. -/
theorem peb_offsets_x64 :
    (∀ c ∈ test_peb_offsetof, c.guard.compiled .x64 = true →
      c.expected .x64 ≠ SIZE_MAX .x64 → c.arg.eval (PEB .x64) = some (c.expected .x64)) ∧
    (∀ p ∈ [(["Padding0"], 0x04), (["Padding1"], 0x54), (["Padding2"], 0x74),
        (["Padding3"], 0x10C), (["Padding4"], 0x134), (["Padding5"], 0x2C4),
        (["Mutant"], 0x08), (["Ldr"], 0x18), (["ProcessParameters"], 0x20),
        (["CrossProcessFlags"], 0x50), (["ApiSetMap"], 0x68),
        (["CriticalSectionTimeout"], 0xC0), (["GdiHandleBuffer"], 0x140),
        (["PostProcessInitRoutine"], 0x230), (["SessionId"], 0x2C0), (["CSDVersion"], 0x2E8),
        (["FlsHighIndex"], 0x350), (["TracingFlags"], 0x378),
        (["WaitOnAddressHashTable"], 0x3A0), (["LeapSecondData"], 0x7B8),
        (["NtGlobalFlag2"], 0x7C4), (["ExtendedFeatureDisableMask"], 0x7C8)],
      offsetOf (layout (PEB .x64)) p.1 = some p.2) ∧
    (∀ c ∈ test_peb_offsetof, c.guard.compiled .x64 = false →
      c.arg.eval (PEB .x64) = none) := by
  decide!

/-- Witness of C2 at the call `check_offsetof(offsetof(PEB, Padding5), SIZE_MAX, 0x02C4)`. -/
theorem peb_offsets_x64_witness :
    offsetOf (layout (PEB .x64)) ["Padding5"] = some 0x2C4 :=
  peb_offsets_x64.1 ⟨.ifdef_WIN64, .offsetof ["Padding5"], .SIZE_MAX, .value 0x2C4⟩
    (by decide) (by decide) (by decide)

set_option maxRecDepth 100000 in
/-- C3: on both architectures `alignof(PEB)` is 8; for every `check_sizeof` call of
`test_peb` compiled for the architecture with an expected size other than `SIZE_MAX`, the
end offset of the member it names, and also its first argument as written (some calls add
4), is rounded up by `ALIGN_POT` to that size; for every row of the size table of the header
that lists a size for the architecture, the end offset of the member that closes the
version, rounded up to `alignof(PEB)`, is that size; and `sizeof(PEB)` is 0x488 / 0x7D0. -/
theorem peb_sizes (a : Arch) :
    (PEB a).align = 8 ∧
    (∀ c ∈ test_peb_sizeof, c.guard.compiled a = true → c.expected a ≠ SIZE_MAX a →
      (c.arg.memberEnd (PEB a)).map (fun e => ALIGN_POT a e (PEB a).align) =
        some (c.expected a) ∧
      (c.arg.eval (PEB a)).map (fun s => ALIGN_POT a s (PEB a).align) = some (c.expected a)) ∧
    (∀ r ∈ PEB_size_table, (r.size a).isSome = true → r.computed a (PEB a) = r.size a) ∧
    (PEB a).size = (match a with | .x86 => 0x488 | .x64 => 0x7D0) := by
  cases a <;> decide!

/-- Witness of C3 at the row `| 4.0 | 0x0150 | |` of the size table: `GdiHandleBuffer` ends
at 0x14C in the 32-bit layout, which rounds up to 0x150. -/
theorem peb_sizes_witness :
    tail_offsetof (layout (PEB .x86)) ["GdiHandleBuffer"] = some 0x14C ∧
    (tail_offsetof (layout (PEB .x86)) ["GdiHandleBuffer"]).map
      (fun e => ALIGN_POT .x86 e (PEB .x86).align) = some 0x150 :=
  ⟨by decide!, (peb_sizes .x86).2.2.1 ⟨"4.0", some 0x0150, none, ["GdiHandleBuffer"]⟩
    (by decide) (by decide)⟩

set_option maxRecDepth 100000 in
/-- C4: on both architectures, for each of the thirteen flags of the PEB `BitField` byte, a
zero-initialised PEB in which only that flag is set to 1 has at offset 0x03 exactly the
documented mask, and every block of `check_peb_BitField` reads exactly its mask at its
offset and passes its `check_uchar_mask`. -/
theorem peb_BitField_masks (a : Arch) :
    (∀ p ∈ [("ImageUsedLargePages", 0x01), ("IsProtectedProcess", 0x02),
        ("IsLegacyProcess", 0x04), ("IsImageDynamicallyRelocated_6_3", 0x04),
        ("IsImageDynamicallyRelocated_6_0", 0x08), ("SkipPatchingUser32Forwarders_6_3", 0x08),
        ("SkipPatchingUser32Forwarders_6_0_SPx", 0x10), ("IsPackagedProcess_6_3", 0x10),
        ("IsPackagedProcess_6_2", 0x20), ("IsAppContainer_6_3", 0x20),
        ("IsAppContainer_6_2", 0x40), ("IsProtectedProcessLight", 0x40),
        ("IsLongPathAwareProcess", 0x80)],
      (assign (layout (PEB a)) Mem.zero [p.1] 1).map (fun m => m 0x03) = some p.2) ∧
    (∀ c ∈ check_peb_BitField,
      (c.object (PEB a)).map (fun m => m c.uchar_offset) = some c.mask ∧
      c.run (PEB a) = true) := by
  cases a <;> decide!

set_option maxRecDepth 100000 in
/-- C5: on both architectures, every documented flag of `CrossProcessFlags`, `TracingFlags`
and `LeapSecondFlags` lives in the `ULONG` at the documented offset, and a zero-initialised
PEB in which only that flag is set holds there, as little-endian `ULONG`, exactly the mask;
every block of the tests that ends in `check_ulong_mask_both` and is compiled for the
architecture reads exactly its mask at its offset and passes; and in the 32-bit layout
`ExecuteOptions = 3` gives 3 at 0x34. -/
theorem peb_ulong_masks (a : Arch) :
    (∀ d ∈ PEB_ulong_flags,
      offsetOf (layout (PEB a)) [d.word] = some (d.offset a) ∧
      (assign (layout (PEB a)) Mem.zero [d.flag] 1).map (fun m => m.readLE (d.offset a) 4) =
        some d.mask) ∧
    (∀ c ∈ check_peb_CrossProcessFlags ++ test_peb_ulong_mask, c.guard.compiled a = true →
      (c.object (PEB a)).map (fun m => m.readLE (c.offset a) 4) = some c.mask ∧
      c.run a (PEB a) = true) ∧
    (assign (layout (PEB .x86)) Mem.zero ["ExecuteOptions"] 3).map (fun m => m.readLE 0x34 4) =
      some 3 := by
  cases a <;> decide!

/-- Witness of C5 at the block `peb.ExecuteOptions = 0x3;
check_ulong_mask_both(&peb, 0x34, 0x64, 0x00000003)`, compiled for x86 only. -/
theorem peb_ulong_masks_witness :
    UlongMaskCall.run ⟨.ifndef_WIN64, ["ExecuteOptions"], 3, .value 0x34, .value 0x64, 0x00000003⟩
      .x86 (PEB .x86) = true :=
  ((peb_ulong_masks .x86).2.1
    ⟨.ifndef_WIN64, ["ExecuteOptions"], 3, .value 0x34, .value 0x64, 0x00000003⟩
    (by decide) (by decide)).2
/-! ## The thread environment block -/

/-- C6: in the 32-bit layout of the TEB, with the SDK types at their Windows sizes, every
`check_offsetof` call of `test_teb` on a member of the current layout (not of a legacy
`nt_*` struct) whose 32-bit expected value is not `SIZE_MAX` is compiled for x86 and has as
first argument exactly that value, and the members the claim lists have the listed
offsets. -/
theorem teb_offsets_x86 :
    (∀ c ∈ test_teb_offsetof, c.arg.legacy = false → c.expected .x86 ≠ SIZE_MAX .x86 →
      c.guard.compiled .x86 = true ∧
      c.arg.eval (TEB .x86 (windowsSdk .x86)) = some (c.expected .x86)) ∧
    (∀ p ∈ [("ReservedForDebuggerInstrumentation", 0xCC), ("SystemReserved1", 0x10C),
        ("ActivationStack", 0x184), ("ExceptionCode", 0x1A4),
        ("ActivationContextStackPointer", 0x1A8), ("InstrumentationCallbackDisabled", 0x1B8),
        ("TxFsContext", 0x1D0), ("GdiTebBatch", 0x1D4), ("RealClientId", 0x6B4),
        ("Win32ClientInfo", 0x6CC), ("glDispatchTable", 0x7C4), ("glReserved2", 0xBDC),
        ("LastStatusValue", 0xBF4), ("ReservedForNtRpc", 0xF1C),
        ("WaitingOnLoaderLock", 0xF84), ("TlsExpansionSlots", 0xF94), ("FlsData", 0xFB4),
        ("LockCount", 0xFD8), ("PaddingVista", 0xFF8), ("ReservedForCrt", 0xFE8),
        ("LastSleepCounter", 0x1000)],
      offsetOf (layout (TEB .x86 (windowsSdk .x86))) [p.1] = some p.2) := by
  decide!

/-- Witness of C6 at the call `check_offsetof(offsetof(TEB, TxFsContext), 0x01D0, 0x02E8)`. -/
theorem teb_offsets_x86_witness :
    offsetOf (layout (TEB .x86 (windowsSdk .x86))) ["TxFsContext"] = some 0x1D0 :=
  (teb_offsets_x86.1 ⟨.always, .offsetof ["TxFsContext"], .value 0x1D0, .value 0x2E8⟩
    (by decide) (by decide) (by decide)).2

/-- C7: in the 64-bit layout of the TEB, with the SDK types at their Windows sizes, every
`check_offsetof` call of `test_teb` whose 64-bit expected value is not `SIZE_MAX` is
compiled under `_WIN64` and has as first argument exactly that value, and the members the
claim lists have the listed offsets. -/
theorem teb_offsets_x64 :
    (∀ c ∈ test_teb_offsetof, c.expected .x64 ≠ SIZE_MAX .x64 →
      c.guard.compiled .x64 = true ∧
      c.arg.eval (TEB .x64 (windowsSdk .x64)) = some (c.expected .x64)) ∧
    (∀ p ∈ [("ReservedForDebuggerInstrumentation", 0x110), ("SystemReserved1", 0x190),
        ("PlaceholderCompatibilityMode", 0x280), ("ActivationStack", 0x290),
        ("ExceptionCode", 0x2C0), ("Padding0", 0x2C4),
        ("ActivationContextStackPointer", 0x2C8), ("TxFsContext", 0x2E8),
        ("InstrumentationCallbackDisabled", 0x2EC), ("UnalignedLoadStoreExceptions", 0x2ED),
        ("Padding1", 0x2EE), ("GdiTebBatch", 0x2F0), ("RealClientId", 0x7D8),
        ("Win32ClientInfo", 0x800), ("glDispatchTable", 0x9F0), ("glReserved2", 0x1220),
        ("LastStatusValue", 0x1250), ("Padding2", 0x1254), ("ReservedForNtRpc", 0x1698),
        ("WaitingOnLoaderLock", 0x1760), ("TlsExpansionSlots", 0x1780), ("FlsData", 0x17C8),
        ("LockCount", 0x1808), ("PaddingVista", 0x1828)],
      offsetOf (layout (TEB .x64 (windowsSdk .x64))) [p.1] = some p.2) := by
  decide!

/-- Witness of C7 at the call
`check_offsetof(offsetof(TEB, InstrumentationCallbackDisabled), 0x01B8, 0x02EC)`. -/
theorem teb_offsets_x64_witness :
    offsetOf (layout (TEB .x64 (windowsSdk .x64))) ["InstrumentationCallbackDisabled"] =
      some 0x2EC :=
  (teb_offsets_x64.1
    ⟨.always, .offsetof ["InstrumentationCallbackDisabled"], .value 0x1B8, .value 0x2EC⟩
    (by decide) (by decide)).2

set_option maxRecDepth 100000 in
/-- C8: with the SDK types at their Windows sizes, `alignof(TEB)` is 8 on both
architectures and `sizeof(TEB)` rounded up to it with `ALIGN_POT` is 0x1038 in the 32-bit
layout and 0x1878 in the 64-bit layout, so the `check_sizeof` call of `test_teb` passes. -/
theorem teb_size (a : Arch) :
    (TEB a (windowsSdk a)).align = 8 ∧
    ALIGN_POT a (TEB a (windowsSdk a)).size (TEB a (windowsSdk a)).align =
      (match a with | .x86 => 0x1038 | .x64 => 0x1878) ∧
    (∀ c ∈ test_teb_sizeof, c.runSizeof a (TEB a (windowsSdk a)) = true) := by
  cases a <;> decide!

/-! ## The process parameters -/

set_option maxRecDepth 100000 in
/-- C9: on both architectures every `check_offsetof` call of
`test_RTL_USER_PROCESS_PARAMETERS` has as first argument the expected value of the
architecture, the members the claim lists have the listed offsets, and `sizeof` rounded up
to `alignof` is 0x2C4 / 0x448. -/
theorem rtl_user_process_parameters_offsets (a : Arch) :
    (∀ c ∈ test_RTL_USER_PROCESS_PARAMETERS_offsetof,
      c.guard.compiled a = true ∧ c.expected a ≠ SIZE_MAX a ∧
      c.arg.eval (RTL_USER_PROCESS_PARAMETERS a) = some (c.expected a)) ∧
    (∀ p ∈ [("ConsoleHandle", 0x10, 0x10), ("ConsoleFlags", 0x14, 0x18),
        ("StandardInput", 0x18, 0x20), ("CurrentDirectory", 0x24, 0x38),
        ("DllPath", 0x30, 0x50), ("CommandLine", 0x40, 0x70), ("Environment", 0x48, 0x80),
        ("ShowWindowFlags", 0x6C, 0xA8), ("WindowTitle", 0x70, 0xB0),
        ("CurrentDirectores", 0x90, 0xF0), ("EnvironmentSize", 0x290, 0x3F0),
        ("ProcessGroupId", 0x29C, 0x408), ("LoaderThreads", 0x2A0, 0x40C),
        ("RedirectionDllName", 0x2A4, 0x410), ("HeapPartitionName", 0x2AC, 0x420),
        ("DefaultThreadpoolCpuSetMasks", 0x2B4, 0x430), ("HeapMemoryTypeMask", 0x2C0, 0x440)],
      offsetOf (layout (RTL_USER_PROCESS_PARAMETERS a)) [p.1] =
        some (match a with | .x86 => p.2.1 | .x64 => p.2.2)) ∧
    ALIGN_POT a (RTL_USER_PROCESS_PARAMETERS a).size (RTL_USER_PROCESS_PARAMETERS a).align =
      (match a with | .x86 => 0x2C4 | .x64 => 0x448) ∧
    (∀ c ∈ test_RTL_USER_PROCESS_PARAMETERS_sizeof,
      c.runSizeof a (RTL_USER_PROCESS_PARAMETERS a) = true) := by
  cases a <;> decide!

set_option maxRecDepth 100000 in
/-- C10: the alignment of `RTL_USER_PROCESS_PARAMETERS` is 4 in the 32-bit and 8 in the
64-bit layout, and for every row of its size table the end offset of the last member of
the version, rounded up to that alignment, is the size the row lists. -/
theorem rtl_user_process_parameters_sizes (a : Arch) :
    (RTL_USER_PROCESS_PARAMETERS a).align = (match a with | .x86 => 4 | .x64 => 8) ∧
    (∀ r ∈ RTL_USER_PROCESS_PARAMETERS_size_table,
      (r.size a).isSome = true ∧ r.computed a (RTL_USER_PROCESS_PARAMETERS a) = r.size a) := by
  cases a <;> decide!

/-! ## The loader entry -/

set_option maxRecDepth 100000 in
/-- C11: on both architectures every `check_offsetof` call of
`test_peb_LDR_DATA_TABLE_ENTRY` has as first argument the expected value of the
architecture, every member of `LDR_DATA_TABLE_ENTRY` with an offset comment in the header
sits at the offset of the comment, the members the claim lists have the listed offsets, an
enumeration takes 4 bytes and `RTL_BALANCED_NODE` 12 / 24 bytes. -/
theorem ldr_data_table_entry_offsets (a : Arch) :
    (∀ c ∈ test_peb_LDR_DATA_TABLE_ENTRY,
      c.guard.compiled a = true ∧ c.expected a ≠ SIZE_MAX a ∧
      c.arg.eval (LDR_DATA_TABLE_ENTRY a) = some (c.expected a)) ∧
    (∀ d ∈ LDR_DATA_TABLE_ENTRY_doc,
      d.guard.compiled a = true ∧ (d.offset a).isSome = true ∧
      offsetOf (layout (LDR_DATA_TABLE_ENTRY a)) d.member = d.offset a) ∧
    (∀ p ∈ [(["InLoadOrderLinks"], 0x00, 0x00), (["InMemoryOrderLinks"], 0x08, 0x10),
        (["DllBase"], 0x18, 0x30), (["EntryPoint"], 0x1C, 0x38), (["SizeOfImage"], 0x20, 0x40),
        (["FullDllName"], 0x24, 0x48), (["BaseDllName"], 0x2C, 0x58), (["Flags"], 0x34, 0x68),
        (["LoadCount"], 0x38, 0x6C), (["TlsIndex"], 0x3A, 0x6E), (["HashLinks"], 0x3C, 0x70),
        (["TimeDateStamp"], 0x44, 0x80), (["EntryPointActivationContext"], 0x48, 0x88),
        (["nt_6_0", "ForwarderLinks"], 0x50, 0x98), (["nt_6_0", "OriginalBase"], 0x6C, 0xD0),
        (["nt_6_0", "LoadTime"], 0x70, 0xD8), (["DdagNode"], 0x50, 0x98),
        (["MappingInfoIndexNode"], 0x74, 0xE0), (["OriginalBase"], 0x80, 0xF8),
        (["LoadTime"], 0x88, 0x100), (["BaseNameHashValue"], 0x90, 0x108),
        (["LoadReason"], 0x94, 0x10C), (["ImplicitPathOptions"], 0x98, 0x110),
        (["ReferenceCount"], 0x9C, 0x114), (["DependentLoadFlags"], 0xA0, 0x118),
        (["SigningLevel"], 0xA4, 0x11C), (["CheckSum"], 0xA8, 0x120),
        (["ActivePatchImageBase"], 0xAC, 0x128), (["HotPatchState"], 0xB0, 0x130)],
      offsetOf (layout (LDR_DATA_TABLE_ENTRY a)) p.1 = some (a.pick p.2.1 p.2.2)) ∧
    ENUM.size = 4 ∧ (RTL_BALANCED_NODE a).size = a.pick 12 24 := by
  cases a <;> decide!

/-- Witness of C11 at the call
`check_offsetof(offsetof(LDR_DATA_TABLE_ENTRY, SigningLevel), 0xA4, 0x011C)`. -/
theorem ldr_data_table_entry_offsets_witness :
    offsetOf (layout (LDR_DATA_TABLE_ENTRY .x64)) ["SigningLevel"] = some 0x11C :=
  ((ldr_data_table_entry_offsets .x64).1
    ⟨.always, .offsetof ["SigningLevel"], .value 0xA4, .value 0x11C⟩ (by decide)).2.2

set_option maxRecDepth 100000 in
/-- C12: `LDR_DATA_TABLE_ENTRY` has five unions with 2, 3, 2, 3 and 2 alternatives; in the
structure as declared, in each of the 12 declarations that replace one union by one of its
alternatives, and in each of the 72 declarations that select one alternative for every
union, `TlsIndex` is at 0x3A in the 32-bit and at 0x6E in the 64-bit layout. -/
theorem ldr_TlsIndex_offset_any_alternative (a : Arch) :
    (LDR_DATA_TABLE_ENTRY a).replacements.length = 2 + 3 + 2 + 3 + 2 ∧
    (LDR_DATA_TABLE_ENTRY a).selections.length = 2 * 3 * 2 * 3 * 2 ∧
    (∀ T ∈ LDR_DATA_TABLE_ENTRY a ::
        ((LDR_DATA_TABLE_ENTRY a).replacements ++ (LDR_DATA_TABLE_ENTRY a).selections),
      offsetOf (layout T) ["TlsIndex"] = some (a.pick 0x3A 0x6E)) := by
  cases a <;> decide!

/-- Witness of C12 at the declaration as written, in the 64-bit layout. -/
theorem ldr_TlsIndex_offset_any_alternative_witness :
    offsetOf (layout (LDR_DATA_TABLE_ENTRY .x64)) ["TlsIndex"] = some 0x6E :=
  (ldr_TlsIndex_offset_any_alternative .x64).2.2 (LDR_DATA_TABLE_ENTRY .x64)
    (List.mem_cons_self _ _)

/-! ## The checks of tests/test.h -/

/-- C13: on a build for architecture `a`, `check_offsetof` fails exactly when the expected
value of `a` is not `SIZE_MAX` and the offset differs from it; with `SIZE_MAX` as the
expected value of `a` it succeeds for every offset; and on either build the expected value
of the other architecture changes nothing. -/
theorem check_offsetof_fails_iff (a : Arch) (offset e86 e64 : Nat) :
    (check_offsetof a offset e86 e64 = false ↔
      a.pick e86 e64 ≠ SIZE_MAX a ∧ offset ≠ a.pick e86 e64) ∧
    (a.pick e86 e64 = SIZE_MAX a → ∀ o, check_offsetof a o e86 e64 = true) ∧
    (∀ other, check_offsetof .x86 offset e86 other = check_offsetof .x86 offset e86 e64) ∧
    (∀ other, check_offsetof .x64 offset other e64 = check_offsetof .x64 offset e86 e64) := by
  refine ⟨?_, ?_, fun _ => rfl, fun _ => rfl⟩
  · cases a <;> simp [check_offsetof, Arch.pick]
  · intro h o
    cases a <;> simp [check_offsetof, Arch.pick] at h ⊢ <;> exact Or.inl h

/-- C14: on a build for architecture `a`, `check_sizeof` fails exactly when the expected
value of `a` is not `SIZE_MAX` and `ALIGN_POT(size, alignment)` differs from it; with
`SIZE_MAX` as the expected value of `a` it succeeds for every size and alignment; two sizes
with the same rounded value have the same outcome; and the raw size is not what is compared:
0x14C passes against 0x150 and fails against 0x14C at alignment 8. -/
theorem check_sizeof_fails_iff (a : Arch) (size e86 e64 alignment : Nat) :
    (check_sizeof a size e86 e64 alignment = false ↔
      a.pick e86 e64 ≠ SIZE_MAX a ∧ ALIGN_POT a size alignment ≠ a.pick e86 e64) ∧
    (a.pick e86 e64 = SIZE_MAX a → ∀ s al, check_sizeof a s e86 e64 al = true) ∧
    (∀ s, ALIGN_POT a s alignment = ALIGN_POT a size alignment →
      check_sizeof a s e86 e64 alignment = check_sizeof a size e86 e64 alignment) ∧
    check_sizeof .x86 0x14C 0x150 (SIZE_MAX .x86) 8 = true ∧
    check_sizeof .x86 0x14C 0x14C (SIZE_MAX .x86) 8 = false := by
  refine ⟨?_, ?_, ?_, by decide, by decide⟩
  · cases a <;> simp [check_sizeof, Arch.pick]
  · intro h s al
    cases a <;> simp [check_sizeof, Arch.pick] at h ⊢ <;> exact Or.inl h
  · intro s hs
    cases a <;> simp [check_sizeof, hs]

/-- C15: for a power-of-two alignment `2 ^ k` and a size `x` with `x + 2 ^ k - 1` below
`2 ^ w`, `ALIGN_POT(x, 2 ^ k)` is a multiple of `2 ^ k`, is at least `x`, is at most every
multiple of `2 ^ k` that is at least `x`, is below `x + 2 ^ k`, and equals `x` exactly when
`2 ^ k` divides `x`. -/
theorem ALIGN_POT_smallest_multiple (a : Arch) (k x : Nat) (h : x + 2 ^ k - 1 < 2 ^ a.width) :
    2 ^ k ∣ ALIGN_POT a x (2 ^ k) ∧ x ≤ ALIGN_POT a x (2 ^ k) ∧
    (∀ m, 2 ^ k ∣ m → x ≤ m → ALIGN_POT a x (2 ^ k) ≤ m) ∧
    ALIGN_POT a x (2 ^ k) < x + 2 ^ k ∧
    (ALIGN_POT a x (2 ^ k) = x ↔ 2 ^ k ∣ x) := by
  have hp : 0 < 2 ^ k := Nat.two_pow_pos k
  rw [ALIGN_POT_eq_alignUp a k x h]
  refine ⟨alignUp_dvd x _, le_alignUp x _ hp, ?_, alignUp_lt x _ hp, ?_, ?_⟩
  · intro m hm hxm
    obtain ⟨q, rfl⟩ := hm
    obtain ⟨r, hr⟩ := alignUp_dvd x (2 ^ k)
    have hlt := alignUp_lt x _ hp
    rw [hr] at hlt ⊢
    have : r < q + 1 := by
      by_contra hc
      have hq : q + 1 ≤ r := Nat.not_lt.mp hc
      have := Nat.mul_le_mul_left (2 ^ k) hq
      rw [Nat.mul_add, Nat.mul_one] at this
      omega
    exact Nat.mul_le_mul_left _ (by omega)
  · intro e
    rw [← e]
    exact alignUp_dvd x _
  · exact alignUp_of_dvd x _ hp

/-- Witness of C15 at `ALIGN_POT(0x14C, 8)` on the 32-bit build. -/
theorem ALIGN_POT_smallest_multiple_witness :
    0x14C + 2 ^ 3 - 1 < 2 ^ Arch.x86.width ∧
    (2 ^ 3 ∣ ALIGN_POT .x86 0x14C (2 ^ 3) ∧ 0x14C ≤ ALIGN_POT .x86 0x14C (2 ^ 3) ∧
      (∀ m, 2 ^ 3 ∣ m → 0x14C ≤ m → ALIGN_POT .x86 0x14C (2 ^ 3) ≤ m) ∧
      ALIGN_POT .x86 0x14C (2 ^ 3) < 0x14C + 2 ^ 3 ∧
      (ALIGN_POT .x86 0x14C (2 ^ 3) = 0x14C ↔ 2 ^ 3 ∣ 0x14C)) :=
  ⟨by decide, ALIGN_POT_smallest_multiple .x86 3 0x14C (by decide)⟩

/-- C16 fails as stated: the byte 0x03 is accepted against the mask 0x01 although it has the
bit 0x02 outside the mask, and the word 0x03030303 is accepted against the mask
0x00000001. -/
theorem mask_check_accepts_other_bits :
    check_uchar_mask (fun _ => 0x03) 0 0x01 = true ∧ (0x03 : Nat) ≠ 0x01 ∧
    check_ulong_mask (fun _ => 0x03) 0 0x00000001 = true ∧
    Mem.readLE (fun _ => 0x03) 0 4 = 0x03030303 ∧ (0x03030303 : Nat) ≠ 0x00000001 := by
  decide

/-- C16 amended: `check_uchar_mask` and `check_ulong_mask` accept a value against a mask
exactly when the value has every bit of the mask; the value equals the mask exactly when the
check accepts it and, in addition, it has no bit outside the mask. -/
theorem mask_check_accepts_iff (ptr : Mem) (off m : Nat) :
    (check_uchar_mask ptr off m = true ↔
      ∀ i, m.testBit i = true → (ptr off).testBit i = true) ∧
    (check_ulong_mask ptr off m = true ↔
      ∀ i, m.testBit i = true → (ptr.readLE off 4).testBit i = true) ∧
    (ptr off = m ↔ check_uchar_mask ptr off m = true ∧
      ∀ i, (ptr off).testBit i = true → m.testBit i = true) ∧
    (ptr.readLE off 4 = m ↔ check_ulong_mask ptr off m = true ∧
      ∀ i, (ptr.readLE off 4).testBit i = true → m.testBit i = true) := by
  have hu : check_uchar_mask ptr off m = true ↔ ptr off &&& m = m := by
    simp [check_uchar_mask]
  have hl : check_ulong_mask ptr off m = true ↔ ptr.readLE off 4 &&& m = m := by
    simp [check_ulong_mask]
  refine ⟨?_, ?_, ?_, ?_⟩
  · rw [hu]; exact and_eq_mask_iff _ _
  · rw [hl]; exact and_eq_mask_iff _ _
  · rw [hu]; exact eq_mask_iff _ _
  · rw [hl]; exact eq_mask_iff _ _

/-! ## Covered bytes -/

/-- A byte within the extent of a member of the layout is covered. -/
theorem covered_of_mem (l : List Placed) (p : Placed) (hp : p ∈ l) (b : Nat)
    (h1 : p.offset ≤ b) (h2 : b < p.offset + p.size) : covered l b = true := by
  unfold covered
  rw [List.any_eq_true]
  exact ⟨p, hp, by simp [h1, h2]⟩

/-- Every byte from `cur` up to where `reach` gets is covered. -/
theorem covered_below_reach (l : List Placed) (fuel cur b : Nat) (h1 : cur ≤ b)
    (h2 : b < reach l fuel cur) : covered l b = true := by
  induction fuel generalizing cur with
  | zero =>
    simp only [reach] at h2
    omega
  | succ n ih =>
    rw [reach] at h2
    split at h2
    · rename_i p hp
      have hmem := List.mem_of_find?_eq_some hp
      have hpred := List.find?_some hp
      simp only [Bool.and_eq_true, decide_eq_true_eq] at hpred
      by_cases hb : b < p.offset + p.size
      · exact covered_of_mem l p hmem b (by omega) hb
      · exact ih (p.offset + p.size) (by omega) h2
    · omega

/-- The implicit padding of a block is the set of its bytes that no member covers. -/
theorem mem_implicitPadding (T : CType) (b : Nat) :
    b ∈ implicitPadding T ↔ b < T.size ∧ covered (layout T) b = false := by
  simp [implicitPadding, List.mem_filter, List.mem_range]

set_option maxRecDepth 1000000 in
/-- The bytes of the 32-bit PEB outside every member. -/
theorem implicitPadding_PEB_x86 (b : Nat) :
    b ∈ implicitPadding (PEB .x86) ↔
      b ∈ [0x244, 0x245, 0x246, 0x247, 0x47C, 0x47D, 0x47E, 0x47F] := by
  have hs : (PEB .x86).size = 0x488 := by decide!
  have hr : 0x244 ≤ reach (layout (PEB .x86)) 200 0 ∧
      0x47C ≤ reach (layout (PEB .x86)) 200 0x248 ∧
      0x488 ≤ reach (layout (PEB .x86)) 200 0x480 := by decide!
  have hg : ∀ c ∈ [0x244, 0x245, 0x246, 0x247, 0x47C, 0x47D, 0x47E, 0x47F],
      covered (layout (PEB .x86)) c = false := by decide!
  rw [mem_implicitPadding, hs]
  constructor
  · rintro ⟨hb, hc⟩
    by_contra hn
    simp only [List.mem_cons, List.mem_singleton, List.not_mem_nil, or_false, not_or] at hn
    have hcov : covered (layout (PEB .x86)) b = true := by
      by_cases c1 : b < 0x244
      · exact covered_below_reach _ 200 0 b (by omega) (by omega)
      · by_cases c2 : b < 0x47C
        · exact covered_below_reach _ 200 0x248 b (by omega) (by omega)
        · exact covered_below_reach _ 200 0x480 b (by omega) (by omega)
    rw [hcov] at hc
    exact absurd hc (by decide)
  · intro hb
    refine ⟨?_, hg b hb⟩
    simp only [List.mem_cons, List.mem_singleton, List.not_mem_nil, or_false] at hb
    omega

set_option maxRecDepth 1000000 in
/-- The bytes of the 64-bit PEB outside every member. -/
theorem implicitPadding_PEB_x64 (b : Nat) :
    b ∈ implicitPadding (PEB .x64) ↔
      b ∈ [0x354, 0x355, 0x356, 0x357, 0x37C, 0x37D, 0x37E, 0x37F,
        0x38C, 0x38D, 0x38E, 0x38F] := by
  have hs : (PEB .x64).size = 0x7D0 := by decide!
  have hr : 0x354 ≤ reach (layout (PEB .x64)) 200 0 ∧
      0x37C ≤ reach (layout (PEB .x64)) 200 0x358 ∧
      0x38C ≤ reach (layout (PEB .x64)) 200 0x380 ∧
      0x7D0 ≤ reach (layout (PEB .x64)) 200 0x390 := by decide!
  have hg : ∀ c ∈ [0x354, 0x355, 0x356, 0x357, 0x37C, 0x37D, 0x37E, 0x37F,
      0x38C, 0x38D, 0x38E, 0x38F], covered (layout (PEB .x64)) c = false := by decide!
  rw [mem_implicitPadding, hs]
  constructor
  · rintro ⟨hb, hc⟩
    by_contra hn
    simp only [List.mem_cons, List.mem_singleton, List.not_mem_nil, or_false, not_or] at hn
    have hcov : covered (layout (PEB .x64)) b = true := by
      by_cases c1 : b < 0x354
      · exact covered_below_reach _ 200 0 b (by omega) (by omega)
      · by_cases c2 : b < 0x37C
        · exact covered_below_reach _ 200 0x358 b (by omega) (by omega)
        · by_cases c3 : b < 0x38C
          · exact covered_below_reach _ 200 0x380 b (by omega) (by omega)
          · exact covered_below_reach _ 200 0x390 b (by omega) (by omega)
    rw [hcov] at hc
    exact absurd hc (by decide)
  · intro hb
    refine ⟨?_, hg b hb⟩
    simp only [List.mem_cons, List.mem_singleton, List.not_mem_nil, or_false] at hb
    omega

/-! ## Padding of the process environment block -/

/-- C17 fails as stated: in the 64-bit layout of the PEB the byte at 0x37C, between the end
of `TracingFlags` and `CsrServerReadOnlySharedMemoryBase` at 0x380, lies inside no declared
member, and so does the byte at 0x244 in the 32-bit layout. -/
theorem peb_implicit_padding_exists :
    0x37C < (PEB .x64).size ∧ covered (layout (PEB .x64)) 0x37C = false ∧
    tail_offsetof (layout (PEB .x64)) ["TracingFlags"] = some 0x37C ∧
    offsetOf (layout (PEB .x64)) ["CsrServerReadOnlySharedMemoryBase"] = some 0x380 ∧
    0x244 < (PEB .x86).size ∧ covered (layout (PEB .x86)) 0x244 = false := by
  decide!

/-- C17 amended: every byte of the PEB lies inside some declared member of some alternative
except, in the 64-bit layout, the 12 bytes from 0x354, 0x37C and 0x38C on and, in the 32-bit
layout, the 8 bytes from 0x244 and 0x47C on, which are padding the compiler inserts; in the
64-bit layout the six members `Padding0` to `Padding5` are 4 bytes each at 0x04, 0x54, 0x74,
0x10C, 0x134 and 0x2C4; and no padding follows the last member. -/
theorem peb_padding (a : Arch) :
    (∀ b, b ∈ implicitPadding (PEB a) ↔
      b ∈ (match a with
        | .x86 => [0x244, 0x245, 0x246, 0x247, 0x47C, 0x47D, 0x47E, 0x47F]
        | .x64 => [0x354, 0x355, 0x356, 0x357, 0x37C, 0x37D, 0x37E, 0x37F,
            0x38C, 0x38D, 0x38E, 0x38F])) ∧
    (∀ p ∈ [("Padding0", 0x04), ("Padding1", 0x54), ("Padding2", 0x74), ("Padding3", 0x10C),
        ("Padding4", 0x134), ("Padding5", 0x2C4)],
      findMember (layout (PEB .x64)) [p.1] = some ⟨[p.1], p.2, 4, 0, 0⟩) ∧
    tail_offsetof (layout (PEB a)) ["ExtendedFeatureDisableMask"] = some (PEB a).size := by
  refine ⟨?_, by decide!, by cases a <;> decide!⟩
  cases a
  · exact implicitPadding_PEB_x86
  · exact implicitPadding_PEB_x64

/-- Witness of C17 amended at the byte 0x38C of the 64-bit layout, after
`TppWorkerpListLock`. -/
theorem peb_padding_witness :
    0x38C < (PEB .x64).size ∧ covered (layout (PEB .x64)) 0x38C = false :=
  (mem_implicitPadding (PEB .x64) 0x38C).mp (((peb_padding .x64).1 0x38C).mpr (by decide))

/-! ## Legacy alternatives, sizes and documented offsets of the TEB -/

/-- C18: in the 32-bit layout of the TEB, with the SDK types at their Windows sizes
(`GDI_TEB_BATCH` 0x4E0 bytes), every `check_offsetof` call of `test_teb` on a member of a
legacy `nt_*` struct whose 32-bit expected value is not `SIZE_MAX` is compiled for x86 and
has as first argument exactly that value, and the members the claim lists have the listed
offsets and end offsets. -/
theorem teb_legacy_offsets_x86 :
    (∀ c ∈ test_teb_offsetof, c.arg.legacy = true → c.expected .x86 ≠ SIZE_MAX .x86 →
      c.guard.compiled .x86 = true ∧
      c.arg.eval (TEB .x86 (windowsSdk .x86)) = some (c.expected .x86)) ∧
    (windowsSdk .x86).GDI_TEB_BATCH.size = 0x4E0 ∧
    (∀ p ∈ [(["nt_3_10_p2", "SystemReserved1"], 0xCC), (["nt_3_10_p3", "Spare1"], 0x1A4),
        (["nt_3_10", "Spare2"], 0x1A8), (["nt_3_10", "Win32ThreadInfo"], 0x1AC),
        (["nt_3_10", "GdiClientPID"], 0x6F4), (["nt_3_10", "User32Reserved0"], 0x700),
        (["nt_3_10", "UserReserved"], 0x708), (["nt_3_50_p2", "CsrQlpcTeb"], 0x1AC),
        (["nt_3_50_p2", "Win32ClientInfo"], 0x1C0), (["nt_3_50_p2", "SystemReserved2"], 0x1D4),
        (["nt_3_50_p2", "gdiRgn"], 0x6DC), (["nt_3_50_p2", "UserReserved"], 0x708),
        (["nt_3_50_p2", "glDispatchTable"], 0x714), (["nt_4_0_p2", "ExceptionCode"], 0x1A8),
        (["nt_4_0_p2", "SpareBytes1"], 0x1AC), (["nt_4_0_p2", "glReserved2"], 0xBDC),
        (["nt_5_1_sp2", "SafeThunkCall"], 0xFB4), (["nt_5_2_sp1_p2", "SafeThunkCall"], 0xFB8)],
      offsetOf (layout (TEB .x86 (windowsSdk .x86))) p.1 = some p.2) ∧
    (∀ p ∈ [(["nt_3_10", "UserReserved"], 0xBF4), (["nt_3_50_p2", "glDispatchTable"], 0xBE0),
        (["nt_4_0_p2", "GdiTebBatch"], 0x6DC), (["nt_4_0_p2", "glReserved2"], 0xBE0)],
      tail_offsetof (layout (TEB .x86 (windowsSdk .x86))) p.1 = some p.2) := by
  decide!

/-- Witness of C18 at the call
`check_offsetof(tail_offsetof(TEB, nt_3_10.UserReserved), 0x0BF4, SIZE_MAX)`. -/
theorem teb_legacy_offsets_x86_witness :
    tail_offsetof (layout (TEB .x86 (windowsSdk .x86))) ["nt_3_10", "UserReserved"] =
      some 0xBF4 :=
  teb_legacy_offsets_x86.2.2.2 (["nt_3_10", "UserReserved"], 0xBF4) (by decide)

set_option maxRecDepth 100000 in
/-- C19: every row of the size table of the TEB lists a 32-bit size, and for every row and
architecture with a size listed, the end offset of the member that closes the version,
rounded up to the size of a pointer, is that size (SDK types at their Windows sizes). -/
theorem teb_size_table_rows (a : Arch) :
    (∀ r ∈ TEB_size_table, (r.size .x86).isSome = true) ∧
    (∀ r ∈ TEB_size_table, (r.size a).isSome = true →
      r.roundedToPointer a (TEB a (windowsSdk a)) = r.size a) ∧
    TEB_size_table.map (fun r => (r.last, r.x86, r.x64)) =
      [(["ReservedForNtRpc"], some 0xF20, none), (["DbgSsReserved"], some 0xF28, none),
        (["WaitingOnLoaderLock"], some 0xF88, none), (["NlsCache"], some 0xFA4, none),
        (["ActiveFrame"], some 0xFB4, none), (["nt_5_1_sp2"], some 0xFB8, none),
        (["FlsData"], some 0xFB8, none), (["nt_5_2_sp1_p2"], some 0xFBC, some 0x17D8),
        (["WaitReasonBitMap"], some 0xFF8, some 0x1828),
        (["ResourceRetValue"], some 0xFE4, some 0x1818),
        (["ReservedForWdf"], some 0xFE8, some 0x1820),
        (["EffectiveContainerId"], some 0x1000, some 0x1838)] := by
  cases a <;> decide!

/-- Witness of C19 at the row `| 6.1 | 0x0FE4 | 0x1818 |` in the 64-bit layout. -/
theorem teb_size_table_rows_witness :
    SizeRow.roundedToPointer ⟨"6.1", some 0x0FE4, some 0x1818, ["ResourceRetValue"]⟩ .x64
      (TEB .x64 (windowsSdk .x64)) = some 0x1818 :=
  (teb_size_table_rows .x64).2.1 ⟨"6.1", some 0x0FE4, some 0x1818, ["ResourceRetValue"]⟩
    (by decide) (by decide)

set_option maxRecDepth 100000 in
/-- C20 fails as stated: the comment `// 0x01A8 0x02C0 (all)` documents the unnamed union
after `ExceptionCode` at 0x02C0 in the 64-bit layout, but the union is at 0x02C8, after
`Padding0` at 0x02C4, where `test_teb` expects its first member
`ActivationContextStackPointer`; the only unnamed member at 0x02C0 is the union of
`ExceptionCode`. -/
theorem teb_union_not_at_comment :
    (⟨.always, true, "nt_3_10", "ActivationContextStackPointer", some 0x01A8, some 0x02C0⟩,
      ⟨true, "ActivationContextStackPointer", 0x2C8⟩) ∈
      pairUnnamed TEB_unnamed_doc .x64 (TEB .x64 (windowsSdk .x64)) ∧
    (∀ u ∈ (TEB .x64 (windowsSdk .x64)).unnamed 0, u.offset = 0x2C0 →
      u.first = "ExceptionCode") ∧
    offsetOf (layout (TEB .x64 (windowsSdk .x64))) ["Padding0"] = some 0x2C4 ∧
    tail_offsetof (layout (TEB .x64 (windowsSdk .x64))) ["Padding0"] = some 0x2C8 ∧
    offsetOf (layout (TEB .x64 (windowsSdk .x64))) ["ActivationContextStackPointer"] =
      some 0x2C8 ∧
    ⟨.always, .offsetof ["ActivationContextStackPointer"], .value 0x1A8, .value 0x2C8⟩ ∈
      test_teb_offsetof := by
  decide!

set_option maxRecDepth 100000 in
/-- C20 amended: on both architectures, every named member of the TEB that the header
documents with an offset and no call of `test_teb` names, if it is part of the build for the
architecture, has an offset in its comment and sits at it (SDK types at their Windows
sizes); the members the claim lists, and `SameTebFlags` at 0xFCA / 0x17EE, have the listed
offsets; a documented member under `#ifdef` that is not part of the build is absent from the
layout, or a member of the same name from the other branch is at the documented offset; the
unnamed unions and structs of the header are those of the layout, in the same order, and
each one with an offset comment sits at the offset of its comment, except, in the 64-bit
layout, the union documented `0x01A8 0x02C0 (all)` and the struct and the union for 3.50 and
higher that come first inside it, documented at 0x02C0 too: these three are at 0x02C8. -/
theorem teb_documented_offsets (a : Arch) :
    (∀ d ∈ TEB_doc_unchecked, d.guard.compiled a = true →
      (d.offset a).isSome = true ∧
      offsetOf (layout (TEB a (windowsSdk a))) d.member = d.offset a) ∧
    (∀ p ∈ [("EnvironmentPointer", 0x1C, 0x38), ("ClientId", 0x20, 0x40),
        ("ActiveRpcHandle", 0x28, 0x50), ("ThreadLocalStoragePointer", 0x2C, 0x58),
        ("ProcessEnvironmentBlock", 0x30, 0x60), ("LastErrorValue", 0x34, 0x68),
        ("CountOfOwnedCriticalSections", 0x38, 0x6C), ("CsrClientThread", 0x3C, 0x70),
        ("Win32ThreadInfo", 0x40, 0x78), ("User32Reserved", 0x44, 0x80),
        ("UserReserved", 0xAC, 0xE8), ("WOW32Reserved", 0xC0, 0x100),
        ("CurrentLocale", 0xC4, 0x108), ("FpSoftwareStatusRegister", 0xC8, 0x10C),
        ("StaticUnicodeBuffer", 0xC00, 0x1268), ("DeallocationStack", 0xE0C, 0x1478),
        ("TlsSlots", 0xE10, 0x1480), ("TlsLinks", 0xF10, 0x1680), ("Vdm", 0xF18, 0x1690),
        ("DbgSsReserved", 0xF20, 0x16A0), ("HardErrorMode", 0xF28, 0x16B0),
        ("ActivityId", 0xF50, 0x1710), ("SubProcessTag", 0xF60, 0x1720),
        ("EtwTraceData", 0xF68, 0x1730), ("WinSockData", 0xF6C, 0x1738),
        ("GdiBatchCount", 0xF70, 0x1740), ("ReservedForOle", 0xF80, 0x1758),
        ("NlsCache", 0xFA0, 0x17A0), ("pShimData", 0xFA4, 0x17A8),
        ("CurrentTransactionHandle", 0xFAC, 0x17B8), ("SameTebFlags", 0xFCA, 0x17EE)],
      offsetOf (layout (TEB a (windowsSdk a))) [p.1] = some (a.pick p.2.1 p.2.2)) ∧
    (∀ d ∈ TEB_doc_unchecked, d.guard.compiled a = false →
      offsetOf (layout (TEB a (windowsSdk a))) d.member = none ∨
      offsetOf (layout (TEB a (windowsSdk a))) d.member = d.offset a) ∧
    ((TEB_unnamed_doc.filter fun d => d.guard.compiled a).map
        (fun d => (d.isUnion, d.first a)) =
      ((TEB a (windowsSdk a)).unnamed 0).map (fun u => (u.isUnion, u.first))) ∧
    (∀ p ∈ pairUnnamed TEB_unnamed_doc a (TEB a (windowsSdk a)),
      p.1.offset a = none ∨ p.1.offset a = some p.2.offset ∨
      (a = .x64 ∧ p.1.offset a = some 0x2C0 ∧ p.2.offset = 0x2C8)) ∧
    ((pairUnnamed TEB_unnamed_doc a (TEB a (windowsSdk a))).filter
        (fun p => !(p.1.offset a == none || p.1.offset a == some p.2.offset))).map
        (fun p => (p.1.isUnion, p.1.first_x86, p.1.offset a, p.2.offset)) =
      (match a with
        | .x86 => []
        | .x64 => [(true, "nt_3_10", some 0x2C0, 0x2C8), (false, "nt_3_50_p2", some 0x2C0, 0x2C8),
            (true, "nt_3_50_p2", some 0x2C0, 0x2C8)]) := by
  cases a <;> decide!

/-- Witness of C20 amended at the comment `// 0x0C00 0x1268 (all)` before
`StaticUnicodeBuffer`. -/
theorem teb_documented_offsets_witness :
    offsetOf (layout (TEB .x64 (windowsSdk .x64))) ["StaticUnicodeBuffer"] = some 0x1268 :=
  ((teb_documented_offsets .x64).1 ⟨.always, ["StaticUnicodeBuffer"], some 0xC00, some 0x1268⟩
    (by decide) (by decide)).2

/-! ## Alignment -/

/-- The largest alignment of a list is at least 1. -/
theorem one_le_maxAlign (l : List Nat) : 1 ≤ maxAlign l := by
  induction l with
  | nil => exact Nat.le_refl 1
  | cons x xs ih =>
    show 1 ≤ max x (maxAlign xs)
    exact Nat.le_trans ih (Nat.le_max_right _ _)

/-- The largest alignment of two lists together. -/
theorem maxAlign_append (l r : List Nat) : maxAlign (l ++ r) = max (maxAlign l) (maxAlign r) := by
  induction l with
  | nil =>
    show maxAlign r = max 1 (maxAlign r)
    exact (Nat.max_eq_right (one_le_maxAlign r)).symm
  | cons x xs ih =>
    show max x (maxAlign (xs ++ r)) = max (max x (maxAlign xs)) (maxAlign r)
    rw [ih, Nat.max_assoc]

mutual
/-- The alignment of a type, or 1 if that is more, is the largest alignment of its leaves. -/
theorem ctype_align_eq_maxAlign : ∀ T : CType, max T.align 1 = maxAlign T.leafAligns
  | .prim _ a => by simp [CType.align, CType.leafAligns, maxAlign]
  | .array e _ => by
    simpa [CType.align, CType.leafAligns] using ctype_align_eq_maxAlign e
  | .struct ms => by
    have h := membersAlign_eq_maxAlign ms
    simp only [CType.align, CType.leafAligns]
    rw [h]
    exact Nat.max_eq_left (one_le_maxAlign _)
  | .union ms => by
    have h := membersAlign_eq_maxAlign ms
    simp only [CType.align, CType.leafAligns]
    rw [h]
    exact Nat.max_eq_left (one_le_maxAlign _)
/-- The alignment of a list of members is the largest alignment of its leaves. -/
theorem membersAlign_eq_maxAlign : ∀ ms : List Member,
    membersAlign ms = maxAlign (membersLeafAligns ms)
  | [] => by simp [membersAlign, membersLeafAligns, maxAlign]
  | m :: ms => by
    have h1 := member_align_eq_maxAlign m
    have h2 := membersAlign_eq_maxAlign ms
    have h3 := one_le_maxAlign (membersLeafAligns ms)
    simp only [membersAlign, membersLeafAligns]
    rw [maxAlign_append, ← h1, h2]
    omega
/-- The alignment of a member, or 1 if that is more, is the largest alignment of its
leaves. -/
theorem member_align_eq_maxAlign : ∀ m : Member, max m.align 1 = maxAlign m.leafAligns
  | .field _ t => by
    simpa [Member.align, Member.leafAligns] using ctype_align_eq_maxAlign t
  | .anon t => by
    simpa [Member.align, Member.leafAligns] using ctype_align_eq_maxAlign t
  | .bits _ t _ => by
    simpa [Member.align, Member.leafAligns] using ctype_align_eq_maxAlign t
end

set_option maxRecDepth 100000 in
/-- C23: the alignment of every struct and of every union is the largest natural alignment
of its leaf members, reached through arrays, nested structs and unions, and divides its
size; `alignof(PEB)` is 8 on both architectures, in the 32-bit layout from the 8-byte
integers, the pointers being 4-aligned; `alignof(LDR_DATA_TABLE_ENTRY)` is 8 on both;
`alignof(RTL_USER_PROCESS_PARAMETERS)` is 4 in the 32-bit and 8 in the 64-bit layout; and
the size of each of the three is a multiple of its alignment. -/
theorem alignment_is_max_of_leaves (a : Arch) :
    (∀ ms, (CType.struct ms).align = maxAlign (CType.struct ms).leafAligns ∧
      (CType.struct ms).align ∣ (CType.struct ms).size) ∧
    (∀ ms, (CType.union ms).align = maxAlign (CType.union ms).leafAligns ∧
      (CType.union ms).align ∣ (CType.union ms).size) ∧
    ((PEB a).align = 8 ∧ maxAlign (PEB a).leafAligns = 8) ∧
    (8 ∈ (PEB .x86).leafAligns ∧ LARGE_INTEGER.align = 8 ∧ ULONGLONG.align = 8 ∧
      (PVOID .x86).align = 4) ∧
    ((LDR_DATA_TABLE_ENTRY a).align = 8 ∧ maxAlign (LDR_DATA_TABLE_ENTRY a).leafAligns = 8) ∧
    ((RTL_USER_PROCESS_PARAMETERS a).align = a.pick 4 8 ∧
      maxAlign (RTL_USER_PROCESS_PARAMETERS a).leafAligns = a.pick 4 8) ∧
    (PEB a).size % (PEB a).align = 0 ∧
    (LDR_DATA_TABLE_ENTRY a).size % (LDR_DATA_TABLE_ENTRY a).align = 0 ∧
    (RTL_USER_PROCESS_PARAMETERS a).size % (RTL_USER_PROCESS_PARAMETERS a).align = 0 := by
  refine ⟨fun ms => ⟨?_, alignUp_dvd _ _⟩, fun ms => ⟨?_, alignUp_dvd _ _⟩, ?_⟩
  · simp only [CType.align, CType.leafAligns]
    exact membersAlign_eq_maxAlign ms
  · simp only [CType.align, CType.leafAligns]
    exact membersAlign_eq_maxAlign ms
  · cases a <;> decide!

/-! ## Alternatives of the process environment block -/

set_option maxRecDepth 100000 in
/-- C21: in both layouts of the PEB the alternative `SparePointers[4]`, `SpareUlongs[5]`
occupies the byte range of the alternative `FlsCallback` to `FlsHighIndex`: `SparePointers`
starts where `FlsCallback` does (0x20C / 0x320) and ends where `SpareUlongs` starts,
`SpareUlongs` starts where `FlsBitmapBits` does (0x21C / 0x340), both alternatives end at
0x230 / 0x354 and have the same size (0x24 / 0x38), and `WerRegistrationData` is at
0x230 / 0x358. -/
theorem peb_spare_alternative_range (a : Arch) :
    (offsetOf (layout (PEB a)) ["FlsCallback"] = some (a.pick 0x20C 0x320) ∧
      offsetOf (layout (PEB a)) ["SparePointers"] = some (a.pick 0x20C 0x320)) ∧
    (offsetOf (layout (PEB a)) ["FlsBitmapBits"] = some (a.pick 0x21C 0x340) ∧
      tail_offsetof (layout (PEB a)) ["SparePointers"] = some (a.pick 0x21C 0x340) ∧
      offsetOf (layout (PEB a)) ["SpareUlongs"] = some (a.pick 0x21C 0x340)) ∧
    (tail_offsetof (layout (PEB a)) ["FlsHighIndex"] = some (a.pick 0x230 0x354) ∧
      tail_offsetof (layout (PEB a)) ["SpareUlongs"] = some (a.pick 0x230 0x354)) ∧
    ({ offset := a.pick 0x20C 0x320, size := a.pick 0x24 0x38,
        alternatives := [("FlsCallback", a.pick 0x24 0x38, a.pick 0x230 0x354),
          ("SparePointers", a.pick 0x24 0x38, a.pick 0x230 0x354)] } ∈ (PEB a).slots 0) ∧
    offsetOf (layout (PEB a)) ["WerRegistrationData"] = some (a.pick 0x230 0x358) := by
  cases a <;> decide!

/-- C22 fails as stated: in the 32-bit layout `CSDVersion` of the alternative for 5.1 and
higher is at 0x1F0, where `test_peb` expects it, and not at the 0x01DC of the comment
before it. -/
theorem peb_CSDVersion_not_at_comment :
    offsetOf (layout (PEB .x86)) PEB_CSDVersion_doc.member = some 0x1F0 ∧
    PEB_CSDVersion_doc.offset .x86 = some 0x1DC ∧
    offsetOf (layout (PEB .x86)) PEB_CSDVersion_doc.member ≠ PEB_CSDVersion_doc.offset .x86 ∧
    ⟨.always, .offsetof ["CSDVersion"], .value 0x1F0, .value 0x2E8⟩ ∈ test_peb_offsetof := by
  decide!

set_option maxRecDepth 100000 in
/-- C22 amended: in the alternative of the PEB for 5.1 and higher `CSDVersion` is at 0x1F0
in the 32-bit and at 0x2E8 in the 64-bit layout, right after `AppCompatInfo` at
0x1EC / 0x2E0, as `test_peb` expects; the comment before the member agrees in the 64-bit
layout only, and 0x1DC is where `nt_5_0.CSDVersion` is in the 32-bit layout. -/
theorem peb_CSDVersion_offset (a : Arch) :
    offsetOf (layout (PEB a)) ["CSDVersion"] = some (a.pick 0x1F0 0x2E8) ∧
    tail_offsetof (layout (PEB a)) ["AppCompatInfo"] = some (a.pick 0x1F0 0x2E8) ∧
    (∀ c ∈ test_peb_offsetof, c.arg = .offsetof ["CSDVersion"] →
      c.guard.compiled a = true ∧ c.arg.eval (PEB a) = some (c.expected a)) ∧
    offsetOf (layout (PEB .x64)) PEB_CSDVersion_doc.member = PEB_CSDVersion_doc.offset .x64 ∧
    offsetOf (layout (PEB .x86)) ["nt_5_0", "CSDVersion"] = PEB_CSDVersion_doc.offset .x86 := by
  cases a <;> decide!

/-- Witness of C22 amended at the call
`check_offsetof(offsetof(PEB, CSDVersion), 0x01F0, 0x02E8)` on the 32-bit build. -/
theorem peb_CSDVersion_offset_witness :
    Measured.eval (PEB .x86) (.offsetof ["CSDVersion"]) = some 0x1F0 :=
  ((peb_CSDVersion_offset .x86).2.2.1
    ⟨.always, .offsetof ["CSDVersion"], .value 0x1F0, .value 0x2E8⟩ (by decide) rfl).2

set_option maxRecDepth 100000 in
/-- C26: `CURDIR` is 0x0C / 0x18 bytes and `RTL_DRIVE_LETTER_CURDIR` 0x10 / 0x18 bytes, and
the array `CurrentDirectores` of `RTL_MAX_DRIVE_LETTERS` = 32 elements of
`RTL_USER_PROCESS_PARAMETERS` spans 0x200 / 0x300 bytes from 0x90 / 0xF0 to
0x290 / 0x3F0. -/
theorem curdir_sizes (a : Arch) :
    (CURDIR a).size = a.pick 0x0C 0x18 ∧
    (RTL_DRIVE_LETTER_CURDIR a).size = a.pick 0x10 0x18 ∧
    RTL_MAX_DRIVE_LETTERS = 32 ∧
    findMember (layout (RTL_USER_PROCESS_PARAMETERS a)) ["CurrentDirectores"] =
      some ⟨["CurrentDirectores"], a.pick 0x90 0xF0, a.pick 0x200 0x300, 0, 0⟩ ∧
    RTL_MAX_DRIVE_LETTERS * (RTL_DRIVE_LETTER_CURDIR a).size = a.pick 0x200 0x300 ∧
    tail_offsetof (layout (RTL_USER_PROCESS_PARAMETERS a)) ["CurrentDirectores"] =
      some (a.pick 0x290 0x3F0) := by
  cases a <;> decide!

set_option maxRecDepth 100000 in
/-- C27: in the 32-bit PEB `UnicodeCaseTableData` is at 0x60 in both alternatives while
`CriticalSectionTimeout` moves from 0x68 in `nt_3_10` to 0x70, `NumberOfProcessors` at 0x64
taking the four bytes `nt_3_10` leaves unused before 0x68 and `NtGlobalFlag` being at 0x68;
`AppCompatInfo` and `CSDVersion` move from 0x1D8 and 0x1DC in `nt_5_0` to 0x1EC and 0x1F0,
by the 0x14 bytes of `AppCompatFlags`, `AppCompatFlagsUser` and `pShimData` together. -/
theorem peb_shifted_members :
    (∀ p ∈ [(["nt_3_10", "UnicodeCaseTableData"], 0x60), (["UnicodeCaseTableData"], 0x60),
        (["nt_3_10", "CriticalSectionTimeout"], 0x68), (["CriticalSectionTimeout"], 0x70),
        (["NumberOfProcessors"], 0x64), (["NtGlobalFlag"], 0x68),
        (["nt_5_0", "AppCompatInfo"], 0x1D8), (["nt_5_0", "CSDVersion"], 0x1DC),
        (["AppCompatInfo"], 0x1EC), (["CSDVersion"], 0x1F0), (["AppCompatFlags"], 0x1D8),
        (["AppCompatFlagsUser"], 0x1E0), (["pShimData"], 0x1E8)],
      offsetOf (layout (PEB .x86)) p.1 = some p.2) ∧
    tail_offsetof (layout (PEB .x86)) ["nt_3_10", "UnicodeCaseTableData"] = some 0x64 ∧
    tail_offsetof (layout (PEB .x86)) ["NumberOfProcessors"] = some 0x68 ∧
    tail_offsetof (layout (PEB .x86)) ["NtGlobalFlag"] = some 0x6C ∧
    (["AppCompatFlags", "AppCompatFlagsUser", "pShimData"].map fun n =>
      (findMember (layout (PEB .x86)) [n]).map Placed.size) = [some 8, some 8, some 4] ∧
    0x1D8 + (8 + 8 + 4) = 0x1EC ∧ 0x1DC + (8 + 8 + 4) = 0x1F0 ∧ 8 + 8 + 4 = 0x14 := by
  decide!

/-! ## Flags and unions -/

set_option maxRecDepth 100000 in
/-- C24: every named flag of the PEB `BitField` byte has the mask of its comment; the flags
of 6.0 to 6.2 and those of 6.3 and higher are the two sets the claim lists; within each set
the masks are pairwise disjoint; the masks of 6.3 and higher together are 0xFF; and two
different named flags with a common bit are never both of the same set. -/
theorem peb_BitField_lineages_disjoint (a : Arch) :
    (∀ d ∈ PEB_BitField_doc, flagMask (layout (PEB a)) d.flag = some d.mask) ∧
    ((layout (PEB a)).filter fun p =>
        p.offset == 3 && p.bitWidth != 0 && p.path.all fun n =>
          n.toList.take 9 != "SpareBits".toList).map (fun p => p.path) =
      PEB_BitField_doc.map (fun d => [d.flag]) ∧
    (PEB_BitField_doc.filter fun d => d.nt_6_0_to_6_2).map (fun d => d.flag) =
      ["ImageUsedLargePages", "IsProtectedProcess", "IsLegacyProcess",
        "IsImageDynamicallyRelocated_6_0", "SkipPatchingUser32Forwarders_6_0_SPx",
        "IsPackagedProcess_6_2", "IsAppContainer_6_2"] ∧
    (PEB_BitField_doc.filter fun d => d.nt_6_3_and_higher).map (fun d => d.flag) =
      ["ImageUsedLargePages", "IsProtectedProcess", "IsImageDynamicallyRelocated_6_3",
        "SkipPatchingUser32Forwarders_6_3", "IsPackagedProcess_6_3", "IsAppContainer_6_3",
        "IsProtectedProcessLight", "IsLongPathAwareProcess"] ∧
    (PEB_BitField_doc.filter fun d => d.nt_6_0_to_6_2).Pairwise
      (fun d e => d.mask &&& e.mask = 0) ∧
    (PEB_BitField_doc.filter fun d => d.nt_6_3_and_higher).Pairwise
      (fun d e => d.mask &&& e.mask = 0) ∧
    ((PEB_BitField_doc.filter fun d => d.nt_6_3_and_higher).map fun d => d.mask).foldr
      (fun x y => x ||| y) 0 = 0xFF ∧
    (∀ d ∈ PEB_BitField_doc, ∀ e ∈ PEB_BitField_doc, d ≠ e → d.mask &&& e.mask ≠ 0 →
      (d.nt_6_0_to_6_2 && e.nt_6_0_to_6_2) = false ∧
      (d.nt_6_3_and_higher && e.nt_6_3_and_higher) = false) := by
  cases a <;> decide!

/-- Witness of C24 at the pair `IsLegacyProcess`, `IsImageDynamicallyRelocated_6_3`, which
share the bit 0x04 and belong to different sets. -/
theorem peb_BitField_lineages_disjoint_witness :
    (BitDoc.nt_6_0_to_6_2 ⟨"IsLegacyProcess", 0x04, true, false⟩ &&
      BitDoc.nt_6_0_to_6_2 ⟨"IsImageDynamicallyRelocated_6_3", 0x04, false, true⟩) = false ∧
    (BitDoc.nt_6_3_and_higher ⟨"IsLegacyProcess", 0x04, true, false⟩ &&
      BitDoc.nt_6_3_and_higher ⟨"IsImageDynamicallyRelocated_6_3", 0x04, false, true⟩) =
      false :=
  (peb_BitField_lineages_disjoint .x86).2.2.2.2.2.2.2
    ⟨"IsLegacyProcess", 0x04, true, false⟩ (by decide)
    ⟨"IsImageDynamicallyRelocated_6_3", 0x04, false, true⟩ (by decide) (by decide) (by decide)

set_option maxRecDepth 100000 in
/-- C28: each flag of the PEB `BitField` byte that exists in 6.0 to 6.2 above
`IsLegacyProcess` (mask 0x04, bit 2) and again in 6.3 and higher is, in 6.3 and higher, one
bit lower, with half the mask: `IsImageDynamicallyRelocated` 0x08 to 0x04,
`SkipPatchingUser32Forwarders` 0x10 to 0x08, `IsPackagedProcess` 0x20 to 0x10,
`IsAppContainer` 0x40 to 0x20; `ImageUsedLargePages` 0x01 and `IsProtectedProcess` 0x02,
below it, are declared once for both. -/
theorem peb_BitField_shift (a : Arch) :
    (∀ p ∈ [("IsImageDynamicallyRelocated_6_0", "IsImageDynamicallyRelocated_6_3", 0x08, 0x04),
        ("SkipPatchingUser32Forwarders_6_0_SPx", "SkipPatchingUser32Forwarders_6_3", 0x10, 0x08),
        ("IsPackagedProcess_6_2", "IsPackagedProcess_6_3", 0x20, 0x10),
        ("IsAppContainer_6_2", "IsAppContainer_6_3", 0x40, 0x20)],
      flagMask (layout (PEB a)) p.1 = some p.2.2.1 ∧
      flagMask (layout (PEB a)) p.2.1 = some p.2.2.2 ∧
      p.2.2.1 = 2 * p.2.2.2 ∧
      (findMember (layout (PEB a)) [p.1]).map (fun q => q.bitOff) =
        (findMember (layout (PEB a)) [p.2.1]).map (fun q => q.bitOff + 1) ∧
      ⟨p.1, p.2.2.1, true, false⟩ ∈ PEB_BitField_doc ∧
      ⟨p.2.1, p.2.2.2, false, true⟩ ∈ PEB_BitField_doc) ∧
    (flagMask (layout (PEB a)) "IsLegacyProcess" = some 0x04 ∧
      ⟨"IsLegacyProcess", 0x04, true, false⟩ ∈ PEB_BitField_doc) ∧
    (∀ p ∈ [("ImageUsedLargePages", 0x01), ("IsProtectedProcess", 0x02)],
      flagMask (layout (PEB a)) p.1 = some p.2 ∧ ⟨p.1, p.2, true, true⟩ ∈ PEB_BitField_doc) ∧
    (PEB_BitField_doc.filter fun d => d.nt_6_0_to_6_2 && decide (0x04 < d.mask)).map
      (fun d => d.flag) =
      ["IsImageDynamicallyRelocated_6_0", "SkipPatchingUser32Forwarders_6_0_SPx",
        "IsPackagedProcess_6_2", "IsAppContainer_6_2"] := by
  cases a <;> decide!

set_option maxRecDepth 100000 in
/-- C29: in `LDR_DATA_TABLE_ENTRY` every bit-field whose comment gives a mask is in the
`ULONG` at 0x34 / 0x68 with exactly that mask, the first bit-field taking the least
significant bit, and a zero-initialised entry in which only that bit-field is set to 1
holds there exactly the mask; the union of `Flags`, `FlagGroup[4]` and the bit-fields is 4
bytes, as is each of the three alternatives. -/
theorem ldr_flags_masks (a : Arch) :
    (∀ d ∈ LDR_DATA_TABLE_ENTRY_Flags_doc,
      flagMask (layout (LDR_DATA_TABLE_ENTRY a)) d.1 = some d.2 ∧
      (findMember (layout (LDR_DATA_TABLE_ENTRY a)) [d.1]).map (fun p => (p.offset, p.size)) =
        some (a.pick 0x34 0x68, 4) ∧
      (assign (layout (LDR_DATA_TABLE_ENTRY a)) Mem.zero [d.1] 1).map
        (fun m => m.readLE (a.pick 0x34 0x68) 4) = some d.2) ∧
    LDR_DATA_TABLE_ENTRY_Flags_doc =
      [("PackagedBinary", 0x00000001), ("MarkedForRemoval", 0x00000002),
        ("ImageDll", 0x00000004), ("LoadNotificationsSent", 0x00000008),
        ("LoadInProgress", 0x00001000), ("LoadConfigProcessed", 0x00002000),
        ("EntryProcessed", 0x00004000), ("DontCallForThreads", 0x00040000),
        ("ProcessAttachCalled", 0x00080000), ("CorDeferredValidate", 0x00200000),
        ("CorImage", 0x00400000), ("CorILOnly", 0x01000000), ("Redirected", 0x10000000)] ∧
    (findMember (layout (LDR_DATA_TABLE_ENTRY a)) ["PackagedBinary"]).map
      (fun p => p.bitOff) = some 0 ∧
    offsetOf (layout (LDR_DATA_TABLE_ENTRY a)) ["Flags"] = some (a.pick 0x34 0x68) ∧
    LDR_DATA_TABLE_ENTRY_Flags.size = 4 ∧
    { offset := a.pick 0x34 0x68, size := 4,
      alternatives := [("Flags", 4, a.pick 0x38 0x6C), ("FlagGroup", 4, a.pick 0x38 0x6C),
        ("PackagedBinary", 4, a.pick 0x38 0x6C)] } ∈ (LDR_DATA_TABLE_ENTRY a).slots 0 := by
  cases a <;> decide!

set_option maxRecDepth 100000 in
/-- C25 fails as stated: in the 64-bit PEB the union at 0x68 is followed by
`TlsExpansionCounter`, documented `(all)` at 0x70, and its alternatives are not of one
size: `ULONG SparePebPtr0` is 4 bytes, `FreeList` and `ApiSetMap` are 8; and in the 32-bit
TEB the union at 0x38 is followed by the union documented `0x3C 0x70 (3.10 and higher)`,
and `BYTE UnknowByte` is 1 byte beside the 4 bytes of
`ULONG CountOfOwnedCriticalSections`. -/
theorem slots_before_all_versions_not_uniform :
    ({ offset := 0x68, size := 8,
        alternatives := [("FreeList", 8, 0x70), ("SparePebPtr0", 4, 0x6C),
          ("ApiSetMap", 8, 0x70)] } ∈ (PEB .x64).slots 0 ∧
      Slot.followedBy ⟨0x68, 8, [("FreeList", 8, 0x70), ("SparePebPtr0", 4, 0x6C),
        ("ApiSetMap", 8, 0x70)]⟩ PEB_documented_all .x64 = true ∧
      ⟨.always, ["TlsExpansionCounter"], some 0x3C, some 0x70⟩ ∈ PEB_documented_all ∧
      offsetOf (layout (PEB .x64)) ["TlsExpansionCounter"] = some 0x70 ∧
      Slot.uniform ⟨0x68, 8, [("FreeList", 8, 0x70), ("SparePebPtr0", 4, 0x6C),
        ("ApiSetMap", 8, 0x70)]⟩ = false) ∧
    ({ offset := 0x38, size := 4,
        alternatives := [("UnknowByte", 1, 0x39),
          ("CountOfOwnedCriticalSections", 4, 0x3C)] } ∈
        (TEB .x86 (windowsSdk .x86)).slots 0 ∧
      Slot.followedBy ⟨0x38, 4, [("UnknowByte", 1, 0x39),
        ("CountOfOwnedCriticalSections", 4, 0x3C)]⟩ TEB_documented_all .x86 = true ∧
      ⟨.always, [], some 0x3C, some 0x70⟩ ∈ TEB_documented_all ∧
      ⟨true, "nt_3_10_p1", 0x3C⟩ ∈ (TEB .x86 (windowsSdk .x86)).unnamed 0 ∧
      Slot.uniform ⟨0x38, 4, [("UnknowByte", 1, 0x39),
        ("CountOfOwnedCriticalSections", 4, 0x3C)]⟩ = false) := by
  decide!

set_option maxRecDepth 100000 in
/-- C25 amended: the unions the claim lists have alternatives of one size. In the 32-bit
TEB `nt_3_10_p1`, `nt_3_50_p1` and the struct for 4.0 and higher at 0x3C are 0x88 bytes
each, `nt_4_0_p1` and the struct of `User32Reserved`, `UserReserved` at 0x44 are 0x7C bytes
each, `nt_3_10_p2` and the struct for 10.0 and higher at 0xCC are 0xD8 bytes each (0x1B0
each at 0x110 in the 64-bit TEB), `nt_3_10` and the struct for 3.50 and higher at 0x1A8
both end at 0xBF4, and `nt_3_50_p2`, `nt_4_0_p2` and the struct for 5.0 and higher each
end at 0xBE0; in the 32-bit PEB `nt_3_10_p2` and the struct for 3.50 and higher at 0x28 are
0x10 bytes each. Of the unions right before a member or union documented as present in all
versions, `(all)` or `(3.10 and higher)`, every one has alternatives of one size in
`LDR_DATA_TABLE_ENTRY` and in the 64-bit TEB, every one except the union at 0x38 in the
32-bit TEB, and every one except the union at 0x68 in the 64-bit PEB; these two are
selected and are not of one size. -/
theorem slot_alternatives_same_size (a : Arch) :
    (∀ s ∈ [(⟨0x3C, 0x88, [("nt_3_10_p1", 0x88, 0xC4), ("nt_3_50_p1", 0x88, 0xC4),
          ("CsrClientThread", 0x88, 0xC4)]⟩ : Slot),
        ⟨0x44, 0x7C, [("nt_4_0_p1", 0x7C, 0xC0), ("User32Reserved", 0x7C, 0xC0)]⟩,
        ⟨0xCC, 0xD8, [("nt_3_10_p2", 0xD8, 0x1A4),
          ("ReservedForDebuggerInstrumentation", 0xD8, 0x1A4)]⟩,
        ⟨0x1A8, 0xA4C, [("nt_3_10", 0xA4C, 0xBF4), ("nt_3_50_p2", 0xA4C, 0xBF4)]⟩,
        ⟨0x1A8, 0xA38, [("nt_3_50_p2", 0xA38, 0xBE0), ("nt_4_0_p2", 0xA38, 0xBE0),
          ("SpareBytes1", 0xA38, 0xBE0)]⟩],
      s ∈ (TEB .x86 (windowsSdk .x86)).slots 0 ∧ s.uniform = true) ∧
    ((⟨0x110, 0x1B0, [("nt_3_10_p2", 0x1B0, 0x2C0),
        ("ReservedForDebuggerInstrumentation", 0x1B0, 0x2C0)]⟩ : Slot) ∈
      (TEB .x64 (windowsSdk .x64)).slots 0) ∧
    ((⟨0x28, 0x10, [("nt_3_10_p2", 0x10, 0x38), ("EnvironmentUpdateCount", 0x10, 0x38)]⟩ :
      Slot) ∈ (PEB .x86).slots 0) ∧
    (∀ s ∈ (TEB a (windowsSdk a)).slots 0, s.followedBy TEB_documented_all a = true →
      s.uniform = true ∨ (a = .x86 ∧ s.offset = 0x38)) ∧
    (∀ s ∈ (PEB a).slots 0, s.followedBy PEB_documented_all a = true →
      s.uniform = true ∨ (a = .x64 ∧ s.offset = 0x68)) ∧
    (∀ s ∈ (LDR_DATA_TABLE_ENTRY a).slots 0,
      s.followedBy LDR_DATA_TABLE_ENTRY_documented_all a = true → s.uniform = true) ∧
    (((TEB a (windowsSdk a)).slots 0).filter
        (fun s => s.followedBy TEB_documented_all a && !s.uniform) =
      (match a with
        | .x86 => [⟨0x38, 4, [("UnknowByte", 1, 0x39),
            ("CountOfOwnedCriticalSections", 4, 0x3C)]⟩]
        | .x64 => [])) ∧
    (((PEB a).slots 0).filter (fun s => s.followedBy PEB_documented_all a && !s.uniform) =
      (match a with
        | .x86 => []
        | .x64 => [⟨0x68, 8, [("FreeList", 8, 0x70), ("SparePebPtr0", 4, 0x6C),
            ("ApiSetMap", 8, 0x70)]⟩])) := by
  cases a <;> decide!

/-- Witness of C25 amended at the union at 0xCC of the 32-bit TEB, which is followed by
the union documented `// 0x01A4 0x02C0 (all)`. -/
theorem slot_alternatives_same_size_witness :
    Slot.uniform ⟨0xCC, 0xD8, [("nt_3_10_p2", 0xD8, 0x1A4),
      ("ReservedForDebuggerInstrumentation", 0xD8, 0x1A4)]⟩ = true :=
  ((slot_alternatives_same_size .x86).2.2.2.1
    ⟨0xCC, 0xD8, [("nt_3_10_p2", 0xD8, 0x1A4),
      ("ReservedForDebuggerInstrumentation", 0xD8, 0x1A4)]⟩
    (((slot_alternatives_same_size .x86).1 _ (by decide)).1) (by decide)).resolve_right
    (by decide)

/-! ## The ideal processor of the TEB -/

set_option maxRecDepth 100000 in
/-- The place of `IdealProcessor` in the TEB. -/
theorem findMember_IdealProcessor (a : Arch) :
    findMember (layout (TEB a (windowsSdk a))) ["IdealProcessor"] =
      some ⟨["IdealProcessor"], a.pick 0xF77 0x1747, 1, 0, 0⟩ := by
  cases a <;> decide!

set_option maxRecDepth 100000 in
/-- C30: in the union at 0xF74 / 0x1744 of the TEB, `InDbgPrint`, `FreeStackOnTermination`
and `HasFiberData_5_1` are the bytes 0, 1 and 2 and the `UCHAR IdealProcessor` is byte 3, at
0xF77 / 0x1747; `Group`, `Number` and `Reserved` of `CurrentIdealProcessor` are the bytes 0
to 1, 2 and 3, so `Reserved` is the byte of `IdealProcessor`; a value stored in
`IdealProcessor` of a zero-initialised TEB is read in `IdealProcessorValue`, as
little-endian `ULONG`, in the most significant byte; every alternative and the union are 4
bytes; and `GuaranteedStackBytes` is at 0xF78 / 0x1748. -/
theorem teb_IdealProcessor_byte (a : Arch) :
    (∀ p ∈ [(["InDbgPrint"], 0, 1), (["FreeStackOnTermination"], 1, 1),
        (["HasFiberData_5_1"], 2, 1), (["IdealProcessor"], 3, 1),
        (["CurrentIdealProcessor"], 0, 4), (["CurrentIdealProcessor", "Group"], 0, 2),
        (["CurrentIdealProcessor", "Number"], 2, 1),
        (["CurrentIdealProcessor", "Reserved"], 3, 1), (["IdealProcessorValue"], 0, 4),
        (["Spare2"], 0, 4), (["GuaranteedStackBytes"], 4, 4)],
      findMember (layout (TEB a (windowsSdk a))) p.1 =
        some ⟨p.1, a.pick 0xF74 0x1744 + p.2.1, p.2.2, 0, 0⟩) ∧
    offsetOf (layout (TEB a (windowsSdk a))) ["IdealProcessor"] = some (a.pick 0xF77 0x1747) ∧
    offsetOf (layout (TEB a (windowsSdk a))) ["GuaranteedStackBytes"] =
      some (a.pick 0xF78 0x1748) ∧
    (∀ v, (assign (layout (TEB a (windowsSdk a))) Mem.zero ["IdealProcessor"] v).map
        (fun m => m.readLE (a.pick 0xF74 0x1744) 4) = some (v % 256 * 2 ^ 24)) ∧
    { offset := a.pick 0xF74 0x1744, size := 4,
      alternatives := [("Spare2", 4, a.pick 0xF78 0x1748),
        ("CurrentIdealProcessor", 4, a.pick 0xF78 0x1748),
        ("IdealProcessorValue", 4, a.pick 0xF78 0x1748),
        ("InDbgPrint", 4, a.pick 0xF78 0x1748)] } ∈ (TEB a (windowsSdk a)).slots 0 := by
  refine ⟨by cases a <;> decide!, by cases a <;> decide!, by cases a <;> decide!, ?_,
    by cases a <;> decide!⟩
  intro v
  have h := findMember_IdealProcessor a
  cases a <;>
    simp [assign, h, Arch.pick, Mem.readLE, Mem.writeLE, Mem.zero] <;> omega

/-! ## Groups of bit-fields -/

/-- C31 fails as stated: `RTL_BALANCED_NODE`, the type of `BaseAddressIndexNode` and
`MappingInfoIndexNode` of `LDR_DATA_TABLE_ENTRY`, declares `UCHAR Red : 1` and
`UCHAR Balance : 2` as alternatives of a union, and neither fills its 8-bit unit. -/
theorem rtl_balanced_node_bits_do_not_fill :
    (RTL_BALANCED_NODE .x86).bitGroups = [⟨"Red", 1, [1]⟩, ⟨"Balance", 1, [2]⟩] ∧
    ⟨"Red", 1, [1]⟩ ∈ (LDR_DATA_TABLE_ENTRY .x86).bitGroups ∧
    BitGroup.fills ⟨"Red", 1, [1]⟩ = false ∧ BitGroup.fills ⟨"Balance", 1, [2]⟩ = false ∧
    offsetOf (layout (LDR_DATA_TABLE_ENTRY .x86)) ["BaseAddressIndexNode"] = some 0x68 ∧
    (findMember (layout (LDR_DATA_TABLE_ENTRY .x86)) ["BaseAddressIndexNode", "Red"]).map
      (fun p => (p.size, p.bitWidth)) = some (1, 1) := by
  decide!

set_option maxRecDepth 100000 in
/-- C31 amended: every group of bit-fields of the PEB, of the TEB and of the flags of
`LDR_DATA_TABLE_ENTRY` fills its storage unit: the widths of each of the eight views of the
PEB `BitField` byte sum to 8, those of `CrossProcessFlags`, of `ExecuteOptions` with
`SpareBits_0x34` (32-bit layout only), of `TracingFlags` and of `LeapSecondFlags` to 32,
those of the flags of `LDR_DATA_TABLE_ENTRY` to 32, those of `SpareCrossTebBits` and of
`SameTebFlags` to 16; every union around them has the size of its plain integer member, as
has every alternative of it (1, 4, 4, 4, 4, 4 and 2 bytes); the only groups of
`LDR_DATA_TABLE_ENTRY` that do not fill their unit are `Red` and `Balance` of its two
`RTL_BALANCED_NODE` members, in a union of the size of `ParentValue`. -/
theorem bit_groups_fill_units (a : Arch) :
    ((∀ g ∈ (PEB a).bitGroups, g.fills = true) ∧
      (PEB a).bitGroups.map (fun g => (g.first, g.unitSize, g.widths.sum)) =
        [("ImageUsedLargePages", 1, 8), ("SpareBits_0x03_01", 1, 8),
          ("SpareBits_0x03_03", 1, 8), ("SpareBits_0x03_05", 1, 8),
          ("SpareBits_0x03_07", 1, 8), ("SpareBits_0x03_09", 1, 8),
          ("SpareBits_0x03_11", 1, 8), ("SpareBits_0x03_13", 1, 8), ("ProcessInJob", 4, 32)] ++
        (match a with
          | .x86 => [("ExecuteOptions", 4, 32)]
          | .x64 => []) ++
        [("HeapTracingEnabled", 4, 32), ("SixtySecondEnabled", 4, 32)]) ∧
    ((∀ g ∈ (TEB a (windowsSdk a)).bitGroups, g.fills = true) ∧
      (TEB a (windowsSdk a)).bitGroups.map (fun g => (g.first, g.unitSize, g.widths.sum)) =
        [("SpareCrossTebBits", 2, 16), ("SafeThunkCall", 2, 16)]) ∧
    ((∀ g ∈ LDR_DATA_TABLE_ENTRY_Flags.bitGroups, g.fills = true) ∧
      LDR_DATA_TABLE_ENTRY_Flags.bitGroups.map (fun g => (g.first, g.unitSize, g.widths.sum)) =
        [("PackagedBinary", 4, 32)]) ∧
    (LDR_DATA_TABLE_ENTRY a).bitGroups.filter (fun g => !g.fills) =
      [⟨"Red", 1, [1]⟩, ⟨"Balance", 1, [2]⟩, ⟨"Red", 1, [1]⟩, ⟨"Balance", 1, [2]⟩] ∧
    (unionSizesOf (PEB a) "BitField" = [(1, true), (1, true)] ∧
      unionSizesOf (PEB a) "CrossProcessFlags" = [(4, true)] ∧
      unionSizesOf (PEB .x86) "ExecuteOptions" = [(4, true)] ∧
      unionSizesOf (PEB a) "TracingFlags" = [(4, true)] ∧
      unionSizesOf (PEB a) "LeapSecondFlags" = [(4, true)] ∧
      unionSizesOf (LDR_DATA_TABLE_ENTRY a) "Flags" = [(4, true)] ∧
      unionSizesOf (TEB a (windowsSdk a)) "CrossTebFlags" = [(2, true)] ∧
      unionSizesOf (TEB a (windowsSdk a)) "SameTebFlags" = [(2, true)]) ∧
    (unionSizesOf (RTL_BALANCED_NODE a) "ParentValue" = [(a.ptr, false)] ∧
      (RTL_BALANCED_NODE a).size = 3 * a.ptr) := by
  cases a <;> decide!

/-- Witness of C31 amended at the first view of the PEB `BitField` byte,
`ImageUsedLargePages : 1` with `SpareBits_0x03_00 : 7`. -/
theorem bit_groups_fill_units_witness :
    BitGroup.fills ⟨"ImageUsedLargePages", 1, [1, 7]⟩ = true :=
  (bit_groups_fill_units .x64).1.1 ⟨"ImageUsedLargePages", 1, [1, 7]⟩ (by decide)

/-- Rounding up gives a multiple of the alignment that is exactly the given one when that
one lies in the window of the size. -/
theorem alignUp_eq_iff (s p E : Nat) (hp : 0 < p) (hd : p ∣ E) :
    alignUp s p = E ↔ E < s + p ∧ s ≤ E := by
  constructor
  · rintro rfl
    exact ⟨alignUp_lt s p hp, le_alignUp s p hp⟩
  · rintro ⟨h1, h2⟩
    obtain ⟨q, rfl⟩ := hd
    obtain ⟨r, hr⟩ := alignUp_dvd s p
    have h3 := alignUp_lt s p hp
    have h4 := le_alignUp s p hp
    rw [hr] at h3 h4 ⊢
    have e1 : p * r < p * (q + 1) := by rw [Nat.mul_add, Nat.mul_one]; omega
    have e2 : p * q < p * (r + 1) := by rw [Nat.mul_add, Nat.mul_one]; omega
    have e3 := Nat.lt_of_mul_lt_mul_left e1
    have e4 := Nat.lt_of_mul_lt_mul_left e2
    have e5 : r = q := by omega
    rw [e5]

/-- With an expected size other than `SIZE_MAX`, a power-of-two alignment and no wrap,
`check_sizeof` accepts exactly the sizes that round up to the expected size. -/
theorem check_sizeof_eq_true_iff (a : Arch) (k s e86 e64 : Nat)
    (hE : a.pick e86 e64 ≠ SIZE_MAX a) (hs : s + 2 ^ k - 1 < 2 ^ a.width) :
    check_sizeof a s e86 e64 (2 ^ k) = true ↔ alignUp s (2 ^ k) = a.pick e86 e64 := by
  rw [← ALIGN_POT_eq_alignUp a k s hs]
  cases a <;> simp [check_sizeof, Arch.pick] at hE ⊢ <;> simp [hE]

/-! ## What a size check pins down -/

/-- C32: on a build for architecture `a`, for the alignment `2 ^ k`, an expected size `E`
of the architecture other than `SIZE_MAX` and a raw size `s` with `s + 2 ^ k - 1` below
`2 ^ w`: if `2 ^ k` divides `E`, `check_sizeof` accepts `s` exactly when `E - 2 ^ k < s`
and `s ≤ E`; if `2 ^ k` does not divide `E`, `check_sizeof` rejects `s`. So it is for the
size 0x0FBC of the 32-bit TEB of late 5.2, the alignment of the TEB being 8: every raw size
is rejected. -/
theorem check_sizeof_accepts_window (a : Arch) (k s e86 e64 : Nat)
    (hE : a.pick e86 e64 ≠ SIZE_MAX a) (hs : s + 2 ^ k - 1 < 2 ^ a.width) :
    (2 ^ k ∣ a.pick e86 e64 →
      (check_sizeof a s e86 e64 (2 ^ k) = true ↔
        a.pick e86 e64 < s + 2 ^ k ∧ s ≤ a.pick e86 e64)) ∧
    (¬ 2 ^ k ∣ a.pick e86 e64 → check_sizeof a s e86 e64 (2 ^ k) = false) ∧
    (⟨"late 5.2 (SP1 and higher)", some 0x0FBC, some 0x17D8, ["nt_5_2_sp1_p2"]⟩ ∈
        TEB_size_table ∧
      (TEB .x86 (windowsSdk .x86)).align = 2 ^ 3 ∧
      ∀ r x64, r + 2 ^ 3 - 1 < 2 ^ Arch.x86.width →
        check_sizeof .x86 r 0x0FBC x64 (2 ^ 3) = false) := by
  have hp : 0 < 2 ^ k := Nat.two_pow_pos k
  have hc := check_sizeof_eq_true_iff a k s e86 e64 hE hs
  refine ⟨?_, ?_, by decide, by decide!, ?_⟩
  · intro hd
    rw [hc]
    exact alignUp_eq_iff s (2 ^ k) _ hp hd
  · intro hd
    cases h : check_sizeof a s e86 e64 (2 ^ k)
    · rfl
    · exact absurd (hc.mp h ▸ alignUp_dvd s (2 ^ k)) hd
  · intro r x64 hr
    cases h : check_sizeof .x86 r 0x0FBC x64 (2 ^ 3)
    · rfl
    · have hne : Arch.x86.pick 0x0FBC x64 ≠ SIZE_MAX .x86 := by
        show 0x0FBC ≠ SIZE_MAX .x86
        decide
      have h2 := (check_sizeof_eq_true_iff .x86 3 r 0x0FBC x64 hne hr).mp h
      have h3 : 2 ^ 3 ∣ 0x0FBC := by
        have h4 : alignUp r (2 ^ 3) = 0x0FBC := h2
        exact h4 ▸ alignUp_dvd r (2 ^ 3)
      exact absurd h3 (by decide)

/-- Witness of C32 at `check_sizeof(0x14C, 0x150, SIZE_MAX, 8)` on the 32-bit build, as for
the PEB of version 4.0: the raw size 0x14C lies in the window of 0x150 and passes. -/
theorem check_sizeof_accepts_window_witness :
    Arch.x86.pick 0x150 (SIZE_MAX .x86) ≠ SIZE_MAX .x86 ∧
    0x14C + 2 ^ 3 - 1 < 2 ^ Arch.x86.width ∧
    check_sizeof .x86 0x14C 0x150 (SIZE_MAX .x86) (2 ^ 3) = true :=
  ⟨by decide, by decide,
    ((check_sizeof_accepts_window .x86 3 0x14C 0x150 (SIZE_MAX .x86) (by decide)
      (by decide)).1 (by decide)).mpr (by decide)⟩

/-! ## The status macros -/

/-- C33: for every status value exactly one of the four severity classes holds, severity 0
(`((ULONG)s >> 30) == 0`), `NT_INFORMATION`, `NT_WARNING` or `NT_ERROR`; and `NT_SUCCESS`
holds exactly when the severity is 0 or `NT_INFORMATION` holds, that is exactly when neither
`NT_WARNING` nor `NT_ERROR` holds. -/
theorem nt_status_severity (s : Int) :
    ([toULONG s >>> 30 == 0, NT_INFORMATION s, NT_WARNING s, NT_ERROR s].filter id).length =
      1 ∧
    (NT_SUCCESS s = true ↔ (toULONG s >>> 30 == 0) = true ∨ NT_INFORMATION s = true) ∧
    (NT_SUCCESS s = true ↔ NT_WARNING s = false ∧ NT_ERROR s = false) := by
  have h0 : (0 : Int) ≤ s % 2 ^ 32 := Int.emod_nonneg s (by norm_num)
  have h1 : s % 2 ^ 32 < 2 ^ 32 := Int.emod_lt_of_pos s (by norm_num)
  have hu : ((toULONG s : Nat) : Int) = s % 2 ^ 32 := Int.toNat_of_nonneg h0
  have hq : toULONG s >>> 30 = toULONG s / 2 ^ 30 := Nat.shiftRight_eq_div_pow _ _
  have hlt : toULONG s < 2 ^ 32 := by omega
  have hq4 : toULONG s / 2 ^ 30 < 4 := by omega
  have hs : NT_SUCCESS s = true ↔ toULONG s / 2 ^ 30 < 2 := by
    unfold NT_SUCCESS toNTSTATUS
    rw [decide_eq_true_iff]
    split <;> omega
  unfold NT_INFORMATION NT_WARNING NT_ERROR
  rw [hs, hq]
  generalize toULONG s / 2 ^ 30 = q at hq4
  interval_cases q <;> simp

end WinPolyfill
